import Mathlib

/-! # ToyVerse storefront: the client-side recommendation heuristic

A shallow embedding of `src/js/brand-suggestions.js` (the recommender
`generateRecommendations`, the page loader `loadRecommendations` and the add-to-cart
handler), of the view-history trackers of `catalog.js` and `product-details.js`, of
the API client `api.js`, of the handlers of `cart.js`, `wishlist.js` and
`chatbot.js` that load a page, clear the wishlist and answer a chat message, of the
product filters of the catalog and recommendations pages, of the form validation of
`profile.js` and `auth.js`, of the access check of `admin.js`, and of the quantity
controls of `cart.js` and `product-details.js`.

Modelling conventions.

* Ratings, review counts and the comparators built from them are idealised as exact
  rationals (`ℚ`). The price band of the budget picks is computed as the program
  computes it, in IEEE 754 double arithmetic (`JsNumber`: round to nearest, ties to
  even, with `NaN` and the infinities; every comparison with `NaN` is false).
* A plain object `{}` inherits from `Object.prototype`: a read of a key that is not
  an own property finds the inherited value, and an assignment to `__proto__` of a
  value that is not an object does nothing.
* A product identifier is a JavaScript value that is either a number or a string;
  `Array.prototype.includes` and `Set.prototype.has` compare such values without
  conversion, so the number `2` and the string `"2"` are different values.
* A catalog record carries a numeric `price` and `rating` and a review count
  `reviews` that is a natural number; product categories are strings.
* A handler that talks to the outside world returns the list of its effects (calls
  of `fetch`, alerts, redirects, dispatched events) in order, and takes as argument
  what the network answers to each call it makes.
* `Array.prototype.sort` is stable and reads a comparator result `NaN` as `+0`; for
  a comparator that is a consistent ordering its result is the unique stable sorted
  rearrangement, which is what the stable insertion sort `jsSort` computes. For a
  comparator that is not consistent the language leaves the order to the
  implementation; the model keeps the insertion sort.
-/

namespace ToyVerse

/-! ## Data model -/

/-- A JavaScript value used as a product identifier. -/
inductive JsId where
  | num (n : Nat)
  | str (s : String)
  deriving DecidableEq, Repr

/-- The conversion `String(v)`. -/
def JsId.toJsString : JsId → String
  | .num n => toString n
  | .str s => s

/-- A product record as delivered by the product listing call. -/
structure Product where
  id : JsId
  title : String
  description : Option String
  price : ℚ
  stock : Nat
  rating : ℚ
  reviews : Nat
  category : String
  deriving DecidableEq

/-- One element of the `product_view_history` array kept in local storage. -/
structure HistoryEntry where
  product_id : JsId
  category : Option String
  timestamp : String
  type : String
  deriving DecidableEq

/-- A value stored in the tally `categoryCount` and carried as `categoryScore`: a
number (a count of products, which a double holds exactly), or the string that `+ 1`
makes of a value that is not a number. -/
inductive TallyValue where
  | count (n : Nat)
  | text (s : String)
  deriving DecidableEq

/-- A recommended product: the spread product record plus `reason` and, for the
category picks only, `categoryScore`. -/
structure Recommendation where
  product : Product
  reason : String
  categoryScore : Option TallyValue
  deriving DecidableEq

/-- The field `id` of a recommendation is the one of the spread product. -/
def Recommendation.id (r : Recommendation) : JsId := r.product.id

/-- Outcome of `await api.getProducts()`. -/
inductive ProductsResponse where
  /-- The call threw (network failure or non-2xx answer). -/
  | rejected (message : String)
  /-- The call resolved to a JSON value that is not an array. -/
  | notAnArray
  /-- The call resolved to an array of product records. -/
  | products (ps : List Product)

/-! ## JavaScript library operations -/

/-- The stable sort `Array.prototype.sort(cmp)`: `a` is placed before `b` when
`cmp a b < 0`, and elements with `cmp a b = 0` keep their input order. A comparator
result `NaN` is read by `sort` as `+0` and is written `0` by the comparators below. -/
def jsSort {α : Type} (cmp : α → α → ℚ) (l : List α) : List α :=
  l.insertionSort (fun a b => cmp a b ≤ 0)

/-- The expression `n || 1` on a count. -/
def orOne (n : Nat) : Nat := if n = 0 then 1 else n

/-- The expression `x || 0` on a possibly absent count. -/
def orZero : Option Nat → Nat
  | none => 0
  | some n => n

/-- The object `categoryCount`, as the list of its own properties in creation
order. -/
abbrev JsObject := List (String × TallyValue)

/-- The own property `k` of `o`, if there is one. -/
def objGet : JsObject → String → Option TallyValue
  | [], _ => none
  | (k', v) :: rest, k => if k' = k then some v else objGet rest k

/-- Creation or update of the own property `k`: an existing property keeps its
position, a new one is created last. -/
def objSet : JsObject → String → TallyValue → JsObject
  | [], k, v => [(k, v)]
  | (k', v') :: rest, k, v =>
    if k' = k then (k', v) :: rest else (k', v') :: objSet rest k v

/-- Whether a property key is an array index: the canonical decimal form of an
integer below `2^32 - 1`. -/
def isArrayIndex (k : String) : Bool :=
  match k.toNat? with
  | some n => decide (toString n = k) && decide (n < 4294967295)
  | none => false

/-- Numeric value of an array-index key. -/
def indexValue (k : String) : Nat := k.toNat?.getD 0

/-- The list `Object.entries(o)`: array-index keys in ascending numeric order,
then the other keys in creation order. -/
def objectEntries (o : JsObject) : List (String × TallyValue) :=
  (o.filter (fun e => isArrayIndex e.1)).insertionSort
      (fun a b => indexValue a.1 ≤ indexValue b.1)
    ++ o.filter (fun e => !isArrayIndex e.1)

/-! ## JavaScript numbers -/

/-- A JavaScript number: `NaN`, an infinity, or a finite double, given by the
rational it denotes. The sign of a zero is not kept: it shows only in a division by
zero, and the one divisor of the program, a length, is never negative. -/
inductive JsNumber where
  | nan
  | infinite (positive : Bool)
  | finite (value : ℚ)
  deriving DecidableEq

/-- The power `2 ^ k` for an integer exponent. -/
def pow2 (k : Int) : ℚ :=
  if 0 ≤ k then (2 : ℚ) ^ k.toNat else 1 / (2 : ℚ) ^ (-k).toNat

/-- Halving `n` until it is below 2, at most `fuel` times: the number of halvings. -/
def halvings : Nat → Nat → Nat
  | 0, _ => 0
  | fuel + 1, n => if n < 2 then 0 else halvings fuel (n / 2) + 1

/-- The position of the highest bit of a positive `n`: the `k` with
`2 ^ k ≤ n < 2 ^ (k + 1)`. -/
def highBit (n : Nat) : Nat := halvings n n

/-- The exponent `e` with `2 ^ e ≤ a < 2 ^ (e + 1)`, for a positive `a`. -/
def binaryExponent (a : ℚ) : Int :=
  let k : Int := (highBit a.num.natAbs : Int) - (highBit a.den : Int)
  if pow2 k ≤ a then k else k - 1

/-- The integer nearest to a non-negative `m`, the even one of two that are equally
near. -/
def roundHalfEven (m : ℚ) : Int :=
  let floor : Int := m.num / (m.den : Int)
  let rest : ℚ := m - (floor : ℚ)
  if rest < 1 / 2 then floor
  else if 1 / 2 < rest then floor + 1
  else if floor % 2 = 0 then floor else floor + 1

/-- The double nearest to a rational (round to nearest, ties to even): 53 significant
bits, exponents from -1022 (below that the spacing stays `2 ^ -1074`) to 1023, and an
infinity from `2 ^ 1024` on. This is the value of a numeric literal and of
`Number(x)` for a number or numeric string, and the rounding of every arithmetic
result. -/
def roundDouble (q : ℚ) : JsNumber :=
  if q = 0 then .finite 0
  else
    let a := if 0 < q then q else -q
    let e := max (binaryExponent a) (-1022)
    let quantum := pow2 (e - 52)
    let r := (roundHalfEven (a / quantum) : ℚ) * quantum
    if pow2 1024 ≤ r then .infinite (decide (0 < q))
    else .finite (if 0 < q then r else -r)

/-- The sum `x + y` of two numbers. -/
def JsNumber.add : JsNumber → JsNumber → JsNumber
  | .finite a, .finite b => roundDouble (a + b)
  | .nan, _ => .nan
  | _, .nan => .nan
  | .infinite s, .infinite t => if s = t then .infinite s else .nan
  | .infinite s, .finite _ => .infinite s
  | .finite _, .infinite t => .infinite t

/-- The product `x * y` of two numbers. -/
def JsNumber.mul : JsNumber → JsNumber → JsNumber
  | .finite a, .finite b => roundDouble (a * b)
  | .nan, _ => .nan
  | _, .nan => .nan
  | .infinite s, .infinite t => .infinite (s == t)
  | .infinite s, .finite b => if b = 0 then .nan else .infinite (s == decide (0 < b))
  | .finite a, .infinite t => if a = 0 then .nan else .infinite (decide (0 < a) == t)

/-- The quotient `x / y` of two numbers; a zero divisor is `+0`. -/
def JsNumber.div : JsNumber → JsNumber → JsNumber
  | .finite a, .finite b =>
    if b = 0 then (if a = 0 then .nan else .infinite (decide (0 < a)))
    else roundDouble (a / b)
  | .nan, _ => .nan
  | _, .nan => .nan
  | .infinite _, .infinite _ => .nan
  | .infinite s, .finite b => .infinite (s == decide (0 ≤ b))
  | .finite _, .infinite _ => .finite 0

/-- The comparison `x <= y`, which is `y >= x`; it is false when an operand is
`NaN`. -/
def JsNumber.le : JsNumber → JsNumber → Bool
  | .finite a, .finite b => decide (a ≤ b)
  | .nan, _ => false
  | _, .nan => false
  | .infinite s, .infinite t => !s || t
  | .infinite s, .finite _ => !s
  | .finite _, .infinite t => t

/-! ## The recommender -/

/-- The popularity score `p.rating * (p.reviews || 1)`. -/
def popularity (p : Product) : ℚ := p.rating * (orOne p.reviews : ℚ)

/-- The comparator `(a, b) => b.rating * (b.reviews || 1) - a.rating * (a.reviews || 1)`. -/
def byPopularity (a b : Product) : ℚ := popularity b - popularity a

/-- The number a tally value stands for in a subtraction, `none` for `NaN`. The
strings of the tally start with `function` or `[object`, so none of them is a
numeral. -/
def TallyValue.toNumber : TallyValue → Option ℚ
  | .count n => some n
  | .text s => if s = "" then some 0 else none

/-- The number `x.categoryScore || 0` stands for in a subtraction, `none` for `NaN`:
a missing score and a falsy one give 0. -/
def scoreNumber : Option TallyValue → Option ℚ
  | none => some 0
  | some v => v.toNumber

/-- The difference `y - x` of two operands as a comparator result: `NaN`, which `sort`
reads as `+0`, when an operand is `NaN`. -/
def differenceOrZero (y x : Option ℚ) : ℚ :=
  match y, x with
  | some y, some x => y - x
  | _, _ => 0

/-- The comparator `(a, b) => (b.categoryScore || 0) - (a.categoryScore || 0)`. -/
def byCategoryScore (a b : Recommendation) : ℚ :=
  differenceOrZero (scoreNumber b.categoryScore) (scoreNumber a.categoryScore)

/-- The comparator `(a, b) => b[1] - a[1]` on object entries. -/
def byCount (a b : String × TallyValue) : ℚ :=
  differenceOrZero b.2.toNumber a.2.toNumber

/-- The list `viewHistory.map(v => v.product_id)`. -/
def viewedIdsOf (viewHistory : List HistoryEntry) : List JsId :=
  viewHistory.map (fun v => v.product_id)

/-- The test `viewedIds.includes(String(p.id))`. -/
def isViewed (viewedIds : List JsId) (p : Product) : Bool :=
  decide (JsId.str p.id.toJsString ∈ viewedIds)

/-- The list `allProducts.filter(p => viewedIds.includes(String(p.id)))`. -/
def viewedProductsOf (viewHistory : List HistoryEntry) (allProducts : List Product) :
    List Product :=
  allProducts.filter (fun p => isViewed (viewedIdsOf viewHistory) p)

/-- The source text of a native function, as V8 and JavaScriptCore print it. -/
def nativeFunctionText (name : String) : String :=
  "function " ++ name ++ "() \x7b [native code] \x7d"

/-- The names of the methods that a plain object inherits from `Object.prototype`,
`constructor` apart. -/
def objectPrototypeMethods : List String :=
  ["__defineGetter__", "__defineSetter__", "hasOwnProperty", "__lookupGetter__",
   "__lookupSetter__", "isPrototypeOf", "propertyIsEnumerable", "toString", "valueOf",
   "toLocaleString"]

/-- The string conversion of what a read `o[k]` finds on `Object.prototype` when `o`
is a plain object without own property `k`: the prototype itself for `__proto__`,
the function `Object` for `constructor`, a method for its name, and nothing for
every other key. -/
def inheritedText (k : String) : Option String :=
  if k = "__proto__" then some "[object Object]"
  else if k = "constructor" then some (nativeFunctionText "Object")
  else if k ∈ objectPrototypeMethods then some (nativeFunctionText k)
  else none

/-- The expression `(categoryCount[k] || 0) + 1`: a number is incremented, a string
gets the character `1` appended, and so does an inherited function or object
(which is truthy) after its conversion to a string. -/
def incremented (o : JsObject) (k : String) : TallyValue :=
  match objGet o k with
  | some (.count n) => .count (n + 1)
  | some (.text s) => if s = "" then .count 1 else .text (s ++ "1")
  | none =>
    match inheritedText k with
    | some t => .text (t ++ "1")
    | none => .count 1

/-- The statement `categoryCount[k] = (categoryCount[k] || 0) + 1`. The key
`__proto__` is an accessor of `Object.prototype` whose setter ignores a value that
is not an object, so that assignment creates no property. -/
def tallyStep (o : JsObject) (k : String) : JsObject :=
  if k = "__proto__" then o else objSet o k (incremented o k)

/-- The tally built by
`viewedProducts.forEach(p => categoryCount[p.category] = (categoryCount[p.category] || 0) + 1)`. -/
def categoryCountOf (viewedProducts : List Product) : JsObject :=
  viewedProducts.foldl (fun o p => tallyStep o p.category) []

/-- The list `Object.entries(categoryCount).sort((a, b) => b[1] - a[1]).map(e => e[0])`. -/
def sortedCategoriesOf (categoryCount : JsObject) : List String :=
  (jsSort byCount (objectEntries categoryCount)).map (fun e => e.1)

/-- Empty-history branch: the twelve most popular products, tagged `Popular`. -/
def popularPicks (allProducts : List Product) : List Recommendation :=
  ((jsSort byPopularity allProducts).take 12).map
    (fun p => { product := p, reason := "Popular", categoryScore := none })

/-- Priority 1, for one preferred category: its eight most popular unseen products. -/
def categoryPicks (viewedIds : List JsId) (categoryCount : JsObject)
    (allProducts : List Product) (category : String) : List Recommendation :=
  ((jsSort byPopularity
      (allProducts.filter (fun p =>
        decide (p.category = category) && !isViewed viewedIds p))).take 8).map
    (fun p => { product := p, reason := "You like " ++ category,
                categoryScore := objGet categoryCount category })

/-- The average `viewedProducts.reduce((sum, p) => sum + Number(p.price), 0) / viewedProducts.length`,
in double arithmetic; it is `NaN` (from `0 / 0`) when no product was viewed. -/
def avgPriceOf (viewedProducts : List Product) : JsNumber :=
  (viewedProducts.foldl (fun (sum : JsNumber) p => sum.add (roundDouble p.price))
      (JsNumber.finite 0)).div
    (roundDouble (viewedProducts.length : ℚ))

/-- The test `price >= avgPrice * 0.7 && price <= avgPrice * 1.3` for
`price = Number(p.price)`, in double arithmetic. -/
def inPriceBand (avgPrice : JsNumber) (price : ℚ) : Bool :=
  (avgPrice.mul (roundDouble (7 / 10))).le (roundDouble price)
    && (roundDouble price).le (avgPrice.mul (roundDouble (13 / 10)))

/-- Priority 2: up to five unseen products of preferred categories priced within
30% of the average viewed price. -/
def budgetPicks (viewedIds : List JsId) (sortedCategories : List String)
    (avgPrice : JsNumber) (allProducts : List Product) : List Recommendation :=
  ((jsSort byPopularity
      (allProducts.filter (fun p =>
        !isViewed viewedIds p && inPriceBand avgPrice p.price &&
          decide (p.category ∈ sortedCategories)))).take 5).map
    (fun p => { product := p, reason := "Matches your budget", categoryScore := none })

/-- Priority 3: the eight most popular unseen products of the preferred categories. -/
def trendingPicks (viewedIds : List JsId) (sortedCategories : List String)
    (allProducts : List Product) : List Recommendation :=
  ((jsSort byPopularity
      (allProducts.filter (fun p =>
        decide (p.category ∈ sortedCategories) && !isViewed viewedIds p))).take 8).map
    (fun p => { product := p, reason := "Trending in your interests", categoryScore := none })

/-- The candidate list `recommendations` before sorting: the three groups in the
order in which they are pushed, each gated by the recommendation type. The write of
`product_categories_viewed` to local storage has no effect on the list and is left
out. -/
def candidates (recType : String) (viewHistory : List HistoryEntry)
    (allProducts : List Product) : List Recommendation :=
  let viewedIds := viewedIdsOf viewHistory
  let viewedProducts := viewedProductsOf viewHistory allProducts
  let categoryCount := categoryCountOf viewedProducts
  let sortedCategories := sortedCategoriesOf categoryCount
  (if recType = "all" ∨ recType = "category" then
      sortedCategories.flatMap (categoryPicks viewedIds categoryCount allProducts)
    else [])
  ++ (if recType = "all" ∨ recType = "viewed" then
      budgetPicks viewedIds sortedCategories (avgPriceOf viewedProducts) allProducts
    else [])
  ++ (if recType = "all" ∨ recType = "popular" then
      trendingPicks viewedIds sortedCategories allProducts
    else [])

/-- The de-duplication loop: a candidate is kept when its id is not yet in `seenIds`. -/
def uniqueRecsFrom (seenIds : List JsId) : List Recommendation → List Recommendation
  | [] => []
  | rec :: rest =>
    if rec.id ∈ seenIds then uniqueRecsFrom seenIds rest
    else rec :: uniqueRecsFrom (rec.id :: seenIds) rest

/-- The candidates sorted by `categoryScore`, highest first. -/
def rankedCandidates (recType : String) (viewHistory : List HistoryEntry)
    (allProducts : List Product) : List Recommendation :=
  jsSort byCategoryScore (candidates recType viewHistory allProducts)

/-- The recommender once the history is parsed and the catalog fetched. -/
def recommend (recType : String) (viewHistory : List HistoryEntry)
    (allProducts : List Product) : List Recommendation :=
  if viewHistory.length = 0 then popularPicks allProducts
  else (uniqueRecsFrom [] (rankedCandidates recType viewHistory allProducts)).take 20

/-- The array behind `allProducts`, or the exception raised on first use. -/
def ProductsResponse.array : ProductsResponse → Except String (List Product)
  | .rejected message => .error message
  | .notAnArray => .error "TypeError: allProducts is not an array"
  | .products ps => .ok ps

/-- The `try` block of `generateRecommendations`: `stored` is the outcome of
`JSON.parse(localStorage.getItem('product_view_history') || '[]')`. -/
def generateRecommendationsBody (recType : String)
    (stored : Except String (List HistoryEntry)) (fetched : ProductsResponse) :
    Except String (List Recommendation) := do
  let viewHistory ← stored
  let allProducts ← fetched.array
  return recommend recType viewHistory allProducts

/-- The function `generateRecommendations`: the `catch` block turns every
exception into the empty list. -/
def generateRecommendations (recType : String)
    (stored : Except String (List HistoryEntry)) (fetched : ProductsResponse) :
    List Recommendation :=
  match generateRecommendationsBody recType stored fetched with
  | .ok recs => recs
  | .error _ => []

/-! ## The page loader -/

/-- The cached user snapshot parsed from local storage. -/
structure User where
  username : String
  full_name : Option String
  deriving DecidableEq

/-- An element of the list handed to the page: the fields of a product, where
`rating` and `reviews` may be `null` or absent, plus the optional tags. -/
structure ListedItem where
  id : JsId
  title : String
  description : Option String
  price : ℚ
  stock : Nat
  rating : Option ℚ
  reviews : Option Nat
  category : String
  reason : Option String
  categoryScore : Option TallyValue
  deriving DecidableEq

/-- A locally generated recommendation seen as a list element. -/
def Recommendation.toListed (r : Recommendation) : ListedItem :=
  { id := r.product.id, title := r.product.title, description := r.product.description,
    price := r.product.price, stock := r.product.stock, rating := some r.product.rating,
    reviews := some r.product.reviews, category := r.product.category,
    reason := some r.reason, categoryScore := r.categoryScore }

/-- The expression `p.rating || 0`. -/
def ratingOrZero : Option ℚ → ℚ
  | none => 0
  | some x => x

/-- The normalisation
`p => ({ ...p, rating: p.rating || 0, reviews: p.reviews || 0, price: parseFloat(p.price) })`. -/
def normalise (p : ListedItem) : ListedItem :=
  { p with rating := some (ratingOrZero p.rating), reviews := some (orZero p.reviews),
           price := p.price }

/-- Outcome of `await api.getRecommendations(filters.recType)`. -/
inductive BackendResponse where
  /-- The call threw. -/
  | rejected (message : String)
  /-- The call resolved to `null` (`none`) or to an array. -/
  | resolved (payload : Option (List ListedItem))

/-- Value of the variable `recommendations` after the inner `try`: it starts as
`[]`, and is assigned only when a user is logged in and the call does not throw. -/
def backendRecommendations (user : Option User) (backend : BackendResponse) :
    Option (List ListedItem) :=
  match user with
  | none => some []
  | some _ =>
    match backend with
    | .rejected _ => some []
    | .resolved payload => payload

/-- The test `!recommendations || recommendations.length === 0`. -/
def needsLocal : Option (List ListedItem) → Bool
  | none => true
  | some l => decide (l.length = 0)

/-- What `loadRecommendations` leaves behind when it does not fail: whether it
called `generateRecommendations`, and the list `allRecommendations` it rendered. -/
structure Loaded where
  calledLocal : Bool
  allRecommendations : List ListedItem
  deriving DecidableEq

/-- The function `loadRecommendations`; an `error` is the outer `catch`, which
shows the failure banner instead of a list. -/
def loadRecommendations (recType : String) (storedUser : Except String (Option User))
    (stored : Except String (List HistoryEntry)) (backend : BackendResponse)
    (fetched : ProductsResponse) : Except String Loaded := do
  let user ← storedUser
  let _viewHistory ← stored
  let recommendations := backendRecommendations user backend
  if needsLocal recommendations then
    let recommendations :=
      (generateRecommendations recType stored fetched).map Recommendation.toListed
    return { calledLocal := true, allRecommendations := recommendations.map normalise }
  else
    match recommendations with
    | some list => return { calledLocal := false, allRecommendations := list.map normalise }
    | none => return { calledLocal := false, allRecommendations := [] }

/-! ## Vocabulary of the specification -/

/-- Number of viewed products (catalog products whose id, as a string, occurs in the
history) that belong to category `c`. -/
def categoryViews (viewHistory : List HistoryEntry) (allProducts : List Product)
    (c : String) : Nat :=
  (viewedProductsOf viewHistory allProducts).countP (fun p => decide (p.category = c))

/-- The number of views a category score stands for; 0 for a missing score and for
one that is not a number. -/
def scoreCount : Option TallyValue → Nat
  | some (.count n) => n
  | _ => 0

/-- A category score that is missing or a number. -/
def IsNumericScore (score : Option TallyValue) : Prop :=
  score = none ∨ ∃ n, score = some (.count n)

/-- A key that a plain object does not inherit from `Object.prototype`. -/
def IsOrdinaryName (k : String) : Prop := inheritedText k = none

instance (k : String) : Decidable (IsOrdinaryName k) :=
  inferInstanceAs (Decidable (inheritedText k = none))

/-! ## Example data -/

/-- A catalog record with the given id, category, price, rating and review count. -/
def toy (id : Nat) (category : String) (price rating : ℚ) (reviews : Nat) : Product :=
  { id := .num id, title := "Toy " ++ toString id, description := none, price := price,
    stock := 3, rating := rating, reviews := reviews, category := category }

/-- A history entry as written by the card click handler of the catalog page. -/
def cardClick (id : Nat) (category : String) : HistoryEntry :=
  { product_id := .str (toString id), category := some category,
    timestamp := "2025-01-01T00:00:00.000Z", type := "view" }

/-- A history entry as written when the product-details page loads. -/
def detailsLoad (id : Nat) (category : String) : HistoryEntry :=
  { product_id := .num id, category := some category,
    timestamp := "2025-01-01T00:00:00.000Z", type := "view_details" }

/-- A catalog that lists the same record twice. -/
def repeatedCatalog : List Product :=
  [toy 1 "Sets" 10 5 2, toy 1 "Sets" 10 5 2]

/-- Two products: the first is rated higher but has no review yet. -/
def unreviewedCatalog : List Product :=
  [toy 1 "Sets" 10 5 0, toy 2 "Sets" 10 1 3]

/-- A catalog with four building sets, two plush toys and a puzzle. -/
def shopCatalog : List Product :=
  [toy 1 "Sets" 20 5 10, toy 2 "Sets" 30 4 8, toy 3 "Sets" 40 3 5, toy 4 "Sets" 28 4 2,
   toy 5 "Sets" 90 5 1, toy 6 "Plushies" 10 5 4, toy 7 "Plushies" 29 2 6,
   toy 8 "Puzzles" 30 5 9]

/-- Three viewed products in `Sets` and one in `Plushies`, recorded by card clicks. -/
def shopHistory : List HistoryEntry :=
  [cardClick 6 "Plushies", cardClick 3 "Sets", cardClick 2 "Sets", cardClick 1 "Sets"]

/-- Ten building sets: the first is cheap, the next eight are popular and expensive,
the last is cheap and unpopular. -/
def setsCatalog : List Product :=
  [toy 1 "Sets" 20 5 10, toy 2 "Sets" 100 5 9, toy 3 "Sets" 100 5 8, toy 4 "Sets" 100 5 7,
   toy 5 "Sets" 100 5 6, toy 6 "Sets" 100 5 5, toy 7 "Sets" 100 5 4, toy 8 "Sets" 100 5 3,
   toy 9 "Sets" 100 5 2, toy 10 "Sets" 20 1 1]

/-- A single card click on the first building set. -/
def setsHistory : List HistoryEntry := [cardClick 1 "Sets"]

/-- The first set was clicked in the catalog, which also loaded its details page;
the second set was opened from the recommendations page, so that only the details
page recorded it. -/
def mixedHistory : List HistoryEntry :=
  [detailsLoad 2 "Sets", detailsLoad 1 "Sets", cardClick 1 "Sets"]

/-- Two products of a category named `constructor`, then three building sets. -/
def inheritedCatalog : List Product :=
  [toy 1 "constructor" 20 5 10, toy 2 "constructor" 20 4 8, toy 3 "Sets" 20 5 7,
   toy 4 "Sets" 20 4 6, toy 5 "Sets" 20 3 5]

/-- Card clicks on the first `constructor` product and on the first two building
sets. -/
def inheritedHistory : List HistoryEntry :=
  [cardClick 4 "Sets", cardClick 3 "Sets", cardClick 1 "constructor"]

/-- Three building sets; the second costs a tenth more than the first. -/
def budgetCatalog : List Product :=
  [toy 1 "Sets" 20 5 10, toy 2 "Sets" 22 4 8, toy 3 "Sets" 90 3 5]

/-- The first set was clicked in the catalog; the details page of the second was
opened, which stored its id as a number. -/
def numericIdHistory : List HistoryEntry := [detailsLoad 2 "Sets", cardClick 1 "Sets"]

/-- A logged-in user. -/
def sampleUser : User := { username := "sam", full_name := none }

/-! ## View-history trackers (`catalog.js`, `product-details.js`, `brand-suggestions.js`) -/

/-- The stored value after `viewHistory.unshift(entry)`:
`JSON.stringify(viewHistory.slice(0, 50))`. -/
def recordInteraction (entry : HistoryEntry) (viewHistory : List HistoryEntry) :
    List HistoryEntry :=
  (entry :: viewHistory).take 50

/-- The lookup `allProducts.find(p => String(p.id) === String(id))`, where `id` is
the `data-id` attribute of the clicked card, a string. -/
def findProductById (allProducts : List Product) (id : String) : Option Product :=
  allProducts.find? (fun p => decide (p.id.toJsString = id))

/-- Tracking part of the card click handler of the catalog page: the history is
written only when the clicked product is found; `now` is `new Date().toISOString()`. -/
def trackCardClick (allProducts : List Product) (id : String) (now : String)
    (viewHistory : List HistoryEntry) : List HistoryEntry :=
  match findProductById allProducts id with
  | some product =>
    recordInteraction
      { product_id := .str id, category := some product.category, timestamp := now,
        type := "view" } viewHistory
  | none => viewHistory

/-- Tracking part of `loadProduct` on the product-details page. -/
def trackDetailsLoad (currentProduct : Product) (now : String)
    (viewHistory : List HistoryEntry) : List HistoryEntry :=
  recordInteraction
    { product_id := currentProduct.id, category := some currentProduct.category,
      timestamp := now, type := "view_details" } viewHistory

/-- Tracking part of `addToCart` on the recommendations page, reached once
`api.addToCart` has succeeded: the entry has no `category` property. -/
def trackAddToCart (product : ListedItem) (now : String)
    (viewHistory : List HistoryEntry) : List HistoryEntry :=
  recordInteraction
    { product_id := product.id, category := none, timestamp := now,
      type := "add_to_cart" } viewHistory

/-- One write to the stored view history. -/
inductive TrackerEvent where
  | cardClick (allProducts : List Product) (id : String) (now : String)
  | detailsLoad (currentProduct : Product) (now : String)
  | addToCart (product : ListedItem) (now : String)
  /-- The clear-history button: the key is removed, so the next read gives `[]`. -/
  | clearHistory

/-- Effect of a tracker event on the stored history. -/
def TrackerEvent.apply : TrackerEvent → List HistoryEntry → List HistoryEntry
  | .cardClick allProducts id now, h => trackCardClick allProducts id now h
  | .detailsLoad currentProduct now, h => trackDetailsLoad currentProduct now h
  | .addToCart product now, h => trackAddToCart product now h
  | .clearHistory, _ => []

/-- The stored history reached from the empty one by a sequence of events. -/
def reachableHistory (events : List TrackerEvent) : List HistoryEntry :=
  events.foldl (fun h ev => ev.apply h) []

/-- The shape of a stored entry: its type is one of the three the trackers write, the
two view types come with a category and `add_to_cart` comes without. -/
def entryShape (e : HistoryEntry) : Prop :=
  (e.type = "view" ∨ e.type = "view_details" ∨ e.type = "add_to_cart")
  ∧ (e.type = "view" ∨ e.type = "view_details" → e.category ≠ none)
  ∧ (e.type = "add_to_cart" → e.category = none)

/-! ## Strings -/

/-- Lower-case form of one character under `String.prototype.toLowerCase`. Besides
the ASCII capitals, the only characters whose lower-case form contains an ASCII
letter are U+0130 and the Kelvin sign U+212A; every other character is left as it
is, which cannot change whether an ASCII word occurs in the result. -/
def lowerChar (c : Char) : List Char :=
  if c = Char.ofNat 0x0130 then ['i', Char.ofNat 0x0307]
  else if c = Char.ofNat 0x212A then ['k']
  else [c.toLower]

/-- The method `s.toLowerCase()`. -/
def toLowerCase (s : String) : String := String.mk (s.data.flatMap lowerChar)

/-- Whether the second list is a prefix of the first. -/
def startsWithChars : List Char → List Char → Bool
  | _, [] => true
  | [], _ :: _ => false
  | c :: cs, d :: ds => c == d && startsWithChars cs ds

/-- Whether the second list occurs in the first as a contiguous block. -/
def includesChars : List Char → List Char → Bool
  | [], sub => sub.isEmpty
  | c :: cs, sub => startsWithChars (c :: cs) sub || includesChars cs sub

/-- The method `s.includes(sub)`. -/
def includes (s sub : String) : Bool := includesChars s.data sub.data

/-- Whether a character is white space or a line terminator for
`String.prototype.trim`. -/
def isTrimmable (c : Char) : Bool :=
  c.toNat ∈ [0x09, 0x0A, 0x0B, 0x0C, 0x0D, 0x20, 0xA0, 0x1680, 0x2000, 0x2001, 0x2002,
    0x2003, 0x2004, 0x2005, 0x2006, 0x2007, 0x2008, 0x2009, 0x200A, 0x2028, 0x2029,
    0x202F, 0x205F, 0x3000, 0xFEFF]

/-- The method `s.trim()`. -/
def trim (s : String) : String :=
  String.mk ((s.data.dropWhile isTrimmable).reverse.dropWhile isTrimmable).reverse

/-- The test `err.message && err.message.toLowerCase().includes('unauthorized')`. -/
def mentionsUnauthorized (message : String) : Bool :=
  decide (message ≠ "") && includes (toLowerCase message) "unauthorized"

/-! ## The API client (`api.js`) -/

/-- An object with string values (request headers, local storage), as the list of
its properties in creation order. -/
abbrev StringMap := List (String × String)

/-- Property read `o[k]`, also `localStorage.getItem(k)`. -/
def propGet : StringMap → String → Option String
  | [], _ => none
  | (k', v) :: rest, k => if k' = k then some v else propGet rest k

/-- Property write `o[k] = v`, also `localStorage.setItem(k, v)`. -/
def propSet : StringMap → String → String → StringMap
  | [], k, v => [(k, v)]
  | (k', v') :: rest, k, v =>
    if k' = k then (k', v) :: rest else (k', v') :: propSet rest k v

/-- The call `localStorage.removeItem(k)`. -/
def propRemove (o : StringMap) (k : String) : StringMap :=
  o.filter (fun e => decide (e.1 ≠ k))

/-- The object `{ ...a, ...b }`. -/
def spread (a b : StringMap) : StringMap :=
  b.foldl (fun o e => propSet o e.1 e.2) a

/-- The constant `API_BASE_URL`. -/
def API_BASE_URL : String := "http://localhost:8000/api"

/-- The state of the `APIService` singleton: its in-memory token (`null` is `none`). -/
structure APIService where
  token : Option String
  deriving DecidableEq

/-- The constructor: the token is read from local storage. -/
def APIService.create (localStorage : StringMap) : APIService :=
  { token := propGet localStorage "access_token" }

/-- Whether `this.token` is truthy: neither `null` nor the empty string. -/
def APIService.hasToken (api : APIService) : Bool :=
  match api.token with
  | none => false
  | some t => decide (t ≠ "")

/-- The method `getAuthHeaders`. -/
def APIService.getAuthHeaders (api : APIService) : StringMap :=
  let headers : StringMap := [("Content-Type", "application/json")]
  match api.token with
  | none => headers
  | some t => if t ≠ "" then propSet headers "Authorization" ("Bearer " ++ t) else headers

/-- The method `setToken`, on the service and local storage. -/
def APIService.setToken (_api : APIService) (localStorage : StringMap) (token : String) :
    APIService × StringMap :=
  ({ token := some token }, propSet localStorage "access_token" token)

/-- The method `clearToken`, on the service and local storage. -/
def APIService.clearToken (_api : APIService) (localStorage : StringMap) :
    APIService × StringMap :=
  ({ token := none }, propRemove (propRemove localStorage "access_token") "current_user")

/-- The browser state touched by `logout`: local storage and `window.location.href`. -/
structure Browser where
  localStorage : StringMap
  location : String
  deriving DecidableEq

/-- The method `logout`. -/
def APIService.logout (api : APIService) (browser : Browser) : APIService × Browser :=
  let cleared := api.clearToken browser.localStorage
  (cleared.1, { localStorage := cleared.2, location := "/index.html" })

/-- The argument `options` of `request`; `headers` is `[]` when the caller passes no
`headers` property, which is the case for every call of `request` in `api.js`. -/
structure RequestOptions where
  method : Option String
  body : Option String
  headers : StringMap
  deriving DecidableEq

/-- The default `options = {}`. -/
def RequestOptions.empty : RequestOptions := { method := none, body := none, headers := [] }

/-- The pair `(url, config)` handed to `fetch`. -/
structure FetchCall where
  url : String
  method : Option String
  body : Option String
  headers : StringMap
  deriving DecidableEq

/-- The call built by `request`: the headers are
`{ ...this.getAuthHeaders(), ...options.headers }`. -/
def APIService.requestConfig (api : APIService) (endpoint : String)
    (options : RequestOptions) : FetchCall :=
  { url := API_BASE_URL ++ endpoint, method := options.method, body := options.body,
    headers := spread api.getAuthHeaders options.headers }

/-- An element of a JSON array. A number is given by its string conversion
`String(n)` and a nested array by the string conversion of the whole of it, which is
all that `request` reads of them. -/
inductive JsonElement where
  | null
  | bool (b : Bool)
  | number (text : String)
  | string (s : String)
  | array (text : String)
  | object
  deriving DecidableEq

/-- The string that `Array.prototype.join` writes for an element. -/
def JsonElement.text : JsonElement → String
  | .null => ""
  | .bool b => if b then "true" else "false"
  | .number text => text
  | .string s => s
  | .array text => text
  | .object => "[object Object]"

/-- The property `detail` of a JSON body; a number is given by its string conversion
`String(n)`. -/
inductive JsonDetail where
  | absent
  | null
  | bool (b : Bool)
  | number (text : String)
  | string (s : String)
  | array (items : List JsonElement)
  | object
  deriving DecidableEq

/-- A JSON document as far as the client reads it: `null`, or a value with its
`detail` property and what the caller reads from it. -/
inductive JsonDoc (α : Type) where
  | null
  | document (detail : JsonDetail) (value : α)
  deriving DecidableEq

/-- Outcome of `await response.json()`: it throws when the body is not JSON. -/
inductive ResponseBody (α : Type) where
  | notJson (message : String)
  | json (doc : JsonDoc α)
  deriving DecidableEq

/-- Outcome of `await fetch(url, config)`: a rejection (network failure) or a
response with its status and body. -/
inductive FetchOutcome (α : Type) where
  | failed (message : String)
  | response (status : Nat) (body : ResponseBody α)
  deriving DecidableEq

/-- The value `request` resolves to: the object `{ success: true }` or the parsed
body. -/
inductive ApiResult (α : Type) where
  | success
  | data (doc : JsonDoc α)
  deriving DecidableEq

/-- The property `response.ok`. -/
def isOk (status : Nat) : Bool := decide (200 ≤ status ∧ status ≤ 299)

/-- The message of `new Error(data.detail || 'Request failed')`: the default when
`detail` is falsy (missing, `null`, `false`, `0` or the empty string), else the
string conversion of `detail`. -/
def detailOrDefault : JsonDetail → String
  | .absent => "Request failed"
  | .null => "Request failed"
  | .bool b => if b then "true" else "Request failed"
  | .number text => if text = "0" then "Request failed" else text
  | .string s => if s = "" then "Request failed" else s
  | .array items => String.intercalate "," (items.map JsonElement.text)
  | .object => "[object Object]"

/-- What `request` does with the outcome of its `fetch`: the `catch` block logs and
rethrows, so an `error` carries the message of the exception thrown to the caller. -/
def handleResponse {α : Type} : FetchOutcome α → Except String (ApiResult α)
  | .failed message => .error message
  | .response status body =>
    if status = 204 then .ok .success
    else
      match body with
      | .notJson message => .error message
      | .json .null =>
        if isOk status then .ok (.data .null)
        else .error "Cannot read properties of null (reading 'detail')"
      | .json (.document detail value) =>
        if isOk status then .ok (.data (.document detail value))
        else .error (detailOrDefault detail)

/-- A run of `request`: the calls of `fetch` it made and what it resolved to or
threw. -/
structure RequestRun (α : Type) where
  calls : List FetchCall
  result : Except String (ApiResult α)

/-- The method `request`; `answer` is what the network answers to the call. -/
def APIService.request {α : Type} (api : APIService) (endpoint : String)
    (options : RequestOptions) (answer : FetchCall → FetchOutcome α) : RequestRun α :=
  let config := api.requestConfig endpoint options
  { calls := [config], result := handleResponse (answer config) }

/-! ## Page controllers -/

/-- What a handler does to the outside world, in order. -/
inductive Effect where
  /-- A call of `fetch` made through `api.request`. -/
  | fetch (call : FetchCall)
  /-- A blocking `alert(message)`. -/
  | alert (message : String)
  /-- An assignment to `window.location.href`. -/
  | redirect (href : String)
  /-- A call `window.dispatchEvent(new Event(name))`. -/
  | dispatch (name : String)
  deriving DecidableEq

/-- The targets of the redirects among some effects, in order. -/
def redirectsOf : List Effect → List String
  | [] => []
  | .redirect href :: rest => href :: redirectsOf rest
  | _ :: rest => redirectsOf rest

/-- The calls of `fetch` among some effects, in order. -/
def fetchesOf : List Effect → List FetchCall
  | [] => []
  | .fetch call :: rest => call :: fetchesOf rest
  | _ :: rest => fetchesOf rest

/-- The messages of the alerts among some effects, in order. -/
def alertsOf : List Effect → List String
  | [] => []
  | .alert message :: rest => message :: alertsOf rest
  | _ :: rest => alertsOf rest

/-- The calls of `fetch` of a run, as effects. -/
def fetchEffects {α : Type} (run : RequestRun α) : List Effect :=
  run.calls.map Effect.fetch

/-- A hexadecimal digit. -/
def hexDigit (n : Nat) : Char :=
  if n < 10 then Char.ofNat (48 + n) else Char.ofNat (87 + n)

/-- The backslash character. -/
def backslash : Char := Char.ofNat 92

/-- The double quote character. -/
def doubleQuote : Char := Char.ofNat 34

/-- The escape of one character inside a JSON string. -/
def jsonEscape (c : Char) : List Char :=
  if c.toNat = 34 then [backslash, c]
  else if c.toNat = 92 then [backslash, c]
  else if c.toNat = 10 then [backslash, 'n']
  else if c.toNat = 13 then [backslash, 'r']
  else if c.toNat = 9 then [backslash, 't']
  else if c.toNat = 8 then [backslash, 'b']
  else if c.toNat = 12 then [backslash, 'f']
  else if c.toNat < 32 then
    [backslash, 'u', '0', '0', hexDigit (c.toNat / 16), hexDigit (c.toNat % 16)]
  else [c]

/-- The text `JSON.stringify(s)` of a string. -/
def jsonQuote (s : String) : String :=
  String.mk (doubleQuote :: s.data.flatMap jsonEscape ++ [doubleQuote])

/-- The text `JSON.stringify(id)` of a product id. -/
def jsonOfId : JsId → String
  | .num n => toString n
  | .str s => jsonQuote s

/-- The request of `api.addToCart(productId, quantity)`. -/
def addToCartOptions (productId : JsId) (quantity : Nat) : RequestOptions :=
  { method := some "POST",
    body := some ("\x7b\"product_id\":" ++ jsonOfId productId ++ ",\"quantity\":"
      ++ toString quantity ++ "\x7d"),
    headers := [] }

/-- The `catch` block shared by the add-to-cart handlers of the catalog, the
recommendations page and the product-details page. -/
def addToCartFailed (message : String) : List Effect :=
  if mentionsUnauthorized message then
    [.alert "Please log in to add items to your cart.", .redirect "/pages/auth.html"]
  else [.alert ("Could not add to cart: " ++ message)]

/-- The function `addToCart(id, goToCart)` of `catalog.js`. -/
def catalogAddToCart (api : APIService) (allProducts : List Product) (id : String)
    (goToCart : Bool) (answer : FetchCall → FetchOutcome Unit) : List Effect :=
  match findProductById allProducts id with
  | none => [.alert "Product not found."]
  | some product =>
    let run := api.request "/cart/add" (addToCartOptions product.id 1) answer
    match run.result with
    | .ok _ =>
      fetchEffects run
        ++ [.alert (product.title ++ " added to cart!"), .dispatch "cart-updated"]
        ++ (if goToCart then [.redirect "/pages/cart.html"] else [])
    | .error message => fetchEffects run ++ addToCartFailed message

/-- The function `addToCart(id, goToCart)` of `brand-suggestions.js`: the effects and
the stored view history it leaves. -/
def recommendationsAddToCart (api : APIService) (allRecommendations : List ListedItem)
    (id : String) (goToCart : Bool) (answer : FetchCall → FetchOutcome Unit)
    (now : String) (viewHistory : List HistoryEntry) : List Effect × List HistoryEntry :=
  match allRecommendations.find? (fun p => decide (p.id.toJsString = id)) with
  | none => ([.alert "Product not found."], viewHistory)
  | some product =>
    let run := api.request "/cart/add" (addToCartOptions product.id 1) answer
    match run.result with
    | .ok _ =>
      (fetchEffects run
        ++ [.alert (product.title ++ " added to cart!")]
        ++ (if goToCart then [.redirect "/pages/cart.html"] else []),
       trackAddToCart product now viewHistory)
    | .error message => (fetchEffects run ++ addToCartFailed message, viewHistory)

/-! ### The cart page (`cart.js`) -/

/-- A line of the cart as the backend returns it. -/
structure CartItem where
  id : Nat
  quantity : Int
  product : Option Product
  subtotal : ℚ
  deriving DecidableEq

/-- Content of the element `#cart-list`. -/
inductive CartList where
  | loading
  | empty
  | items (cart : List CartItem)
  | error (message : String)
  deriving DecidableEq

/-- The function `render` of the cart page. -/
def renderCart (cart : List CartItem) : CartList :=
  if cart.length = 0 then .empty else .items cart

/-- The `try` block of `loadCart` once `api.getCart()` has resolved:
`cart = response.items || []`, then `render()`. The payload of a document is its
`items` property when that is an array. -/
def cartOfResult : ApiResult (Option (List CartItem)) → Except String (List CartItem)
  | .success => .ok []
  | .data .null => .error "Cannot read properties of null (reading 'items')"
  | .data (.document _ items) => .ok (items.getD [])

/-- The function `loadCart`: the content of `#cart-list` and the effects. -/
def loadCart (api : APIService)
    (answer : FetchCall → FetchOutcome (Option (List CartItem))) : CartList × List Effect :=
  let run := api.request "/cart" RequestOptions.empty answer
  match run.result >>= cartOfResult with
  | .ok cart => (renderCart cart, fetchEffects run)
  | .error message =>
    if mentionsUnauthorized message then
      (.loading, fetchEffects run
        ++ [.alert "Please log in to view your cart.", .redirect "/pages/auth.html"])
    else (.error ("Unable to load cart. " ++ message), fetchEffects run)

/-! ### The wishlist page (`wishlist.js`) -/

/-- An entry of the wishlist as the backend returns it. -/
structure WishlistItem where
  product : Option Product
  deriving DecidableEq

/-- A rendered wishlist card, as far as its text depends on the product. -/
structure WishlistCard where
  productId : Option JsId
  title : String
  price : ℚ
  stockText : String
  addDisabled : Bool
  deriving DecidableEq

/-- The function `renderWishlistCard`. -/
def renderWishlistCard (item : WishlistItem) : WishlistCard :=
  match item.product with
  | none =>
    { productId := none, title := "Product", price := 0, stockText := "Out of Stock",
      addDisabled := false }
  | some product =>
    { productId := some product.id,
      title := if product.title = "" then "Product" else product.title,
      price := product.price,
      stockText :=
        if product.stock > 10 then "In Stock"
        else if product.stock > 0 then "Only " ++ toString product.stock ++ " left"
        else "Out of Stock",
      addDisabled := decide (product.stock ≤ 0) }

/-- Content of the element `#wishlist-container`. -/
inductive WishlistContainer where
  | loading
  /-- The block "Your Wishlist is Empty". -/
  | emptyState
  /-- The grid of cards. -/
  | grid (cards : List WishlistCard)
  /-- The block "Please Log In". -/
  | loginPrompt
  /-- The block "Error Loading Wishlist". -/
  | error (message : String)
  deriving DecidableEq

/-- The cards shown in the container. -/
def WishlistContainer.cards : WishlistContainer → List WishlistCard
  | .grid cards => cards
  | _ => []

/-- Value of the page variable `wishlist`. -/
inductive WishlistValue where
  /-- The values `null` and `undefined`. -/
  | missing
  /-- An object that is not an array, such as `{ success: true }`. -/
  | object
  | array (items : List WishlistItem)
  deriving DecidableEq

/-- The rendered wishlist page: the container and whether the clear-all button is
displayed. -/
structure WishlistView where
  container : WishlistContainer
  clearAllShown : Bool
  deriving DecidableEq

/-- The function `renderWishlist`, starting from the view `before`; on a value
without `map` it throws after showing the clear-all button. -/
def renderWishlist (wishlist : WishlistValue) (before : WishlistView) :
    WishlistView × Option String :=
  match wishlist with
  | .missing => ({ container := .emptyState, clearAllShown := false }, none)
  | .array [] => ({ container := .emptyState, clearAllShown := false }, none)
  | .array (item :: items) =>
    ({ container := .grid ((item :: items).map renderWishlistCard), clearAllShown := true },
      none)
  | .object =>
    ({ container := before.container, clearAllShown := true },
      some "wishlist.map is not a function")

/-- The assignment `wishlist = data || []` for the value `api.getWishlist()`
resolved to. -/
def wishlistOfResult : ApiResult (List WishlistItem) → WishlistValue
  | .success => .object
  | .data .null => .array []
  | .data (.document _ items) => .array items

/-- The `catch` block of `loadWishlist`. -/
def wishlistLoadFailed (message : String) : WishlistContainer :=
  if mentionsUnauthorized message then .loginPrompt
  else .error (if message = "" then "Unable to load wishlist. Please try again later."
    else message)

/-- The function `loadWishlist`: the page variable, the view and the effects. -/
def loadWishlist (api : APIService) (answer : FetchCall → FetchOutcome (List WishlistItem))
    (wishlist : WishlistValue) (before : WishlistView) :
    WishlistValue × WishlistView × List Effect :=
  let loading : WishlistView := { before with container := .loading }
  let run := api.request "/wishlist" RequestOptions.empty answer
  match run.result with
  | .ok data =>
    match renderWishlist (wishlistOfResult data) loading with
    | (view, none) => (wishlistOfResult data, view, fetchEffects run)
    | (view, some message) =>
      (wishlistOfResult data, { view with container := wishlistLoadFailed message },
        fetchEffects run)
  | .error message =>
    (wishlist, { loading with container := wishlistLoadFailed message }, fetchEffects run)

/-- The click handler of the clear-all button; `confirmed` is the answer to the
`confirm` dialog. -/
def clearAllClicked (confirmed : Bool) (api : APIService)
    (answerClear : FetchCall → FetchOutcome Unit)
    (answerList : FetchCall → FetchOutcome (List WishlistItem))
    (wishlist : WishlistValue) (before : WishlistView) :
    WishlistValue × WishlistView × List Effect :=
  if confirmed then
    let run := api.request "/wishlist/clear"
      { method := some "DELETE", body := none, headers := [] } answerClear
    match run.result with
    | .ok _ =>
      let loaded := loadWishlist api answerList wishlist before
      (loaded.1, loaded.2.1, fetchEffects run ++ loaded.2.2)
    | .error message =>
      (wishlist, before,
        fetchEffects run ++ [.alert (if message = "" then
          "Failed to clear wishlist. Please try again." else message)])
  else (wishlist, before, [])

/-! ### The chat widget (`chatbot.js`) -/

/-- A child of the element `#chat-messages`: a message bubble with its sender class
and HTML content, or the typing indicator. -/
inductive ChatNode where
  | message (sender : String) (html : String)
  | typing
  deriving DecidableEq

/-- The replacement `text.replace(/\n/g, '<br>')` on the characters of a text. -/
def formatChars : List Char → List Char
  | [] => []
  | c :: cs => if c = '\n' then '<' :: 'b' :: 'r' :: '>' :: formatChars cs else c :: formatChars cs

/-- The function `addMessage(sender, text)`. -/
def addMessage (messages : List ChatNode) (sender text : String) : List ChatNode :=
  messages ++ [.message sender (String.mk (formatChars text.data))]

/-- The function `getFallbackResponse`. -/
def getFallbackResponse (text : String) : String :=
  let lower := toLowerCase text
  if includes lower "hello" || includes lower "hi" || includes lower "hey" then
    "Hello! 👋 Welcome to ToyVerse! How can I help you find the perfect toy today? 🧸"
  else if includes lower "product" || includes lower "toy" || includes lower "show" then
    "🏪 We have a wide selection of toys! Browse by category:\n🏰 Sets | 🧸 Plushies | 🧱 Blocks | 🤖 Tech\n\nWhat type of toy are you looking for?"
  else if includes lower "recommend" || includes lower "suggest" || includes lower "best" then
    "🎯 Check out our popular items:\n• Hogwarts Castle - $120.99 ⭐⭐⭐⭐⭐\n• The Child (Baby Yoda) - $40.99 ⭐⭐⭐⭐⭐\n• Avengers Tower - $40.99 ⭐⭐⭐⭐⭐\n\nAll highly rated by customers!"
  else if includes lower "order" || includes lower "track" then
    "📦 I can help you track your orders! Please log in to view your order history and status."
  else if includes lower "ship" || includes lower "deliver" then
    "📦 Shipping Info:\n• Delivered to Islamabad, Pakistan\n• 3-5 business days delivery\n• Cash on Delivery available\n• Track your order anytime!"
  else if includes lower "return" || includes lower "refund" then
    "↩️ Returns Policy:\n• 7-day return for unopened items\n• Items must be in original condition\n• Email: kidstoys@gmail.com"
  else if includes lower "price" || includes lower "cost" then
    "💰 Our toys range from $19.99 to $120.99. Tell me what you're looking for!"
  else if includes lower "payment" || includes lower "pay" || includes lower "cod" then
    "💳 Payment: Cash on Delivery (COD) available - Pay when you receive! Safe and convenient."
  else if includes lower "help" || includes lower "support" then
    "🤝 I can help with:\n🔍 Finding products\n💰 Prices & stock\n📦 Order tracking\n🚚 Shipping info\n↩️ Returns\n\nWhat do you need?"
  else
    "🧸 I'm ToyVerse Assistant! I can help you with:\n• Product recommendations\n• Prices & availability\n• Orders & tracking\n• Shipping & returns\n\nWhat would you like to know?"

/-- The decimal value of a list of digits. -/
def digitsValue (digits : List Char) : Nat :=
  digits.foldl (fun n c => 10 * n + (c.toNat - '0'.toNat)) 0

/-- The match of `/ADD_TO_CART:(\d+)/` on the characters of a text: the number after
the first `ADD_TO_CART:` that is followed by a digit, as `parseInt` reads it; the
value is exact for the numbers that a double holds exactly (up to `2 ^ 53`). -/
def matchAddToCart : List Char → Option Nat
  | [] => none
  | c :: cs =>
    if startsWithChars (c :: cs) "ADD_TO_CART:".data
        ∧ (((c :: cs).drop 12).takeWhile Char.isDigit) ≠ [] then
      some (digitsValue (((c :: cs).drop 12).takeWhile Char.isDigit))
    else matchAddToCart cs

/-- Outcome of the two calls made for an `ADD_TO_CART` command: `api.addToCart` and,
if it succeeds, `api.getProductById`. -/
structure CartCommandAnswers where
  addToCart : FetchCall → FetchOutcome Unit
  getProduct : FetchCall → FetchOutcome Product

/-- The state of the chat widget: the children of `#chat-messages` and the value of
the input field. -/
structure ChatState where
  messages : List ChatNode
  input : String
  deriving DecidableEq

/-- The part of the `try` block that follows a resolved `api.sendChatMessage`;
`botResponse` is `response.response`. The typing indicator has been removed. It
returns the messages, the effects, and the message of an exception if one escapes. -/
def handleBotResponse (api : APIService) (messages : List ChatNode)
    (botResponse : Option String) (answers : CartCommandAnswers) :
    List ChatNode × List Effect × Option String :=
  match botResponse with
  | none => (messages, [], some "Cannot read properties of undefined (reading 'includes')")
  | some botResponse =>
    if includes botResponse "ADD_TO_CART:" then
      match matchAddToCart botResponse.data with
      | some productId =>
        let added := api.request "/cart/add" (addToCartOptions (.num productId) 1)
          answers.addToCart
        match added.result with
        | .error message =>
          (addMessage messages "bot"
            ("Sorry, I couldn't add that item to your cart. " ++ message),
            fetchEffects added, none)
        | .ok _ =>
          let got := api.request ("/products/" ++ toString productId) RequestOptions.empty
            answers.getProduct
          match got.result with
          | .ok (.data (.document _ product)) =>
            (addMessage messages "bot"
              ("✅ Added \"" ++ product.title
                ++ "\" to your cart! 🛒\n\nWould you like to:\n• Continue shopping\n• View your cart\n• Checkout"),
              fetchEffects added ++ fetchEffects got, none)
          | .ok .success =>
            (addMessage messages "bot"
              ("✅ Added \"undefined\" to your cart! 🛒\n\nWould you like to:\n• Continue shopping\n• View your cart\n• Checkout"),
              fetchEffects added ++ fetchEffects got, none)
          | .ok (.data .null) =>
            (addMessage messages "bot"
              ("Sorry, I couldn't add that item to your cart. "
                ++ "Cannot read properties of null (reading 'title')"),
              fetchEffects added ++ fetchEffects got, none)
          | .error message =>
            (addMessage messages "bot"
              ("Sorry, I couldn't add that item to your cart. " ++ message),
              fetchEffects added ++ fetchEffects got, none)
      | none => (addMessage messages "bot" botResponse, [], none)
    else (addMessage messages "bot" botResponse, [], none)

/-- The call `messages.removeChild(typingDiv)` for the indicator that was appended at
position `index`. -/
def removeTyping (messages : List ChatNode) (index : Nat) : List ChatNode :=
  messages.eraseIdx index

/-- The request of `api.sendChatMessage(message, sessionId)`. -/
def chatMessageOptions (message sessionId : String) : RequestOptions :=
  { method := some "POST",
    body := some ("\x7b\"message\":" ++ jsonQuote message ++ ",\"session_id\":"
      ++ jsonQuote sessionId ++ "\x7d"),
    headers := [] }

/-- The `submit` handler of the chat form; `chat` is what the network answers to
`api.sendChatMessage(text, sessionId)`, whose payload is the property `response`
when it is a string. -/
def submitChat (api : APIService) (sessionId : String) (state : ChatState)
    (chat : FetchCall → FetchOutcome (Option String)) (answers : CartCommandAnswers) :
    ChatState × List Effect :=
  let text := trim state.input
  if text = "" then (state, [])
  else
    let shown := addMessage state.messages "user" text
    let withTyping := shown ++ [ChatNode.typing]
    let cleared := removeTyping withTyping shown.length
    let sent := api.request "/chatbot/message" (chatMessageOptions text sessionId) chat
    let fallback : ChatState × List Effect :=
      ({ messages := addMessage cleared "bot" (getFallbackResponse text), input := "" },
        fetchEffects sent)
    match sent.result with
    | .error _ => fallback
    | .ok .success => fallback
    | .ok (.data .null) => fallback
    | .ok (.data (.document _ botResponse)) =>
      match handleBotResponse api cleared botResponse answers with
      | (messages, effects, none) =>
        ({ messages := messages, input := "" }, fetchEffects sent ++ effects)
      | (messages, effects, some _) =>
        ({ messages := addMessage messages "bot" (getFallbackResponse text), input := "" },
          fetchEffects sent ++ effects)

/-- A `401` answer whose `detail` is the given text. -/
def unauthorizedAnswer {α : Type} (detail : String) (value : α) (_call : FetchCall) :
    FetchOutcome α :=
  .response 401 (.json (.document (.string detail) value))

/-- An answer with the given status and JSON payload, without `detail`. -/
def jsonAnswer {α : Type} (status : Nat) (value : α) (_call : FetchCall) : FetchOutcome α :=
  .response status (.json (.document .absent value))

/-- The answer of the backend to a request whose body fails validation: status 422,
with a list holding one error object as `detail`. -/
def validationError {α : Type} (value : α) (_call : FetchCall) : FetchOutcome α :=
  .response 422 (.json (.document (.array [.object]) value))

/-- A network failure. -/
def networkDown {α : Type} (_call : FetchCall) : FetchOutcome α :=
  .failed "Failed to fetch"

/-- A local storage holding a session, a view history and a chat session id. -/
def sampleStorage : StringMap :=
  [("access_token", "abc"), ("current_user", "\x7b\"username\":\"sam\"\x7d"),
   ("product_view_history", "[]"), ("product_categories_viewed", "[\"Sets\"]"),
   ("chatbot_session_id", "session_1")]

/-- The recommendations shown for the shop history. -/
def shopRecommendations : List ListedItem :=
  (generateRecommendations "all" (.ok shopHistory) (.products shopCatalog)).map
    Recommendation.toListed

/-- A card click on the first building set, the load of its details page, and an add
to cart from the recommendations page. -/
def sampleEvents : List TrackerEvent :=
  [.cardClick shopCatalog "1" "2025-01-01T00:00:00.000Z",
   .detailsLoad (toy 1 "Sets" 20 5 10) "2025-01-01T00:00:00.000Z",
   .addToCart (Recommendation.toListed
      { product := toy 4 "Sets" 28 4 2, reason := "You like Sets", categoryScore := some (.count 3) })
      "2025-01-01T00:00:00.000Z"]

/-! ## Vocabulary of the specification: the canned replies of the chat widget -/

/-- The greeting reply. -/
def greetingReply : String :=
  "Hello! 👋 Welcome to ToyVerse! How can I help you find the perfect toy today? 🧸"

/-- The products reply. -/
def productsReply : String :=
  "🏪 We have a wide selection of toys! Browse by category:\n🏰 Sets | 🧸 Plushies | 🧱 Blocks | 🤖 Tech\n\nWhat type of toy are you looking for?"

/-- The recommendations reply. -/
def recommendationsReply : String :=
  "🎯 Check out our popular items:\n• Hogwarts Castle - $120.99 ⭐⭐⭐⭐⭐\n• The Child (Baby Yoda) - $40.99 ⭐⭐⭐⭐⭐\n• Avengers Tower - $40.99 ⭐⭐⭐⭐⭐\n\nAll highly rated by customers!"

/-- The orders reply. -/
def ordersReply : String :=
  "📦 I can help you track your orders! Please log in to view your order history and status."

/-- The Shipping Info reply. -/
def shippingReply : String :=
  "📦 Shipping Info:\n• Delivered to Islamabad, Pakistan\n• 3-5 business days delivery\n• Cash on Delivery available\n• Track your order anytime!"

/-- The returns reply. -/
def returnsReply : String :=
  "↩️ Returns Policy:\n• 7-day return for unopened items\n• Items must be in original condition\n• Email: kidstoys@gmail.com"

/-- The price reply. -/
def priceReply : String :=
  "💰 Our toys range from $19.99 to $120.99. Tell me what you're looking for!"

/-- The payment reply. -/
def paymentReply : String :=
  "💳 Payment: Cash on Delivery (COD) available - Pay when you receive! Safe and convenient."

/-- The help reply. -/
def helpReply : String :=
  "🤝 I can help with:\n🔍 Finding products\n💰 Prices & stock\n📦 Order tracking\n🚚 Shipping info\n↩️ Returns\n\nWhat do you need?"

/-- The default reply. -/
def defaultReply : String :=
  "🧸 I'm ToyVerse Assistant! I can help you with:\n• Product recommendations\n• Prices & availability\n• Orders & tracking\n• Shipping & returns\n\nWhat would you like to know?"

/-- The keyword groups in the order of the specification, each with its reply. -/
def keywordGroups : List (List String × String) :=
  [(["hello", "hi", "hey"], greetingReply),
   (["product", "toy", "show"], productsReply),
   (["recommend", "suggest", "best"], recommendationsReply),
   (["order", "track"], ordersReply),
   (["ship", "deliver"], shippingReply),
   (["return", "refund"], returnsReply),
   (["price", "cost"], priceReply),
   (["payment", "pay", "cod"], paymentReply),
   (["help", "support"], helpReply)]

/-- Whether a keyword of the group occurs in the lower-cased message. -/
def groupMatches (text : String) (group : List String × String) : Bool :=
  group.1.any (fun keyword => includes (toLowerCase text) keyword)

/-- The reply of the first of the given groups with a keyword in the lower-cased
message, the default reply when there is none. -/
def firstReply (text : String) : List (List String × String) → String
  | [] => defaultReply
  | group :: groups => if groupMatches text group then group.2 else firstReply text groups

/-- The reply the specification describes. -/
def replyBySpec (text : String) : String := firstReply text keywordGroups

/-! ## Product filters (`catalog.js`, `brand-suggestions.js`) -/

/-- The page variable `filters`. -/
structure Filters where
  category : List String
  priceMax : ℚ
  rating : ℚ
  inStock : Bool
  search : String
  deriving DecidableEq

/-- Content of the product grid: the "no results" block or the cards of the given
records, in order. -/
inductive Grid (α : Type) where
  | noResults
  | cards (items : List α)
  deriving DecidableEq

/-- The records shown in the grid. -/
def Grid.items {α : Type} : Grid α → List α
  | .noResults => []
  | .cards items => items

/-- The function `render(products)` of both pages, as far as the list of cards goes. -/
def renderGrid {α : Type} (products : List α) : Grid α :=
  if products.length = 0 then .noResults else .cards products

/-- The test `p.title.toLowerCase().includes(term) ||
(p.description && p.description.toLowerCase().includes(term))`; `lower` is the
method `toLowerCase`. -/
def matchesTerm (lower : String → String) (term title : String)
    (description : Option String) : Bool :=
  includes (lower title) term ||
    (match description with
     | none => false
     | some d => decide (d ≠ "") && includes (lower d) term)

/-- The body of `applyFilters` of `catalog.js` up to the call of `render`: the
filters are applied one after the other to a copy of `allProducts`. -/
def filterProducts (lower : String → String) (filters : Filters)
    (allProducts : List Product) : List Product :=
  let result := allProducts
  let result :=
    if filters.category.length > 0 then
      result.filter (fun p => decide (p.category ∈ filters.category))
    else result
  let result := result.filter (fun p => decide (p.price ≤ filters.priceMax))
  let result :=
    if filters.search ≠ "" then
      result.filter (fun p => matchesTerm lower (lower filters.search) p.title p.description)
    else result
  let result :=
    if filters.rating > 0 then result.filter (fun p => decide (p.rating ≥ filters.rating))
    else result
  let result :=
    if filters.inStock then result.filter (fun p => decide (p.stock > 0)) else result
  result

/-- The state of the catalog page that `applyFilters` reads and writes. -/
structure CatalogPage where
  allProducts : List Product
  filters : Filters
  grid : Grid Product
  deriving DecidableEq

/-- The function `applyFilters` of `catalog.js`. -/
def applyFilters (lower : String → String) (page : CatalogPage) : CatalogPage :=
  { page with grid := renderGrid (filterProducts lower page.filters page.allProducts) }

/-- The body of `applyFilters` of `brand-suggestions.js` up to the call of `render`;
`p.rating ?? 0` is the rating of a normalised record. -/
def filterRecommendations (lower : String → String) (filters : Filters)
    (allRecommendations : List ListedItem) : List ListedItem :=
  let result := allRecommendations
  let result :=
    if filters.category.length > 0 then
      result.filter (fun p => decide (p.category ∈ filters.category))
    else result
  let result := result.filter (fun p => decide (p.price ≤ filters.priceMax))
  let result :=
    if filters.search ≠ "" then
      result.filter (fun p => matchesTerm lower (lower filters.search) p.title p.description)
    else result
  let result :=
    if filters.rating > 0 then
      result.filter (fun p => decide (ratingOrZero p.rating ≥ filters.rating))
    else result
  let result :=
    if filters.inStock then result.filter (fun p => decide (p.stock > 0)) else result
  result

/-- The state of the recommendations page that `applyFilters` reads and writes. -/
structure RecommendationsPage where
  allRecommendations : List ListedItem
  filters : Filters
  grid : Grid ListedItem
  deriving DecidableEq

/-- The function `applyFilters` of `brand-suggestions.js`. -/
def applyRecommendationFilters (lower : String → String) (page : RecommendationsPage) :
    RecommendationsPage :=
  { page with
    grid := renderGrid (filterRecommendations lower page.filters page.allRecommendations) }

/-- The condition of the specification on a record with the given fields: its
category is selected when any is, its price is at most `priceMax`, its title or
description contains the term without regard to case when a term is set, its rating
is at least the minimum when that is above 0, and it is in stock when in-stock-only
is set. -/
def satisfiesFilters (lower : String → String) (filters : Filters) (category : String)
    (price : ℚ) (title : String) (description : Option String) (rating : ℚ) (stock : Nat) :
    Bool :=
  (decide (filters.category = []) || decide (category ∈ filters.category))
  && decide (price ≤ filters.priceMax)
  && (decide (filters.search = "")
      || includes (lower title) (lower filters.search)
      || (match description with
          | none => false
          | some d => includes (lower d) (lower filters.search)))
  && (decide (filters.rating ≤ 0) || decide (filters.rating ≤ rating))
  && (!filters.inStock || decide (0 < stock))

/-! ## Form validation (`profile.js`, `auth.js`) -/

/-- The property `s.length`: the number of UTF-16 code units of a string. -/
def jsLength (s : String) : Nat :=
  (s.data.map (fun c => if c.toNat < 65536 then 1 else 2)).sum

/-- An element of a regular expression anchored at both ends: one character of a
class, or one or more characters of a class. -/
inductive RegexItem where
  | one (allowed : Char → Bool)
  | oneOrMore (allowed : Char → Bool)

/-- Whether the whole list of characters matches the sequence of items. -/
def matchItems : List RegexItem → List Char → Bool
  | [], [] => true
  | [], _ :: _ => false
  | _ :: _, [] => false
  | .one allowed :: rest, c :: cs => allowed c && matchItems rest cs
  | .oneOrMore allowed :: rest, c :: cs =>
    allowed c && (matchItems rest cs || matchItems (.oneOrMore allowed :: rest) cs)

/-- The class `[^\s@]`. -/
def notSpaceOrAt (c : Char) : Bool := !isTrimmable c && c != '@'

/-- The test `/^[^\s@]+@[^\s@]+\.[^\s@]+$/.test(email)`. -/
def emailRegexTest (email : String) : Bool :=
  matchItems
    [.oneOrMore notSpaceOrAt, .one (fun c => c == '@'), .oneOrMore notSpaceOrAt,
     .one (fun c => c == '.'), .oneOrMore notSpaceOrAt]
    email.data

/-- The shape the specification describes: `local@domain.tld` with three non-empty
parts that contain neither white space nor `@`. -/
def HasEmailShape (email : String) : Prop :=
  ∃ loc domain tld : List Char,
    email.data = loc ++ '@' :: (domain ++ '.' :: tld)
    ∧ loc ≠ [] ∧ domain ≠ [] ∧ tld ≠ []
    ∧ (∀ c ∈ loc, isTrimmable c = false ∧ c ≠ '@')
    ∧ (∀ c ∈ domain, isTrimmable c = false ∧ c ≠ '@')
    ∧ (∀ c ∈ tld, isTrimmable c = false ∧ c ≠ '@')

/-- The values of the fields of the profile form; `passwordOpen` is
`passwordFields.classList.contains('active')`. -/
structure ProfileForm where
  fullName : String
  email : String
  passwordOpen : Bool
  currentPassword : String
  newPassword : String
  confirmPassword : String
  deriving DecidableEq

/-- The object `validateForm` returns. -/
inductive Validation where
  | valid
  | invalid (message : String)
  deriving DecidableEq

/-- The function `validateForm` of `profile.js`. -/
def validateForm (form : ProfileForm) : Validation :=
  let fullName := trim form.fullName
  if fullName = "" then .invalid "Full name is required."
  else
    let email := trim form.email
    if email = "" then .invalid "Email is required."
    else if !emailRegexTest email then .invalid "Please enter a valid email address."
    else if form.passwordOpen ∧ form.newPassword ≠ "" then
      if form.currentPassword = "" then
        .invalid "Current password is required to change password."
      else if jsLength form.newPassword < 6 then
        .invalid "New password must be at least 6 characters long."
      else if form.newPassword ≠ form.confirmPassword then
        .invalid "New passwords do not match."
      else .valid
    else .valid

/-- The object `updateData` that `handleFormSubmit` hands to `api.updateProfile`. -/
structure UpdateData where
  full_name : String
  email : String
  current_password : Option String
  new_password : Option String
  deriving DecidableEq

/-- The part of `handleFormSubmit` before the call of the API: the error shown, or
the data sent. -/
def handleFormSubmit (form : ProfileForm) : Except String UpdateData :=
  match validateForm form with
  | .invalid message => .error message
  | .valid =>
    if form.passwordOpen ∧ form.newPassword ≠ "" then
      .ok { full_name := trim form.fullName, email := trim form.email,
            current_password := some form.currentPassword,
            new_password := some form.newPassword }
    else
      .ok { full_name := trim form.fullName, email := trim form.email,
            current_password := none, new_password := none }

/-- The values of the fields of the registration form. -/
structure RegisterForm where
  name : String
  email : String
  username : String
  password : String
  deriving DecidableEq

/-- The request of `api.register` for the given data with the role `customer`. -/
def registerOptions (name email username password : String) : RequestOptions :=
  { method := some "POST",
    body := some ("\x7b\"username\":" ++ jsonQuote username ++ ",\"email\":" ++ jsonQuote email
      ++ ",\"password\":" ++ jsonQuote password ++ ",\"full_name\":" ++ jsonQuote name
      ++ ",\"role\":\"customer\"\x7d"),
    headers := [] }

/-- What the register handler leaves on the page: the text of the error line and, on
success, the user name pre-filled in the login form that is then shown. -/
structure RegisterView where
  registerError : String
  loginShown : Option String
  deriving DecidableEq

/-- The `submit` handler of the registration form. -/
def submitRegister (api : APIService) (form : RegisterForm)
    (answer : FetchCall → FetchOutcome Unit) : RegisterView × List Effect :=
  let name := trim form.name
  let email := trim form.email
  let username := trim form.username
  let password := form.password
  if name = "" ∨ email = "" ∨ username = "" ∨ password = "" then
    ({ registerError := "Please fill in all fields", loginShown := none }, [])
  else if jsLength password < 6 then
    ({ registerError := "Password must be at least 6 characters", loginShown := none }, [])
  else if !emailRegexTest email then
    ({ registerError := "Please enter a valid email address", loginShown := none }, [])
  else
    let run := api.request "/auth/register" (registerOptions name email username password)
      answer
    match run.result with
    | .ok _ =>
      ({ registerError := "", loginShown := some username },
        fetchEffects run
          ++ [.alert "🎉 Account created successfully! Please log in to continue."])
    | .error message =>
      ({ registerError := if message = "" then
            "Registration failed. Username or email may already exist." else message,
         loginShown := none },
        fetchEffects run)

/-! ## The admin console (`admin.js`) -/

/-- The cached user as the admin console reads it: `none` for the role when the
property is absent. -/
structure CachedUser where
  username : String
  role : Option String
  deriving DecidableEq

/-- The test `!token || !user || user.role !== 'admin'`. -/
def accessDenied (token : Option String) (user : Option CachedUser) : Bool :=
  match token, user with
  | none, _ => true
  | some _, none => true
  | some t, some u => decide (t = "") || decide (u.role ≠ some "admin")

/-- Content of one of the three tables of the console. -/
inductive AdminTable where
  | loading
  | empty
  | rows (count : Nat)
  | error (message : String)
  deriving DecidableEq

/-- The common shape of `renderProducts`, `renderOrders` and `renderLogs`: one call of
the endpoint, then the table; the payload of the answer is the number of records of
the array. Nothing is thrown to the caller. -/
def renderTable (api : APIService) (endpoint : String) (errorPrefix arrayName : String)
    (answer : FetchCall → FetchOutcome Nat) : AdminTable × List Effect :=
  let run := api.request endpoint RequestOptions.empty answer
  match run.result with
  | .ok (.data (.document _ count)) =>
    (if count = 0 then .empty else .rows count, fetchEffects run)
  | .ok (.data .null) => (.empty, fetchEffects run)
  | .ok .success =>
    (.error (errorPrefix ++ arrayName ++ ".map is not a function"), fetchEffects run)
  | .error message => (.error (errorPrefix ++ message), fetchEffects run)

/-- The answers of the backend to the three calls of `init`. -/
structure AdminAnswers where
  products : FetchCall → FetchOutcome Nat
  orders : FetchCall → FetchOutcome Nat
  logs : FetchCall → FetchOutcome Nat

/-- The effects of loading the admin console, in program order: the access check at
the top of the module, which alerts and assigns `window.location.href` but does not
end the script, then `init`, which awaits `renderProducts`, `renderOrders` and
`renderLogs`. The service is the singleton created from local storage. -/
def adminConsole (localStorage : StringMap) (user : Option CachedUser)
    (answers : AdminAnswers) : List Effect :=
  let api := APIService.create localStorage
  let token := propGet localStorage "access_token"
  (if accessDenied token user then
      [Effect.alert "Access Denied. Admins only.", Effect.redirect "auth.html"]
    else [])
  ++ (renderTable api "/products" "Error loading products: " "products" answers.products).2
  ++ (renderTable api "/admin/orders" "Error loading orders: " "orders" answers.orders).2
  ++ (renderTable api "/admin/logs" "Error loading logs: " "logs" answers.logs).2

/-! ## Quantity controls (`cart.js`, `product-details.js`) -/

/-- The state of the cart page: the variable `cart` and the content of `#cart-list`. -/
structure CartPage where
  cart : List CartItem
  list : CartList
  deriving DecidableEq

/-- The function `loadCart` on the page state: `cart` is assigned when the call
succeeds. -/
def reloadCart (api : APIService)
    (answer : FetchCall → FetchOutcome (Option (List CartItem))) (page : CartPage) :
    CartPage × List Effect :=
  let loaded := loadCart api answer
  match (api.request "/cart" RequestOptions.empty answer).result >>= cartOfResult with
  | .ok cart => ({ cart := cart, list := loaded.1 }, loaded.2)
  | .error _ => ({ cart := page.cart, list := loaded.1 }, loaded.2)

/-- The request of `api.updateCartItem(itemId, quantity)`. -/
def updateCartOptions (quantity : Int) : RequestOptions :=
  { method := some "PUT",
    body := some ("\x7b\"quantity\":" ++ toString quantity ++ "\x7d"),
    headers := [] }

/-- The answers of the backend to the two calls of `updateQ`. -/
structure UpdateAnswers where
  update : FetchCall → FetchOutcome Unit
  cart : FetchCall → FetchOutcome (Option (List CartItem))

/-- The function `window.updateQ(id, newQ)`. -/
def updateQ (api : APIService) (id : Nat) (newQ : Int) (answers : UpdateAnswers)
    (page : CartPage) : CartPage × List Effect :=
  let run := api.request ("/cart/" ++ toString id) (updateCartOptions newQ) answers.update
  match run.result with
  | .ok _ =>
    let reloaded := reloadCart api answers.cart page
    (reloaded.1, fetchEffects run ++ reloaded.2 ++ [.dispatch "cart-updated"])
  | .error message =>
    (page, fetchEffects run
      ++ [.alert (if message = "" then "Could not update quantity." else message)])

/-- The function `window.increaseQ(id, currentQty, maxStock)`. -/
def increaseQ (api : APIService) (id : Nat) (currentQty maxStock : Int)
    (answers : UpdateAnswers) (page : CartPage) : CartPage × List Effect :=
  if currentQty ≥ maxStock then
    (page, [.alert ("Maximum stock available is " ++ toString maxStock)])
  else updateQ api id (currentQty + 1) answers page

/-- The function `window.decreaseQ(id, currentQty)`. -/
def decreaseQ (api : APIService) (id : Nat) (currentQty : Int)
    (answers : UpdateAnswers) (page : CartPage) : CartPage × List Effect :=
  if currentQty ≤ 1 then
    (page, [.alert "Quantity cannot be less than 1. Use Remove button to delete item."])
  else updateQ api id (currentQty - 1) answers page

/-- The third argument the rendered `+` button passes: `product.stock || 99`, where
`product` is `item.product || {}`. -/
def maxStockOf (item : CartItem) : Int :=
  match item.product with
  | none => 99
  | some product => if product.stock = 0 then 99 else (product.stock : Int)

/-- A click on the rendered `+` button of a cart line. -/
def plusClicked (api : APIService) (item : CartItem) (answers : UpdateAnswers)
    (page : CartPage) : CartPage × List Effect :=
  increaseQ api item.id item.quantity (maxStockOf item) answers page

/-- A click on the rendered `−` button of a cart line. -/
def minusClicked (api : APIService) (item : CartItem) (answers : UpdateAnswers)
    (page : CartPage) : CartPage × List Effect :=
  decreaseQ api item.id item.quantity answers page

/-- The function `window.changeQty(delta)` of the product-details page: `value` is
`parseInt(els.qty.value, 10)` and the result is the number written back to the
input. A loaded product carries its stock, so `currentProduct.stock ?? val` is the
stock. -/
def changeQty (currentProduct : Option Product) (value delta : Int) : Int :=
  let val := value + delta
  let val := if val < 1 then 1 else val
  match currentProduct with
  | none => val
  | some product => if val > (product.stock : Int) then (product.stock : Int) else val

/-- A history whose only entry was written by the product-details page, with the id
stored as a number. -/
def detailsOnlyHistory : List HistoryEntry := [detailsLoad 2 "Sets"]

/-- A cart line of quantity 1 for a product that is out of stock. -/
def soldOutLine : CartItem :=
  { id := 7, quantity := 1, product := some (toy 1 "Sets" 20 5 10 |> fun p => { p with stock := 0 }),
    subtotal := 20 }

/-- Answers of a backend on which every update succeeds and the cart is empty. -/
def updateSucceeds : UpdateAnswers :=
  { update := jsonAnswer 200 (), cart := jsonAnswer 200 (some []) }

/-- Answers of a backend with three products, two orders and no log. -/
def adminAnswers : AdminAnswers :=
  { products := jsonAnswer 200 3, orders := jsonAnswer 200 2, logs := jsonAnswer 200 0 }

/-- The characters of the keyword `ship`. -/
def shipChars : List Char := ['s', 'h', 'i', 'p']

/-- The characters of the keyword `hi`. -/
def hiChars : List Char := ['h', 'i']

/-- Filters selecting building sets of at most 30 with a rating of at least 4, in
stock, whose text mentions "TOY". -/
def sampleFilters : Filters :=
  { category := ["Sets"], priceMax := 30, rating := 4, inStock := true, search := "TOY" }

/-- A profile form in which the password is changed to a six-letter password. -/
def passwordChangeForm : ProfileForm :=
  { fullName := " Sam Doe ", email := "sam@toys.example", passwordOpen := true,
    currentPassword := "old-secret", newPassword := "sesame", confirmPassword := "sesame" }

/-- The update that `handleFormSubmit` sends for `passwordChangeForm`. -/
def passwordChangeData : UpdateData :=
  { full_name := "Sam Doe", email := "sam@toys.example",
    current_password := some "old-secret", new_password := some "sesame" }

/-- A product that is out of stock. -/
def soldOutToy : Product := { toy 1 "Sets" 20 5 10 with stock := 0 }

/-- The cart page showing the single line `soldOutLine`. -/
def soldOutPage : CartPage := { cart := [soldOutLine], list := .items [soldOutLine] }

/-! # Properties -/

/-! ## Sorting -/

theorem jsSort_perm {α : Type} (cmp : α → α → ℚ) (l : List α) : (jsSort cmp l).Perm l :=
  List.perm_insertionSort _ l

theorem jsSort_length {α : Type} (cmp : α → α → ℚ) (l : List α) :
    (jsSort cmp l).length = l.length :=
  (jsSort_perm cmp l).length_eq

theorem mem_jsSort {α : Type} (cmp : α → α → ℚ) (l : List α) (a : α) :
    a ∈ jsSort cmp l ↔ a ∈ l :=
  (jsSort_perm cmp l).mem_iff

/-- A comparator of the form `key b - key a` sorts by `key`, highest first. -/
theorem jsSort_pairwise_key {α : Type} (cmp : α → α → ℚ) (key : α → ℚ)
    (hcmp : ∀ a b, cmp a b = key b - key a) (l : List α) :
    (jsSort cmp l).Pairwise (fun a b => key b ≤ key a) := by
  have htotal : IsTotal α (fun a b => cmp a b ≤ 0) :=
    ⟨fun a b => by
      simp only [hcmp]
      rcases le_total (key a) (key b) with h | h
      · right; linarith
      · left; linarith⟩
  have htrans : IsTrans α (fun a b => cmp a b ≤ 0) :=
    ⟨fun a b c hab hbc => by
      simp only [hcmp] at hab hbc ⊢
      linarith⟩
  have hs := @List.sorted_insertionSort α (fun a b => cmp a b ≤ 0) _ htotal htrans l
  refine List.Pairwise.imp ?_ hs
  intro a b hab
  simp only [hcmp] at hab
  linarith

theorem jsSort_byPopularity_pairwise (l : List Product) :
    (jsSort byPopularity l).Pairwise (fun a b => popularity b ≤ popularity a) :=
  jsSort_pairwise_key byPopularity popularity (fun _ _ => rfl) l

/-- The order relation of a sort depends only on the elements of the list. -/
theorem orderedInsert_congr {α : Type} (r s : α → α → Prop) [DecidableRel r]
    [DecidableRel s] (a : α) :
    ∀ l : List α, (∀ b ∈ l, r a b ↔ s a b) → l.orderedInsert r a = l.orderedInsert s a := by
  intro l
  induction l with
  | nil => intro _; rfl
  | cons b l ih =>
    intro h
    have hb := h b (List.mem_cons_self _ _)
    by_cases hab : r a b
    · rw [List.orderedInsert_of_le r l hab, List.orderedInsert_of_le s l (hb.mp hab)]
    · have hab' : ¬ s a b := fun h' => hab (hb.mpr h')
      simp only [List.orderedInsert, hab, hab', if_false]
      rw [ih (fun c hc => h c (List.mem_cons_of_mem _ hc))]

theorem insertionSort_congr {α : Type} (r s : α → α → Prop) [DecidableRel r]
    [DecidableRel s] :
    ∀ l : List α, (∀ a ∈ l, ∀ b ∈ l, r a b ↔ s a b) →
      l.insertionSort r = l.insertionSort s := by
  intro l
  induction l with
  | nil => intro _; rfl
  | cons a l ih =>
    intro h
    have hl := ih (fun x hx y hy => h x (List.mem_cons_of_mem _ hx) y (List.mem_cons_of_mem _ hy))
    simp only [List.insertionSort]
    rw [hl]
    apply orderedInsert_congr
    intro b hb
    exact h a (List.mem_cons_self _ _) b
      (List.mem_cons_of_mem _ ((List.perm_insertionSort s l).subset hb))

theorem byCategoryScore_of_numeric {a b : Recommendation}
    (ha : IsNumericScore a.categoryScore) (hb : IsNumericScore b.categoryScore) :
    byCategoryScore a b = (scoreCount b.categoryScore : ℚ) - (scoreCount a.categoryScore : ℚ) := by
  unfold byCategoryScore
  rcases ha with ha | ⟨n, ha⟩ <;> rcases hb with hb | ⟨m, hb⟩ <;>
    simp [ha, hb, scoreNumber, TallyValue.toNumber, differenceOrZero, scoreCount]

/-- When every category score is missing or a number, the comparator is a consistent
ordering and the sorted list is in non-increasing order of score. -/
theorem jsSort_byCategoryScore_pairwise (l : List Recommendation)
    (hl : ∀ r ∈ l, IsNumericScore r.categoryScore) :
    (jsSort byCategoryScore l).Pairwise
      (fun a b => scoreCount b.categoryScore ≤ scoreCount a.categoryScore) := by
  have hcongr : jsSort byCategoryScore l
      = jsSort (fun a b => (scoreCount b.categoryScore : ℚ) - (scoreCount a.categoryScore : ℚ)) l := by
    unfold jsSort
    apply insertionSort_congr
    intro a ha b hb
    rw [byCategoryScore_of_numeric (hl a ha) (hl b hb)]
  rw [hcongr]
  have h := jsSort_pairwise_key
    (fun a b : Recommendation => (scoreCount b.categoryScore : ℚ) - (scoreCount a.categoryScore : ℚ))
    (fun r => (scoreCount r.categoryScore : ℚ)) (fun _ _ => rfl) l
  exact h.imp (fun hab => by exact_mod_cast hab)

/-- Every element sorts at or before an element without category score. -/
theorem byCategoryScore_unscored (a z : Recommendation) (hz : z.categoryScore = none) :
    byCategoryScore a z ≤ 0 := by
  unfold byCategoryScore
  rw [hz]
  cases hs : a.categoryScore with
  | none => simp [scoreNumber, differenceOrZero]
  | some v =>
    cases v with
    | count n => simp [scoreNumber, TallyValue.toNumber, differenceOrZero]
    | text s =>
      by_cases h : s = "" <;> simp [scoreNumber, TallyValue.toNumber, differenceOrZero, h]

theorem orderedInsert_append_unscored (a : Recommendation) (unscored : List Recommendation)
    (h : ∀ z ∈ unscored, z.categoryScore = none) :
    ∀ l : List Recommendation,
      (l ++ unscored).orderedInsert (fun a b => byCategoryScore a b ≤ 0) a
        = l.orderedInsert (fun a b => byCategoryScore a b ≤ 0) a ++ unscored := by
  intro l
  induction l with
  | nil =>
    cases unscored with
    | nil => rfl
    | cons z zs =>
      have hz := byCategoryScore_unscored a z (h z (List.mem_cons_self _ _))
      simp only [List.nil_append, List.orderedInsert, hz, if_true, List.cons_append]
  | cons b l ih =>
    by_cases hab : byCategoryScore a b ≤ 0
    · have hstep : ∀ t : List Recommendation,
          (b :: t).orderedInsert (fun a b => byCategoryScore a b ≤ 0) a = a :: b :: t := by
        intro t
        simp only [List.orderedInsert, hab, if_true]
      rw [List.cons_append, hstep, hstep]
      rfl
    · have hstep : ∀ t : List Recommendation,
          (b :: t).orderedInsert (fun a b => byCategoryScore a b ≤ 0) a
            = b :: t.orderedInsert (fun a b => byCategoryScore a b ≤ 0) a := by
        intro t
        simp only [List.orderedInsert, hab, if_false]
      rw [List.cons_append, hstep, hstep, ih]
      rfl

/-- Candidates without category score that come last are not moved by the sort by
category score: whatever the scores of the others are, every one of them is placed
before the first candidate without score. -/
theorem jsSort_byCategoryScore_append (scored unscored : List Recommendation)
    (h : ∀ z ∈ unscored, z.categoryScore = none) :
    jsSort byCategoryScore (scored ++ unscored)
      = jsSort byCategoryScore scored ++ unscored := by
  induction scored with
  | nil =>
    simp only [List.nil_append]
    induction unscored with
    | nil => rfl
    | cons z zs ih =>
      have hzs := ih (fun y hy => h y (List.mem_cons_of_mem _ hy))
      change (jsSort byCategoryScore zs).orderedInsert _ z = _
      rw [hzs]
      have := orderedInsert_append_unscored z zs
        (fun y hy => h y (List.mem_cons_of_mem _ hy)) []
      simpa using this
  | cons a l ih =>
    change (jsSort byCategoryScore (l ++ unscored)).orderedInsert _ a = _
    rw [ih, orderedInsert_append_unscored a unscored h]
    rfl


/-! ## The exception handler -/

theorem generateRecommendations_ok (recType : String) (viewHistory : List HistoryEntry)
    (allProducts : List Product) :
    generateRecommendations recType (.ok viewHistory) (.products allProducts)
      = recommend recType viewHistory allProducts := rfl

theorem recommend_nil (recType : String) (allProducts : List Product) :
    recommend recType [] allProducts = popularPicks allProducts := rfl

theorem recommend_of_ne_nil (recType : String) {viewHistory : List HistoryEntry}
    (h : viewHistory ≠ []) (allProducts : List Product) :
    recommend recType viewHistory allProducts
      = (uniqueRecsFrom [] (rankedCandidates recType viewHistory allProducts)).take 20 := by
  cases viewHistory with
  | nil => exact absurd rfl h
  | cons e es => rfl

/-! ## The empty-history branch -/

theorem popularPicks_products (allProducts : List Product) :
    (popularPicks allProducts).map (fun r => r.product)
      = (jsSort byPopularity allProducts).take 12 := by
  simp [popularPicks, List.map_map, Function.comp_def]

theorem popularPicks_length (allProducts : List Product) :
    (popularPicks allProducts).length = min 12 allProducts.length := by
  simp [popularPicks, List.length_take, jsSort_length]

theorem popularPicks_reason (allProducts : List Product) :
    ∀ r ∈ popularPicks allProducts, r.reason = "Popular" := by
  intro r hr
  simp only [popularPicks, List.mem_map] at hr
  obtain ⟨p, _, rfl⟩ := hr
  rfl

theorem popularPicks_pairwise (allProducts : List Product) :
    (popularPicks allProducts).Pairwise
      (fun a b => popularity b.product ≤ popularity a.product) := by
  have h := (jsSort_byPopularity_pairwise allProducts).sublist
    (List.take_sublist 12 (jsSort byPopularity allProducts))
  rw [← popularPicks_products] at h
  exact List.pairwise_map.mp h

/-! ## De-duplication -/

theorem uniqueRecsFrom_sublist (seenIds : List JsId) (l : List Recommendation) :
    (uniqueRecsFrom seenIds l).Sublist l := by
  induction l generalizing seenIds with
  | nil => exact List.Sublist.refl _
  | cons r rest ih =>
    unfold uniqueRecsFrom
    split
    · exact (ih seenIds).cons r
    · exact (ih (r.id :: seenIds)).cons₂ r

theorem uniqueRecsFrom_not_seen (seenIds : List JsId) (l : List Recommendation) :
    ∀ r ∈ uniqueRecsFrom seenIds l, r.id ∉ seenIds := by
  induction l generalizing seenIds with
  | nil => intro r hr; simp [uniqueRecsFrom] at hr
  | cons a rest ih =>
    intro r hr
    unfold uniqueRecsFrom at hr
    split at hr
    · exact ih seenIds r hr
    · rename_i hnot
      rcases List.mem_cons.mp hr with rfl | hr
      · exact hnot
      · exact fun hmem => ih (a.id :: seenIds) r hr (List.mem_cons_of_mem _ hmem)

theorem uniqueRecsFrom_nodup (seenIds : List JsId) (l : List Recommendation) :
    ((uniqueRecsFrom seenIds l).map Recommendation.id).Nodup := by
  induction l generalizing seenIds with
  | nil => simp [uniqueRecsFrom]
  | cons a rest ih =>
    unfold uniqueRecsFrom
    split
    · exact ih seenIds
    · rw [List.map_cons, List.nodup_cons]
      refine ⟨?_, ih (a.id :: seenIds)⟩
      intro hmem
      obtain ⟨r, hr, hid⟩ := List.mem_map.mp hmem
      exact uniqueRecsFrom_not_seen (a.id :: seenIds) rest r hr (by rw [hid]; exact List.mem_cons_self _ _)

theorem recommend_sublist_ranked (recType : String) {viewHistory : List HistoryEntry}
    (h : viewHistory ≠ []) (allProducts : List Product) :
    (recommend recType viewHistory allProducts).Sublist
      (rankedCandidates recType viewHistory allProducts) := by
  rw [recommend_of_ne_nil recType h]
  exact (List.take_sublist _ _).trans (uniqueRecsFrom_sublist _ _)

/-! ## Claims -/

/-- Claim C1: for every stored view history, every outcome of the product fetch
(a catalog, a failure or a malformed payload) and every recommendation type, the
list returned by `generateRecommendations` has at most 20 items. -/
theorem generateRecommendations_length_le_twenty (recType : String)
    (stored : Except String (List HistoryEntry)) (fetched : ProductsResponse) :
    (generateRecommendations recType stored fetched).length ≤ 20 := by
  cases stored with
  | error e => simp [generateRecommendations, generateRecommendationsBody, bind, Except.bind]
  | ok viewHistory =>
    cases fetched with
    | rejected m =>
      simp [generateRecommendations, generateRecommendationsBody, bind, Except.bind,
        ProductsResponse.array]
    | notAnArray =>
      simp [generateRecommendations, generateRecommendationsBody, bind, Except.bind,
        ProductsResponse.array]
    | products allProducts =>
      rw [generateRecommendations_ok]
      by_cases h : viewHistory = []
      · subst h
        rw [recommend_nil, popularPicks_length]
        omega
      · rw [recommend_of_ne_nil recType h, List.length_take]
        omega

/-- Claim C2, as stated, fails: with an empty history and a catalog that lists the
same record twice the returned list repeats a product id. -/
theorem generateRecommendations_duplicate_ids_repeatedCatalog :
    ¬ ((generateRecommendations "all" (.ok []) (.products repeatedCatalog)).map
        Recommendation.id).Nodup := by
  decide!

/-- Claim C2, amended: when the view history is not empty, or the product ids of the
catalog are pairwise distinct, no two items of the list returned by
`generateRecommendations` have the same product id. -/
theorem generateRecommendations_ids_nodup (recType : String)
    (viewHistory : List HistoryEntry) (allProducts : List Product)
    (h : viewHistory ≠ [] ∨ (allProducts.map (fun p => p.id)).Nodup) :
    ((generateRecommendations recType (.ok viewHistory) (.products allProducts)).map
        Recommendation.id).Nodup := by
  rw [generateRecommendations_ok]
  by_cases hne : viewHistory = []
  · subst hne
    rcases h with h | h
    · exact absurd rfl h
    · rw [recommend_nil]
      have hmap : (popularPicks allProducts).map Recommendation.id
          = ((jsSort byPopularity allProducts).take 12).map (fun p => p.id) := by
        simp [popularPicks, List.map_map, Function.comp_def, Recommendation.id]
      rw [hmap]
      have hperm : ((jsSort byPopularity allProducts).map (fun p => p.id)).Nodup :=
        ((jsSort_perm byPopularity allProducts).map _).nodup_iff.mpr h
      exact hperm.sublist ((List.take_sublist _ _).map _)
  · rw [recommend_of_ne_nil recType hne]
    exact (uniqueRecsFrom_nodup [] _).sublist ((List.take_sublist _ _).map _)

/-- Witness for claim C2 (amended): the shop catalog with a history of four card
clicks. -/
theorem generateRecommendations_ids_nodup_witness :
    (shopHistory ≠ [] ∨ (shopCatalog.map (fun p => p.id)).Nodup) ∧
    ((generateRecommendations "all" (.ok shopHistory) (.products shopCatalog)).map
        Recommendation.id).Nodup :=
  ⟨Or.inl (by decide),
    generateRecommendations_ids_nodup "all" shopHistory shopCatalog (Or.inl (by decide))⟩

/-- Claim C3, as stated, fails: with an empty history the returned list need not be
in descending order of `rating * reviews`; a product rated 5 without reviews is
listed before a product rated 1 with 3 reviews. -/
theorem generateRecommendations_not_sorted_by_rating_times_reviews :
    ¬ ((generateRecommendations "all" (.ok []) (.products unreviewedCatalog)).Pairwise
          (fun a b => b.product.rating * (b.product.reviews : ℚ)
            ≤ a.product.rating * (a.product.reviews : ℚ))
        ∧ (generateRecommendations "all" (.ok []) (.products unreviewedCatalog)).length ≤ 12) := by
  decide!

/-- Claim C3, amended: when the view history is empty the returned list is in
descending order of `rating * (reviews || 1)`, the review count being replaced by 1
when it is 0, and has at most 12 items. -/
theorem generateRecommendations_empty_history_sorted (recType : String)
    (allProducts : List Product) :
    (generateRecommendations recType (.ok []) (.products allProducts)).Pairwise
        (fun a b => b.product.rating * ((if b.product.reviews = 0 then 1 else b.product.reviews : ℕ) : ℚ)
          ≤ a.product.rating * ((if a.product.reviews = 0 then 1 else a.product.reviews : ℕ) : ℚ))
      ∧ (generateRecommendations recType (.ok []) (.products allProducts)).length ≤ 12 := by
  rw [generateRecommendations_ok, recommend_nil]
  refine ⟨popularPicks_pairwise allProducts, ?_⟩
  rw [popularPicks_length]
  omega

/-! ## The category tally -/

theorem objGet_objSet (o : JsObject) (k c : String) (v : TallyValue) :
    objGet (objSet o k v) c = if k = c then some v else objGet o c := by
  induction o with
  | nil => simp [objSet, objGet]
  | cons e rest ih =>
    obtain ⟨k', v'⟩ := e
    by_cases hk : k' = k
    · subst hk
      by_cases hc : k' = c
      · simp [objSet, objGet, hc]
      · simp [objSet, objGet, hc]
    · by_cases hc : k' = c
      · subst hc
        have hk' : ¬ k = k' := fun h => hk h.symm
        simp [objSet, objGet, hk, hk']
      · simp [objSet, objGet, hk, hc, ih]

theorem mem_keys_iff_objGet (o : JsObject) (c : String) :
    c ∈ o.map (fun e => e.1) ↔ objGet o c ≠ none := by
  induction o with
  | nil => simp [objGet]
  | cons e rest ih =>
    obtain ⟨k', v'⟩ := e
    by_cases hc : k' = c
    · simp [objGet, hc]
    · have hc' : ¬ c = k' := fun h => hc h.symm
      simp only [List.map_cons, List.mem_cons, objGet, hc, hc', if_false, false_or]
      exact ih

theorem IsOrdinaryName.ne_proto {c : String} (hc : IsOrdinaryName c) : c ≠ "__proto__" := by
  intro h
  subst h
  have hsome : inheritedText "__proto__" = some "[object Object]" := by decide
  have hnone : inheritedText "__proto__" = none := hc
  rw [hsome] at hnone
  exact absurd hnone (by simp)

theorem objGet_tallyStep (o : JsObject) (k c : String) :
    objGet (tallyStep o k) c
      = if k = c ∧ k ≠ "__proto__" then some (incremented o k) else objGet o c := by
  unfold tallyStep
  by_cases hk : k = "__proto__"
  · simp [hk]
  · simp only [hk, if_false, objGet_objSet, ne_eq, not_false_eq_true, and_true]

/-- A category is an own property of the tally exactly when it was one before or a
tallied product belongs to it; the key `__proto__` never becomes one. -/
theorem objGet_foldl_tally_ne_none (ps : List Product) (o : JsObject) (c : String) :
    objGet (ps.foldl (fun o p => tallyStep o p.category) o) c ≠ none
      ↔ objGet o c ≠ none
        ∨ (c ≠ "__proto__" ∧ 0 < ps.countP (fun p => decide (p.category = c))) := by
  induction ps generalizing o with
  | nil => simp
  | cons p ps ih =>
    rw [List.foldl_cons, ih, objGet_tallyStep]
    by_cases hp : p.category = c
    · subst hp
      by_cases hproto : p.category = "__proto__"
      · simp [hproto]
      · simp [hproto]
    · simp [List.countP_cons, hp]

/-- For a category that a plain object does not inherit, the tally counts. -/
theorem objGet_foldl_tally (ps : List Product) (o : JsObject) (c : String)
    (hc : IsOrdinaryName c) (m : Nat)
    (ho : objGet o c = if m = 0 then none else some (.count m)) :
    objGet (ps.foldl (fun o p => tallyStep o p.category) o) c
      = if m + ps.countP (fun p => decide (p.category = c)) = 0 then none
        else some (.count (m + ps.countP (fun p => decide (p.category = c)))) := by
  induction ps generalizing o m with
  | nil => simpa using ho
  | cons p ps ih =>
    rw [List.foldl_cons]
    by_cases hp : p.category = c
    · subst hp
      have hstep : objGet (tallyStep o p.category) p.category
          = if m + 1 = 0 then none else some (.count (m + 1)) := by
        rw [objGet_tallyStep]
        simp only [hc.ne_proto, ne_eq, not_false_eq_true, and_self, if_true,
          Nat.add_one_ne_zero, if_false]
        unfold incremented
        rw [ho]
        by_cases hm : m = 0
        · subst hm
          have hnone : inheritedText p.category = none := hc
          simp [hnone]
        · simp [hm]
      rw [ih _ (m + 1) hstep]
      simp only [List.countP_cons_of_pos, decide_True]
      have hsum : m + 1 + List.countP (fun q => decide (q.category = p.category)) ps
          = m + (List.countP (fun q => decide (q.category = p.category)) ps + 1) := by omega
      rw [hsum]
    · have hstep : objGet (tallyStep o p.category) c
          = if m = 0 then none else some (.count m) := by
        rw [objGet_tallyStep]
        simp only [hp, false_and, if_false]
        exact ho
      rw [ih _ m hstep]
      simp [List.countP_cons, hp]

theorem incremented_ne_zero (o : JsObject) (k : String) : incremented o k ≠ .count 0 := by
  unfold incremented
  split
  · simp
  · split <;> simp
  · split <;> simp

/-- The tally never holds the number 0. -/
theorem objGet_categoryCountOf_ne_zero (viewedProducts : List Product) (c : String) :
    objGet (categoryCountOf viewedProducts) c ≠ some (.count 0) := by
  unfold categoryCountOf
  have hinv : ∀ (ps : List Product) (o : JsObject),
      (∀ c, objGet o c ≠ some (.count 0)) →
      ∀ c, objGet (ps.foldl (fun o p => tallyStep o p.category) o) c ≠ some (.count 0) := by
    intro ps
    induction ps with
    | nil => intro o ho; simpa using ho
    | cons p ps ih =>
      intro o ho
      rw [List.foldl_cons]
      apply ih
      intro c
      rw [objGet_tallyStep]
      split
      · intro h
        exact incremented_ne_zero o p.category (Option.some.inj h)
      · exact ho c
  exact hinv viewedProducts [] (fun c => by simp [objGet]) c

theorem objGet_categoryCountOf (viewedProducts : List Product) (c : String)
    (hc : IsOrdinaryName c) :
    objGet (categoryCountOf viewedProducts) c
      = if viewedProducts.countP (fun p => decide (p.category = c)) = 0 then none
        else some (.count (viewedProducts.countP (fun p => decide (p.category = c)))) := by
  unfold categoryCountOf
  rw [objGet_foldl_tally viewedProducts [] c hc 0 rfl]
  simp

theorem objectEntries_perm (o : JsObject) : (objectEntries o).Perm o := by
  unfold objectEntries
  exact ((List.perm_insertionSort _ _).append_right _).trans (List.filter_append_perm _ o)

theorem mem_sortedCategoriesOf (o : JsObject) (c : String) :
    c ∈ sortedCategoriesOf o ↔ objGet o c ≠ none := by
  unfold sortedCategoriesOf
  rw [← mem_keys_iff_objGet]
  exact (((jsSort_perm byCount _).trans (objectEntries_perm o)).map _).mem_iff

/-- The preferred categories are the categories of the viewed products, `__proto__`
apart. -/
theorem mem_sortedCategories_iff (viewedProducts : List Product) (c : String) :
    c ∈ sortedCategoriesOf (categoryCountOf viewedProducts)
      ↔ c ≠ "__proto__" ∧ 0 < viewedProducts.countP (fun p => decide (p.category = c)) := by
  rw [mem_sortedCategoriesOf]
  unfold categoryCountOf
  rw [objGet_foldl_tally_ne_none]
  simp [objGet]

theorem orOne_eq_max (n : Nat) : orOne n = max n 1 := by
  unfold orOne
  split <;> omega

theorem popularity_eq_max (p : Product) :
    popularity p = p.rating * ((max p.reviews 1 : ℕ) : ℚ) := by
  unfold popularity
  rw [orOne_eq_max]

/-- Claim C8: for every product catalog, when the view history is empty
`generateRecommendations` returns products of the catalog, namely as many as the
catalog has up to 12, in descending order of `rating × max(reviews, 1)`; every
catalog product left out ranks no higher than any returned one; and every returned
item carries the reason `Popular`. -/
theorem generateRecommendations_empty_history_popular (recType : String)
    (allProducts : List Product) :
    ((generateRecommendations recType (.ok []) (.products allProducts)).map
        (fun r => r.product)).Subperm allProducts
    ∧ (generateRecommendations recType (.ok []) (.products allProducts)).length
        = min 12 allProducts.length
    ∧ (generateRecommendations recType (.ok []) (.products allProducts)).Pairwise
        (fun a b => b.product.rating * ((max b.product.reviews 1 : ℕ) : ℚ)
          ≤ a.product.rating * ((max a.product.reviews 1 : ℕ) : ℚ))
    ∧ (∀ p ∈ allProducts,
        p ∉ (generateRecommendations recType (.ok []) (.products allProducts)).map
          (fun r => r.product) →
        ∀ r ∈ generateRecommendations recType (.ok []) (.products allProducts),
          p.rating * ((max p.reviews 1 : ℕ) : ℚ)
            ≤ r.product.rating * ((max r.product.reviews 1 : ℕ) : ℚ))
    ∧ ∀ r ∈ generateRecommendations recType (.ok []) (.products allProducts),
        r.reason = "Popular" := by
  rw [generateRecommendations_ok, recommend_nil]
  refine ⟨?_, popularPicks_length allProducts, ?_, ?_, popularPicks_reason allProducts⟩
  · rw [popularPicks_products]
    exact ((List.take_sublist _ _).subperm).trans (jsSort_perm byPopularity allProducts).subperm
  · have h := popularPicks_pairwise allProducts
    simp only [popularity_eq_max] at h
    exact h
  · intro p hp hnot r hr
    rw [popularPicks_products] at hnot
    have hsorted := jsSort_byPopularity_pairwise allProducts
    rw [← List.take_append_drop 12 (jsSort byPopularity allProducts),
      List.pairwise_append] at hsorted
    have hpmem : p ∈ jsSort byPopularity allProducts := (mem_jsSort _ _ _).mpr hp
    rw [← List.take_append_drop 12 (jsSort byPopularity allProducts), List.mem_append] at hpmem
    have hdrop : p ∈ (jsSort byPopularity allProducts).drop 12 := by
      rcases hpmem with h | h
      · exact absurd h hnot
      · exact h
    have hrmem : r.product ∈ (jsSort byPopularity allProducts).take 12 := by
      rw [← popularPicks_products]
      exact List.mem_map_of_mem _ hr
    have := hsorted.2.2 r.product hrmem p hdrop
    simpa only [popularity_eq_max] using this

/-! ## Reason strings -/

theorem youLike_data (c : String) :
    ("You like " ++ c).data = 'Y' :: 'o' :: 'u' :: ' ' :: 'l' :: 'i' :: 'k' :: 'e' :: ' ' :: c.data := by
  rw [String.data_append]
  rfl

theorem youLike_injective {a b : String} (h : "You like " ++ a = "You like " ++ b) : a = b := by
  have hd := congrArg String.data h
  rw [youLike_data, youLike_data] at hd
  simp only [List.cons.injEq, true_and] at hd
  exact String.ext hd

theorem youLike_ne_popular (c : String) : "You like " ++ c ≠ "Popular" := by
  intro h
  have hd := congrArg String.data h
  rw [youLike_data] at hd
  exact absurd (List.cons.inj hd).1 (by decide)

theorem youLike_ne_budget (c : String) : "You like " ++ c ≠ "Matches your budget" := by
  intro h
  have hd := congrArg String.data h
  rw [youLike_data] at hd
  exact absurd (List.cons.inj hd).1 (by decide)

theorem youLike_ne_trending (c : String) : "You like " ++ c ≠ "Trending in your interests" := by
  intro h
  have hd := congrArg String.data h
  rw [youLike_data] at hd
  exact absurd (List.cons.inj hd).1 (by decide)

/-! ## The three groups of candidates -/

theorem mem_categoryPicks {viewedIds : List JsId} {categoryCount : JsObject}
    {allProducts : List Product} {category : String} {r : Recommendation}
    (hr : r ∈ categoryPicks viewedIds categoryCount allProducts category) :
    r.product ∈ allProducts ∧ r.product.category = category
      ∧ isViewed viewedIds r.product = false
      ∧ r.reason = "You like " ++ category
      ∧ r.categoryScore = objGet categoryCount category := by
  simp only [categoryPicks, List.mem_map] at hr
  obtain ⟨p, hp, rfl⟩ := hr
  have hp' := (mem_jsSort _ _ _).mp (List.mem_of_mem_take hp)
  simp only [List.mem_filter, Bool.and_eq_true, decide_eq_true_eq, Bool.not_eq_true'] at hp'
  exact ⟨hp'.1, hp'.2.1, hp'.2.2, rfl, rfl⟩

theorem mem_budgetPicks {viewedIds : List JsId} {sortedCategories : List String}
    {avgPrice : JsNumber} {allProducts : List Product} {r : Recommendation}
    (hr : r ∈ budgetPicks viewedIds sortedCategories avgPrice allProducts) :
    r.product ∈ allProducts ∧ isViewed viewedIds r.product = false
      ∧ inPriceBand avgPrice r.product.price = true
      ∧ r.product.category ∈ sortedCategories
      ∧ r.reason = "Matches your budget" ∧ r.categoryScore = none := by
  simp only [budgetPicks, List.mem_map] at hr
  obtain ⟨p, hp, rfl⟩ := hr
  have hp' := (mem_jsSort _ _ _).mp (List.mem_of_mem_take hp)
  simp only [List.mem_filter, Bool.and_eq_true, decide_eq_true_eq, Bool.not_eq_true'] at hp'
  exact ⟨hp'.1, hp'.2.1.1, hp'.2.1.2, hp'.2.2, rfl, rfl⟩

theorem budgetPicks_length_le (viewedIds : List JsId) (sortedCategories : List String)
    (avgPrice : JsNumber) (allProducts : List Product) :
    (budgetPicks viewedIds sortedCategories avgPrice allProducts).length ≤ 5 := by
  simp only [budgetPicks, List.length_map, List.length_take]
  omega

theorem mem_trendingPicks {viewedIds : List JsId} {sortedCategories : List String}
    {allProducts : List Product} {r : Recommendation}
    (hr : r ∈ trendingPicks viewedIds sortedCategories allProducts) :
    r.product ∈ allProducts ∧ isViewed viewedIds r.product = false
      ∧ r.product.category ∈ sortedCategories
      ∧ r.reason = "Trending in your interests" ∧ r.categoryScore = none := by
  simp only [trendingPicks, List.mem_map] at hr
  obtain ⟨p, hp, rfl⟩ := hr
  have hp' := (mem_jsSort _ _ _).mp (List.mem_of_mem_take hp)
  simp only [List.mem_filter, Bool.and_eq_true, decide_eq_true_eq, Bool.not_eq_true'] at hp'
  exact ⟨hp'.1, hp'.2.2, hp'.2.1, rfl, rfl⟩

/-- Where a candidate comes from. -/
theorem mem_candidates {recType : String} {viewHistory : List HistoryEntry}
    {allProducts : List Product} {r : Recommendation}
    (hr : r ∈ candidates recType viewHistory allProducts) :
    (∃ c ∈ sortedCategoriesOf (categoryCountOf (viewedProductsOf viewHistory allProducts)),
        r ∈ categoryPicks (viewedIdsOf viewHistory)
          (categoryCountOf (viewedProductsOf viewHistory allProducts)) allProducts c)
    ∨ r ∈ budgetPicks (viewedIdsOf viewHistory)
          (sortedCategoriesOf (categoryCountOf (viewedProductsOf viewHistory allProducts)))
          (avgPriceOf (viewedProductsOf viewHistory allProducts)) allProducts
    ∨ r ∈ trendingPicks (viewedIdsOf viewHistory)
          (sortedCategoriesOf (categoryCountOf (viewedProductsOf viewHistory allProducts)))
          allProducts := by
  simp only [candidates, List.mem_append] at hr
  rcases hr with (h | h) | h
  · split at h
    · left
      obtain ⟨c, hc, hrc⟩ := List.mem_flatMap.mp h
      exact ⟨c, hc, hrc⟩
    · simp at h
  · split at h
    · exact Or.inr (Or.inl h)
    · simp at h
  · split at h
    · exact Or.inr (Or.inr h)
    · simp at h

/-- Every candidate is an unseen catalog product of a category with at least one
viewed product. -/
theorem candidate_unseen {recType : String} {viewHistory : List HistoryEntry}
    {allProducts : List Product} {r : Recommendation}
    (hr : r ∈ candidates recType viewHistory allProducts) :
    r.product ∈ allProducts ∧ isViewed (viewedIdsOf viewHistory) r.product = false
      ∧ 0 < categoryViews viewHistory allProducts r.product.category := by
  rcases mem_candidates hr with ⟨c, hc, h⟩ | h | h
  · obtain ⟨h1, h2, h3, _, _⟩ := mem_categoryPicks h
    refine ⟨h1, h3, ?_⟩
    rw [h2]
    exact ((mem_sortedCategories_iff _ _).mp hc).2
  · obtain ⟨h1, h2, _, h4, _, _⟩ := mem_budgetPicks h
    exact ⟨h1, h2, ((mem_sortedCategories_iff _ _).mp h4).2⟩
  · obtain ⟨h1, h2, h3, _, _⟩ := mem_trendingPicks h
    exact ⟨h1, h2, ((mem_sortedCategories_iff _ _).mp h3).2⟩

/-- A candidate tagged `You like c` is a category pick of `c`, a category with at
least one viewed product, and carries the value that the tally holds for `c`. -/
theorem candidate_youLike_scored {recType : String} {viewHistory : List HistoryEntry}
    {allProducts : List Product} {r : Recommendation}
    (hr : r ∈ candidates recType viewHistory allProducts) {c : String}
    (hreason : r.reason = "You like " ++ c) :
    r.categoryScore
        = objGet (categoryCountOf (viewedProductsOf viewHistory allProducts)) c
      ∧ r.categoryScore ≠ none
      ∧ 0 < categoryViews viewHistory allProducts c ∧ r.product.category = c := by
  rcases mem_candidates hr with ⟨c', hc', h⟩ | h | h
  · obtain ⟨_, h2, _, h4, h5⟩ := mem_categoryPicks h
    have hcc : c' = c := youLike_injective (h4.symm.trans hreason)
    subst hcc
    refine ⟨h5, ?_, ((mem_sortedCategories_iff _ _).mp hc').2, h2⟩
    rw [h5]
    exact (mem_sortedCategoriesOf _ _).mp hc'
  · obtain ⟨_, _, _, _, h5, _⟩ := mem_budgetPicks h
    exact absurd (hreason.symm.trans h5) (youLike_ne_budget c)
  · obtain ⟨_, _, _, h4, _⟩ := mem_trendingPicks h
    exact absurd (hreason.symm.trans h4) (youLike_ne_trending c)

/-- When no viewed product has a category that a plain object inherits, a candidate
tagged `You like c` carries the view count of `c`, which is positive. -/
theorem candidate_youLike {recType : String} {viewHistory : List HistoryEntry}
    {allProducts : List Product} {r : Recommendation}
    (hord : ∀ p ∈ viewedProductsOf viewHistory allProducts, IsOrdinaryName p.category)
    (hr : r ∈ candidates recType viewHistory allProducts) {c : String}
    (hreason : r.reason = "You like " ++ c) :
    r.categoryScore = some (.count (categoryViews viewHistory allProducts c))
      ∧ 0 < categoryViews viewHistory allProducts c ∧ r.product.category = c := by
  obtain ⟨hscore, _, hpos, hcat⟩ := candidate_youLike_scored hr hreason
  refine ⟨?_, hpos, hcat⟩
  have hc : IsOrdinaryName c := by
    unfold categoryViews at hpos
    obtain ⟨p, hp, hpc⟩ := List.countP_pos_iff.mp hpos
    have := hord p hp
    rwa [show p.category = c by simpa using hpc] at this
  rw [hscore, objGet_categoryCountOf _ _ hc]
  have hne : ¬ (viewedProductsOf viewHistory allProducts).countP
      (fun p => decide (p.category = c)) = 0 := by
    unfold categoryViews at hpos
    omega
  simp only [hne, if_false]
  rfl

/-- A candidate tagged as a budget or trending pick carries no category score. -/
theorem candidate_untagged {recType : String} {viewHistory : List HistoryEntry}
    {allProducts : List Product} {r : Recommendation}
    (hr : r ∈ candidates recType viewHistory allProducts)
    (hreason : r.reason = "Matches your budget" ∨ r.reason = "Trending in your interests") :
    r.categoryScore = none := by
  rcases mem_candidates hr with ⟨c', _, h⟩ | h | h
  · obtain ⟨_, _, _, h4, _⟩ := mem_categoryPicks h
    rcases hreason with h' | h'
    · exact absurd (h4.symm.trans h') (youLike_ne_budget c')
    · exact absurd (h4.symm.trans h') (youLike_ne_trending c')
  · exact (mem_budgetPicks h).2.2.2.2.2
  · exact (mem_trendingPicks h).2.2.2.2

theorem mem_candidates_of_mem_recommend {recType : String} {viewHistory : List HistoryEntry}
    (hne : viewHistory ≠ []) {allProducts : List Product} {r : Recommendation}
    (hr : r ∈ recommend recType viewHistory allProducts) :
    r ∈ candidates recType viewHistory allProducts :=
  (mem_jsSort _ _ _).mp ((recommend_sublist_ranked recType hne allProducts).subset hr)

/-- When no viewed product has a category that a plain object inherits, every
category score is missing or a number. -/
theorem candidates_numeric {recType : String} {viewHistory : List HistoryEntry}
    {allProducts : List Product}
    (hord : ∀ p ∈ viewedProductsOf viewHistory allProducts, IsOrdinaryName p.category) :
    ∀ r ∈ candidates recType viewHistory allProducts, IsNumericScore r.categoryScore := by
  intro r hr
  rcases mem_candidates hr with ⟨c, _, h⟩ | h | h
  · have hreason := (mem_categoryPicks h).2.2.2.1
    exact Or.inr ⟨_, (candidate_youLike hord hr hreason).1⟩
  · exact Or.inl (mem_budgetPicks h).2.2.2.2.2
  · exact Or.inl (mem_trendingPicks h).2.2.2.2

theorem recommend_pairwise (recType : String) {viewHistory : List HistoryEntry}
    (hne : viewHistory ≠ []) (allProducts : List Product)
    (hord : ∀ p ∈ viewedProductsOf viewHistory allProducts, IsOrdinaryName p.category) :
    (recommend recType viewHistory allProducts).Pairwise
      (fun a b => scoreCount b.categoryScore ≤ scoreCount a.categoryScore) :=
  (jsSort_byCategoryScore_pairwise _ (candidates_numeric hord)).sublist
    (recommend_sublist_ranked recType hne allProducts)

/-- In a list ordered by a relation, a pair that violates the reversed relation
appears in index order. -/
theorem index_lt_of_pairwise {α : Type} {R : α → α → Prop} {l : List α}
    (hl : l.Pairwise R) {i j : Nat} {a b : α} (hi : l[i]? = some a) (hj : l[j]? = some b)
    (hab : ¬ R b a) (hne : a ≠ b) : i < j := by
  rcases Nat.lt_trichotomy i j with h | h | h
  · exact h
  · subst h
    rw [hi] at hj
    exact absurd (Option.some.inj hj) hne
  · exfalso
    obtain ⟨hj', hjb⟩ := List.getElem?_eq_some.mp hj
    obtain ⟨hi', hia⟩ := List.getElem?_eq_some.mp hi
    have := List.pairwise_iff_getElem.mp hl j i hj' hi' h
    rw [hjb, hia] at this
    exact hab this

theorem uniqueRecsFrom_find (seenIds : List JsId) (l : List Recommendation) :
    ∀ r ∈ uniqueRecsFrom seenIds l, l.find? (fun x => decide (x.id = r.id)) = some r := by
  induction l generalizing seenIds with
  | nil => intro r hr; simp [uniqueRecsFrom] at hr
  | cons a rest ih =>
    intro r hr
    unfold uniqueRecsFrom at hr
    split at hr
    · rename_i hseen
      have hnot := uniqueRecsFrom_not_seen seenIds rest r hr
      have hne : ¬ a.id = r.id := fun h => hnot (h ▸ hseen)
      rw [List.find?_cons_of_neg _ (by simpa using hne)]
      exact ih seenIds r hr
    · rcases List.mem_cons.mp hr with rfl | hr
      · simp
      · have hnot := uniqueRecsFrom_not_seen (a.id :: seenIds) rest r hr
        have hne : ¬ a.id = r.id := fun h => hnot (h ▸ List.mem_cons_self _ _)
        rw [List.find?_cons_of_neg _ (by simpa using hne)]
        exact ih (a.id :: seenIds) r hr

/-- When no viewed product has a category that a plain object inherits: if strictly
more viewed products belong to category `A` than to category `B`, every returned item
with reason `You like A` comes before every item with reason `You like B`. -/
theorem preferred_category_first_of_ordinary (recType : String)
    (viewHistory : List HistoryEntry) (allProducts : List Product) (A B : String)
    (hne : viewHistory ≠ [])
    (hord : ∀ p ∈ viewedProductsOf viewHistory allProducts, IsOrdinaryName p.category)
    (hmore : categoryViews viewHistory allProducts B < categoryViews viewHistory allProducts A) :
    ∀ (i j : Nat) (a b : Recommendation),
      (generateRecommendations recType (.ok viewHistory) (.products allProducts))[i]? = some a →
      (generateRecommendations recType (.ok viewHistory) (.products allProducts))[j]? = some b →
      a.reason = "You like " ++ A → b.reason = "You like " ++ B → i < j := by
  intro i j a b hi hj ha hb
  rw [generateRecommendations_ok] at hi hj
  have hamem := mem_candidates_of_mem_recommend hne (List.getElem?_mem hi)
  have hbmem := mem_candidates_of_mem_recommend hne (List.getElem?_mem hj)
  have hsa := (candidate_youLike hord hamem ha).1
  have hsb := (candidate_youLike hord hbmem hb).1
  refine index_lt_of_pairwise (recommend_pairwise recType hne allProducts hord) hi hj ?_ ?_
  · rw [hsa, hsb]
    simp only [scoreCount]
    omega
  · intro hab
    rw [hab, hsb] at hsa
    have := TallyValue.count.inj (Option.some.inj hsa)
    omega

/-- Three viewed products in `Sets` and one in `Plushies`: the returned reasons are
`You like Sets` twice, then `You like Plushies`. -/
theorem preferred_category_first_of_ordinary_example :
    categoryViews shopHistory shopCatalog "Sets" = 3
    ∧ categoryViews shopHistory shopCatalog "Plushies" = 1
    ∧ (generateRecommendations "all" (.ok shopHistory) (.products shopCatalog)).map
        (fun r => r.reason) = ["You like Sets", "You like Sets", "You like Plushies"] := by
  decide!

/-- Claim C4 fails on the code: two viewed products belong to `Sets` and one to the
category named `constructor`, whose tally starts from the inherited function
`Object` and is a string; both sorts then compare `NaN`, and the item tagged
`You like constructor` is returned before the item tagged `You like Sets`, for the
recommendation types `all` and `category`. -/
theorem generateRecommendations_inherited_category_first :
    categoryViews inheritedHistory inheritedCatalog "constructor" = 1
    ∧ categoryViews inheritedHistory inheritedCatalog "Sets" = 2
    ∧ (generateRecommendations "all" (.ok inheritedHistory) (.products inheritedCatalog)).map
        (fun r => (r.product.id, r.reason))
      = [(.num 2, "You like constructor"), (.num 5, "You like Sets")]
    ∧ (generateRecommendations "category" (.ok inheritedHistory)
        (.products inheritedCatalog)).map (fun r => (r.product.id, r.reason))
      = [(.num 2, "You like constructor"), (.num 5, "You like Sets")] := by
  decide!

/-- When no viewed product has a category that a plain object inherits, the returned
list is in non-increasing order of category score, where an item tagged `You like c`
has as score the (positive) view count of category `c` and an item tagged
`Matches your budget` or `Trending in your interests` has none; hence every
`You like ...` item precedes every budget or trending item. -/
theorem ordered_by_category_score_of_ordinary (recType : String)
    (viewHistory : List HistoryEntry) (allProducts : List Product)
    (hne : viewHistory ≠ [])
    (hord : ∀ p ∈ viewedProductsOf viewHistory allProducts, IsOrdinaryName p.category) :
    (generateRecommendations recType (.ok viewHistory) (.products allProducts)).Pairwise
        (fun a b => scoreCount b.categoryScore ≤ scoreCount a.categoryScore)
    ∧ (∀ r ∈ generateRecommendations recType (.ok viewHistory) (.products allProducts),
        ∀ c : String, r.reason = "You like " ++ c →
          r.categoryScore = some (.count (categoryViews viewHistory allProducts c))
            ∧ 0 < categoryViews viewHistory allProducts c)
    ∧ (∀ r ∈ generateRecommendations recType (.ok viewHistory) (.products allProducts),
        r.reason = "Matches your budget" ∨ r.reason = "Trending in your interests" →
          r.categoryScore = none)
    ∧ (∀ (i j : Nat) (a b : Recommendation) (c : String),
        (generateRecommendations recType (.ok viewHistory) (.products allProducts))[i]? = some a →
        (generateRecommendations recType (.ok viewHistory) (.products allProducts))[j]? = some b →
        a.reason = "You like " ++ c →
        (b.reason = "Matches your budget" ∨ b.reason = "Trending in your interests") → i < j) := by
  rw [generateRecommendations_ok]
  have hscore : ∀ r ∈ recommend recType viewHistory allProducts,
      ∀ c : String, r.reason = "You like " ++ c →
        r.categoryScore = some (.count (categoryViews viewHistory allProducts c))
          ∧ 0 < categoryViews viewHistory allProducts c := by
    intro r hr c hc
    obtain ⟨h1, h2, _⟩ := candidate_youLike hord (mem_candidates_of_mem_recommend hne hr) hc
    exact ⟨h1, h2⟩
  have hzero : ∀ r ∈ recommend recType viewHistory allProducts,
      r.reason = "Matches your budget" ∨ r.reason = "Trending in your interests" →
        r.categoryScore = none := by
    intro r hr hreason
    exact candidate_untagged (mem_candidates_of_mem_recommend hne hr) hreason
  refine ⟨recommend_pairwise recType hne allProducts hord, hscore, hzero, ?_⟩
  intro i j a b c hi hj ha hb
  have hsa := hscore a (List.getElem?_mem hi) c ha
  have hsb := hzero b (List.getElem?_mem hj) hb
  refine index_lt_of_pairwise (recommend_pairwise recType hne allProducts hord) hi hj ?_ ?_
  · rw [hsa.1, hsb]
    simp only [scoreCount]
    omega
  · intro hab
    rw [hab, hsb] at hsa
    exact absurd hsa.1 (by simp)

/-- Each returned item is the first candidate with its product id in the sorted
candidate list. -/
theorem recommend_first_of_id (recType : String) {viewHistory : List HistoryEntry}
    (hne : viewHistory ≠ []) (allProducts : List Product) :
    ∀ r ∈ generateRecommendations recType (.ok viewHistory) (.products allProducts),
      (rankedCandidates recType viewHistory allProducts).find?
        (fun x => decide (x.id = r.id)) = some r := by
  intro r hr
  rw [generateRecommendations_ok, recommend_of_ne_nil recType hne] at hr
  exact uniqueRecsFrom_find [] _ r (List.mem_of_mem_take hr)

/-- One clicked building set out of ten: the eight category picks come first and the
single budget pick last. -/
theorem ordered_by_category_score_of_ordinary_example :
    (generateRecommendations "all" (.ok setsHistory) (.products setsCatalog)).map
        (fun r => (r.reason, r.categoryScore))
      = [("You like Sets", some (.count 1)), ("You like Sets", some (.count 1)),
         ("You like Sets", some (.count 1)), ("You like Sets", some (.count 1)),
         ("You like Sets", some (.count 1)), ("You like Sets", some (.count 1)),
         ("You like Sets", some (.count 1)), ("You like Sets", some (.count 1)),
         ("Matches your budget", none)] := by
  decide!

/-- Claim C6 fails on the code: for the category named `constructor`, with one viewed
product, the item tagged `You like constructor` carries as category score the string
made of the source text of the function `Object` and the character `1`, not the view
count 1, and it is returned before the item tagged `You like Sets`, whose score is
the view count 2. -/
theorem generateRecommendations_inherited_category_score :
    (generateRecommendations "all" (.ok inheritedHistory) (.products inheritedCatalog)).map
        (fun r => (r.reason, r.categoryScore))
      = [("You like constructor",
            some (.text "function Object() \x7b [native code] \x7d1")),
         ("You like Sets", some (.count 2))]
    ∧ categoryViews inheritedHistory inheritedCatalog "constructor" = 1 := by
  decide!

/-- Every returned item with reason `Matches your budget` passed the tests of the
price-range filter: its id, as a string, is not in the history, its price is in the
band around the average viewed price as the program computes both, and its category
is the category of a viewed product; at most 5 returned items carry that reason. -/
theorem budget_items_pass_filter (recType : String)
    (viewHistory : List HistoryEntry) (allProducts : List Product)
    (hne : viewHistory ≠ []) :
    (∀ r ∈ generateRecommendations recType (.ok viewHistory) (.products allProducts),
      r.reason = "Matches your budget" →
        JsId.str r.product.id.toJsString ∉ viewedIdsOf viewHistory
        ∧ r.product ∉ viewedProductsOf viewHistory allProducts
        ∧ inPriceBand (avgPriceOf (viewedProductsOf viewHistory allProducts))
            r.product.price = true
        ∧ ∃ p ∈ viewedProductsOf viewHistory allProducts, p.category = r.product.category)
    ∧ (generateRecommendations recType (.ok viewHistory) (.products allProducts)).countP
        (fun r => decide (r.reason = "Matches your budget")) ≤ 5 := by
  rw [generateRecommendations_ok]
  constructor
  · intro r hr hreason
    have hcand := mem_candidates_of_mem_recommend hne hr
    have hunseen : isViewed (viewedIdsOf viewHistory) r.product = false :=
      (candidate_unseen hcand).2.1
    have hnotin : JsId.str r.product.id.toJsString ∉ viewedIdsOf viewHistory := by
      simpa [isViewed] using hunseen
    have hband : inPriceBand (avgPriceOf (viewedProductsOf viewHistory allProducts))
        r.product.price = true := by
      rcases mem_candidates hcand with ⟨c', _, h⟩ | h | h
      · exact absurd ((mem_categoryPicks h).2.2.2.1.symm.trans hreason) (youLike_ne_budget c')
      · exact (mem_budgetPicks h).2.2.1
      · exact absurd ((mem_trendingPicks h).2.2.2.1.symm.trans hreason) (by decide)
    have hpos := (candidate_unseen hcand).2.2
    refine ⟨hnotin, ?_, hband, ?_⟩
    · intro hmem
      have := (List.mem_filter.mp hmem).2
      rw [hunseen] at this
      exact absurd this (by decide)
    · unfold categoryViews at hpos
      obtain ⟨p, hp, hpc⟩ := List.countP_pos_iff.mp hpos
      exact ⟨p, hp, by simpa using hpc⟩
  · have hsub := recommend_sublist_ranked recType hne allProducts
    have hperm : (rankedCandidates recType viewHistory allProducts).Perm
        (candidates recType viewHistory allProducts) := jsSort_perm _ _
    refine (hsub.countP_le _).trans ?_
    rw [hperm.countP_eq]
    simp only [candidates, List.countP_append]
    have h1 : ∀ l : List Recommendation,
        (∀ r ∈ l, r.reason ≠ "Matches your budget") →
        l.countP (fun r => decide (r.reason = "Matches your budget")) = 0 := by
      intro l hl
      rw [List.countP_eq_zero]
      intro r hr
      simpa using hl r hr
    have hA : (if recType = "all" ∨ recType = "category" then
          (sortedCategoriesOf (categoryCountOf (viewedProductsOf viewHistory allProducts))).flatMap
            (categoryPicks (viewedIdsOf viewHistory)
              (categoryCountOf (viewedProductsOf viewHistory allProducts)) allProducts)
        else []).countP (fun r => decide (r.reason = "Matches your budget")) = 0 := by
      apply h1
      intro r hr
      split at hr
      · obtain ⟨c, _, hrc⟩ := List.mem_flatMap.mp hr
        rw [(mem_categoryPicks hrc).2.2.2.1]
        exact youLike_ne_budget c
      · simp at hr
    have hC : (if recType = "all" ∨ recType = "popular" then
          trendingPicks (viewedIdsOf viewHistory)
            (sortedCategoriesOf (categoryCountOf (viewedProductsOf viewHistory allProducts)))
            allProducts
        else []).countP (fun r => decide (r.reason = "Matches your budget")) = 0 := by
      apply h1
      intro r hr
      split at hr
      · rw [(mem_trendingPicks hr).2.2.2.1]
        decide
      · simp at hr
    have hB : (if recType = "all" ∨ recType = "viewed" then
          budgetPicks (viewedIdsOf viewHistory)
            (sortedCategoriesOf (categoryCountOf (viewedProductsOf viewHistory allProducts)))
            (avgPriceOf (viewedProductsOf viewHistory allProducts)) allProducts
        else []).countP (fun r => decide (r.reason = "Matches your budget")) ≤ 5 := by
      split
      · exact (List.countP_le_length _).trans (budgetPicks_length_le _ _ _ _)
      · simp
    rw [hA, hC]
    omega

/-- With the recommendation type `viewed` the shop history (average viewed price 25)
yields two budget picks, priced 29 and 28. -/
theorem budget_items_pass_filter_example :
    (generateRecommendations "viewed" (.ok shopHistory) (.products shopCatalog)).map
        (fun r => (r.reason, r.product.price))
      = [("Matches your budget", 29), ("Matches your budget", 28)] := by
  decide!

/-- The price band is the one of double arithmetic: around the average 32.3 it ends
below 41.99, and around the average 3 it starts below 2.1. -/
theorem inPriceBand_rounds :
    inPriceBand (avgPriceOf [toy 1 "Sets" (323 / 10) 5 1]) (4199 / 100) = false
    ∧ inPriceBand (avgPriceOf [toy 1 "Sets" 3 5 1]) (20999999999999996 / 10000000000000000)
        = true := by
  decide!

/-- Claim C7 fails on the code: the second building set is recorded in the history by
the product-details page, which stores the id as a number, and it is returned all
the same as the item tagged `Matches your budget`. -/
theorem generateRecommendations_budget_pick_recorded :
    (generateRecommendations "viewed" (.ok numericIdHistory) (.products budgetCatalog)).map
        (fun r => (r.product.id, r.reason)) = [(.num 2, "Matches your budget")]
    ∧ detailsLoad 2 "Sets" ∈ numericIdHistory
    ∧ (detailsLoad 2 "Sets").product_id = .num 2 := by
  decide!

/-- Claim C5 fails on the code: the second building set is recorded in the history
by the product-details page, which stores the id as a number, and it is returned
all the same as the first recommendation. -/
theorem generateRecommendations_returns_viewed_product :
    (generateRecommendations "all" (.ok mixedHistory) (.products shopCatalog)).map
        Recommendation.id = [.num 2, .num 3, .num 4, .num 5]
    ∧ detailsLoad 2 "Sets" ∈ mixedHistory
    ∧ (detailsLoad 2 "Sets").product_id = .num 2 := by
  decide!

/-- Claim C9: the `try` block raises exactly when the stored history cannot be
parsed, the product fetch fails, or the fetched payload is not an array; when it
raises, `generateRecommendations` returns the empty list, and when it does not,
`generateRecommendations` returns exactly the list the block computed. Being a total
function, it never raises to its caller. -/
theorem generateRecommendations_exception_yields_empty (recType : String)
    (stored : Except String (List HistoryEntry)) (fetched : ProductsResponse) :
    ((∃ e, generateRecommendationsBody recType stored fetched = .error e) ↔
        ((∃ e, stored = .error e) ∨ (∃ m, fetched = .rejected m) ∨ fetched = .notAnArray))
    ∧ (∀ e, generateRecommendationsBody recType stored fetched = .error e →
        generateRecommendations recType stored fetched = [])
    ∧ (∀ recs, generateRecommendationsBody recType stored fetched = .ok recs →
        generateRecommendations recType stored fetched = recs) := by
  refine ⟨?_, ?_, ?_⟩
  · cases stored with
    | error e => simp [generateRecommendationsBody, bind, Except.bind]
    | ok viewHistory =>
      cases fetched <;>
        simp [generateRecommendationsBody, bind, Except.bind, ProductsResponse.array, pure,
          Except.pure]
  · intro e h
    simp [generateRecommendations, h]
  · intro recs h
    simp [generateRecommendations, h]

/-! ## The page loader -/

theorem loadRecommendations_ok (recType : String) (user : Option User)
    (viewHistory : List HistoryEntry) (backend : BackendResponse) (fetched : ProductsResponse) :
    loadRecommendations recType (.ok user) (.ok viewHistory) backend fetched
      = .ok (if needsLocal (backendRecommendations user backend) = true then
          { calledLocal := true,
            allRecommendations :=
              ((generateRecommendations recType (.ok viewHistory) fetched).map
                Recommendation.toListed).map normalise }
        else
          { calledLocal := false,
            allRecommendations :=
              ((backendRecommendations user backend).getD []).map normalise }) := by
  unfold loadRecommendations
  simp only [bind, Except.bind, pure, Except.pure]
  split
  · rfl
  · cases backendRecommendations user backend <;> rfl

/-- Claim C10, as stated, fails: for a logged-in user whose backend call succeeds
with an empty list, `loadRecommendations` calls the local heuristic and displays its
three recommendations instead of the backend's (empty) list. -/
theorem loadRecommendations_empty_backend_uses_local :
    ∃ res, loadRecommendations "all" (.ok (some sampleUser)) (.ok shopHistory)
        (.resolved (some [])) (.products shopCatalog) = .ok res
      ∧ res.calledLocal = true
      ∧ res.allRecommendations.length = 3
      ∧ res.allRecommendations ≠ ([] : List ListedItem).map normalise := by
  refine ⟨_, loadRecommendations_ok _ _ _ _ _, ?_, ?_, ?_⟩ <;> decide!

/-- Claim C10, amended: `loadRecommendations` calls the local heuristic exactly when
no user is logged in, the backend call failed, or the backend call returned `null`
or an empty list, and then displays the (normalised) local list; for every logged-in
user whose backend call succeeds with a non-empty list, it does not call the
heuristic and the list displayed is exactly the backend's list, normalised. -/
theorem loadRecommendations_local_iff (recType : String) (user : Option User)
    (viewHistory : List HistoryEntry) (backend : BackendResponse) (fetched : ProductsResponse) :
    ∃ res, loadRecommendations recType (.ok user) (.ok viewHistory) backend fetched = .ok res
      ∧ (res.calledLocal = true ↔
          user = none ∨ (∃ m, backend = .rejected m) ∨ backend = .resolved none
            ∨ backend = .resolved (some []))
      ∧ (res.calledLocal = true →
          res.allRecommendations
            = ((generateRecommendations recType (.ok viewHistory) fetched).map
                Recommendation.toListed).map normalise)
      ∧ (∀ (u : User) (list : List ListedItem),
          user = some u → backend = .resolved (some list) → list ≠ [] →
            res.calledLocal = false ∧ res.allRecommendations = list.map normalise) := by
  refine ⟨_, loadRecommendations_ok _ _ _ _ _, ?_, ?_, ?_⟩
  · cases user with
    | none => simp [backendRecommendations, needsLocal]
    | some u =>
      cases backend with
      | rejected m => simp [backendRecommendations, needsLocal]
      | resolved payload =>
        cases payload with
        | none => simp [backendRecommendations, needsLocal]
        | some l => cases l <;> simp [backendRecommendations, needsLocal]
  · intro h
    split at h
    · rename_i hn
      simp [hn]
    · simp at h
  · intro u list hu hb hl
    subst hu hb
    cases list with
    | nil => exact absurd rfl hl
    | cons x xs => simp [backendRecommendations, needsLocal]

/-! ## View-history trackers -/

theorem recordInteraction_eq (entry : HistoryEntry) (viewHistory : List HistoryEntry) :
    recordInteraction entry viewHistory = entry :: viewHistory.take 49 := rfl

theorem recordInteraction_head (entry : HistoryEntry) (viewHistory : List HistoryEntry) :
    (recordInteraction entry viewHistory)[0]? = some entry := by
  rw [recordInteraction_eq]
  simp

theorem recordInteraction_length_le (entry : HistoryEntry) (viewHistory : List HistoryEntry) :
    (recordInteraction entry viewHistory).length ≤ 50 := by
  simp only [recordInteraction, List.length_take]
  omega

/-- Claim C11: for every stored view history `h`, of any length, each of the three
trackers, when it records an interaction, stores the new entry followed by the first
49 entries of `h` in their original order (the card click tracker records when the
clicked product is found in the catalog); hence the stored history has at most 50
entries and the new entry is at index 0. -/
theorem trackers_store_newest_first_capped (h : List HistoryEntry) (now : String) :
    (∀ (allProducts : List Product) (id : String) (product : Product),
      findProductById allProducts id = some product →
        trackCardClick allProducts id now h
            = { product_id := .str id, category := some product.category, timestamp := now,
                type := "view" } :: h.take 49
          ∧ (trackCardClick allProducts id now h).length ≤ 50
          ∧ (trackCardClick allProducts id now h)[0]?
              = some { product_id := .str id, category := some product.category,
                       timestamp := now, type := "view" })
    ∧ (∀ currentProduct : Product,
        trackDetailsLoad currentProduct now h
            = { product_id := currentProduct.id, category := some currentProduct.category,
                timestamp := now, type := "view_details" } :: h.take 49
          ∧ (trackDetailsLoad currentProduct now h).length ≤ 50
          ∧ (trackDetailsLoad currentProduct now h)[0]?
              = some { product_id := currentProduct.id,
                       category := some currentProduct.category,
                       timestamp := now, type := "view_details" })
    ∧ (∀ product : ListedItem,
        trackAddToCart product now h
            = { product_id := product.id, category := none, timestamp := now,
                type := "add_to_cart" } :: h.take 49
          ∧ (trackAddToCart product now h).length ≤ 50
          ∧ (trackAddToCart product now h)[0]?
              = some { product_id := product.id, category := none, timestamp := now,
                       type := "add_to_cart" }) := by
  refine ⟨?_, ?_, ?_⟩
  · intro allProducts id product hfound
    simp only [trackCardClick, hfound]
    exact ⟨rfl, recordInteraction_length_le _ _, recordInteraction_head _ _⟩
  · intro currentProduct
    exact ⟨rfl, recordInteraction_length_le _ _, recordInteraction_head _ _⟩
  · intro product
    exact ⟨rfl, recordInteraction_length_le _ _, recordInteraction_head _ _⟩

/-- Claim C12, as stated, fails: starting from the empty history, one successful
add to cart on the recommendations page stores an entry without a category. -/
theorem reachableHistory_entry_without_category :
    ∃ e ∈ reachableHistory sampleEvents, e.type = "add_to_cart" ∧ e.category = none := by
  decide!

/-- The trackers only write entries of the three documented shapes. -/
theorem trackerEvent_apply_entries (ev : TrackerEvent) (h : List HistoryEntry)
    (hh : ∀ e ∈ h, entryShape e) : ∀ e ∈ ev.apply h, entryShape e := by
  have hrec : ∀ entry, entryShape entry → ∀ e ∈ recordInteraction entry h, entryShape e := by
    intro entry hentry e he
    rcases List.mem_cons.mp (List.mem_of_mem_take he) with rfl | he
    · exact hentry
    · exact hh e he
  cases ev with
  | cardClick allProducts id now =>
    simp only [TrackerEvent.apply, trackCardClick]
    cases findProductById allProducts id with
    | none => exact hh
    | some product =>
      exact hrec _ ⟨Or.inl rfl, fun _ => by simp,
        fun h => absurd (show "view" = "add_to_cart" from h) (by decide)⟩
  | detailsLoad currentProduct now =>
    exact hrec _ ⟨Or.inr (Or.inl rfl), fun _ => by simp,
      fun h => absurd (show "view_details" = "add_to_cart" from h) (by decide)⟩
  | addToCart product now =>
    refine hrec _ ⟨Or.inr (Or.inr rfl), fun h => ?_, fun _ => rfl⟩
    rcases h with h | h
    · exact absurd (show "add_to_cart" = "view" from h) (by decide)
    · exact absurd (show "add_to_cart" = "view_details" from h) (by decide)
  | clearHistory => intro e he; simp [TrackerEvent.apply] at he

/-- Claim C12, amended: every entry written by the card click tracker or the
product-details tracker has a product id, a category, a timestamp and an interaction
type (`view`, `view_details`), and every entry written by the add-to-cart tracker of
the recommendations page has a product id, a timestamp and the type `add_to_cart`
but no category; so every stored history reachable from the empty one consists of
entries of these three types, of which the first two carry a category and the third
does not. -/
theorem reachableHistory_entries (events : List TrackerEvent) :
    ∀ e ∈ reachableHistory events,
      (e.type = "view" ∨ e.type = "view_details" ∨ e.type = "add_to_cart")
      ∧ (e.type = "view" ∨ e.type = "view_details" → e.category ≠ none)
      ∧ (e.type = "add_to_cart" → e.category = none) := by
  have key : ∀ (evs : List TrackerEvent) (h : List HistoryEntry),
      (∀ e ∈ h, entryShape e) →
      ∀ e ∈ evs.foldl (fun h ev => ev.apply h) h, entryShape e := by
    intro evs
    induction evs with
    | nil => intro h hh; exact hh
    | cons ev evs ih =>
      intro h hh
      rw [List.foldl_cons]
      exact ih _ (trackerEvent_apply_entries ev h hh)
  exact key events [] (by intro e he; simp at he)

/-- Witness for claim C12 (amended): a card click, the load of the details page and
an add to cart from the recommendations page; the oldest entry is the card click. -/
theorem reachableHistory_entries_witness :
    cardClick 1 "Sets" ∈ reachableHistory sampleEvents
    ∧ (reachableHistory sampleEvents).map (fun e => (e.type, e.category))
        = [("add_to_cart", none), ("view_details", some "Sets"), ("view", some "Sets")]
    ∧ ((cardClick 1 "Sets").type = "view" ∨ (cardClick 1 "Sets").type = "view_details"
        → (cardClick 1 "Sets").category ≠ none) :=
  ⟨by decide!, by decide!,
    (reachableHistory_entries sampleEvents (cardClick 1 "Sets") (by decide!)).2.1⟩

/-! ## The API client -/

theorem propGet_propRemove (o : StringMap) (k c : String) :
    propGet (propRemove o k) c = if c = k then none else propGet o c := by
  induction o with
  | nil => simp [propRemove, propGet]
  | cons e rest ih =>
    obtain ⟨k', v⟩ := e
    unfold propRemove at ih ⊢
    by_cases hk : k' = k
    · have hfilter : List.filter (fun e => decide (e.1 ≠ k)) ((k', v) :: rest)
          = List.filter (fun e => decide (e.1 ≠ k)) rest := by
        simp [List.filter_cons, hk]
      rw [hfilter, ih]
      by_cases hc : c = k
      · simp [hc]
      · have hc' : ¬ k' = c := fun h => hc (h.symm.trans hk)
        simp [propGet, hc, hc']
    · have hfilter : List.filter (fun e => decide (e.1 ≠ k)) ((k', v) :: rest)
          = (k', v) :: List.filter (fun e => decide (e.1 ≠ k)) rest := by
        simp [List.filter_cons, hk]
      rw [hfilter]
      by_cases hkc : k' = c
      · have hc : ¬ c = k := fun h => hk (hkc.trans h)
        simp [propGet, hkc, hc]
      · simp only [propGet, hkc, if_false]
        exact ih

theorem propGet_propSet (o : StringMap) (k c v : String) :
    propGet (propSet o k v) c = if k = c then some v else propGet o c := by
  induction o with
  | nil => simp [propSet, propGet]
  | cons e rest ih =>
    obtain ⟨k', v'⟩ := e
    by_cases hk : k' = k
    · subst hk
      by_cases hc : k' = c
      · simp [propSet, propGet, hc]
      · simp [propSet, propGet, hc]
    · by_cases hc : k' = c
      · subst hc
        have hk' : ¬ k = k' := fun h => hk h.symm
        simp [propSet, propGet, hk, hk']
      · simp [propSet, propGet, hk, hc, ih]

theorem propGet_spread_of_absent (a b : StringMap) (c : String) (hb : propGet b c = none) :
    propGet (spread a b) c = propGet a c := by
  unfold spread
  induction b generalizing a with
  | nil => rfl
  | cons e rest ih =>
    obtain ⟨k, v⟩ := e
    by_cases hk : k = c
    · simp [propGet, hk] at hb
    · simp only [propGet, hk, if_false] at hb
      rw [List.foldl_cons, ih _ hb, propGet_propSet]
      simp [hk]

theorem getAuthHeaders_contentType (api : APIService) :
    propGet api.getAuthHeaders "Content-Type" = some "application/json" := by
  unfold APIService.getAuthHeaders
  cases api.token with
  | none => rfl
  | some t =>
    by_cases ht : t = ""
    · simp [ht, propGet]
    · simp only [ne_eq, ht, not_false_eq_true, if_true, propGet_propSet]
      rfl

theorem getAuthHeaders_authorization (api : APIService) :
    propGet api.getAuthHeaders "Authorization"
      = if api.hasToken = true then api.token.map (fun t => "Bearer " ++ t) else none := by
  unfold APIService.getAuthHeaders APIService.hasToken
  cases api.token with
  | none => rfl
  | some t =>
    by_cases ht : t = ""
    · simp [ht, propGet]
    · simp [ht, propGet_propSet]

/-- What `request` does with a response: status 204 yields `{ success: true }`
whatever the body is; any other 2xx status with a JSON body yields that body
unchanged; every non-2xx status makes `request` throw, with the message
`data.detail || 'Request failed'` converted to a string when the body is a JSON
document; and `request` calls `fetch` exactly once. -/
theorem request_normalises_response {α : Type} (api : APIService) (endpoint : String)
    (options : RequestOptions) (answer : FetchCall → FetchOutcome α) :
    (api.request endpoint options answer).calls = [api.requestConfig endpoint options]
    ∧ (∀ body, answer (api.requestConfig endpoint options) = .response 204 body →
        (api.request endpoint options answer).result = .ok .success)
    ∧ (∀ status doc, answer (api.requestConfig endpoint options) = .response status (.json doc) →
        200 ≤ status → status ≤ 299 → status ≠ 204 →
        (api.request endpoint options answer).result = .ok (.data doc))
    ∧ (∀ status body, answer (api.requestConfig endpoint options) = .response status body →
        ¬ (200 ≤ status ∧ status ≤ 299) →
        ∃ message, (api.request endpoint options answer).result = .error message)
    ∧ (∀ status detail value,
        answer (api.requestConfig endpoint options)
          = .response status (.json (.document detail value)) →
        ¬ (200 ≤ status ∧ status ≤ 299) →
        (api.request endpoint options answer).result = .error (detailOrDefault detail))
    ∧ (∀ detail : String, detail ≠ "" → detailOrDefault (.string detail) = detail)
    ∧ detailOrDefault .absent = "Request failed" := by
  refine ⟨rfl, ?_, ?_, ?_, ?_, ?_, rfl⟩
  · intro body h
    simp [APIService.request, h, handleResponse]
  · intro status doc h h1 h2 h3
    cases doc <;> simp [APIService.request, h, handleResponse, h3, isOk, h1, h2]
  · intro status body h hnot
    have h204 : status ≠ 204 := fun h' => hnot (by omega)
    have hok : isOk status = false := by simpa [isOk] using hnot
    cases body with
    | notJson m => exact ⟨m, by simp [APIService.request, h, handleResponse, h204]⟩
    | json doc =>
      cases doc with
      | null => exact ⟨_, by simp [APIService.request, h, handleResponse, h204, hok]; rfl⟩
      | document detail value =>
        exact ⟨_, by simp [APIService.request, h, handleResponse, h204, hok]; rfl⟩
  · intro status detail value h hnot
    have h204 : status ≠ 204 := fun h' => hnot (by omega)
    have hok : isOk status = false := by simpa [isOk] using hnot
    simp [APIService.request, h, handleResponse, h204, hok]
  · intro detail hd
    simp [detailOrDefault, hd]

/-- Claim C14 fails on the code: a 422 answer whose `detail` is a list of validation
errors makes `request` throw, after its single call of `fetch`, an error whose message
is `[object Object]`, the string conversion of the list: the error carries nothing of
the backend's message. -/
theorem request_loses_list_detail :
    ((APIService.create sampleStorage).request "/cart/7" (updateCartOptions 0)
        (validationError ())).result = .error "[object Object]"
    ∧ ((APIService.create sampleStorage).request "/cart/7" (updateCartOptions 0)
        (validationError ())).calls.length = 1 :=
  ⟨rfl, rfl⟩

theorem request_calls {α : Type} (api : APIService) (endpoint : String)
    (options : RequestOptions) (answer : FetchCall → FetchOutcome α) :
    fetchEffects (api.request endpoint options answer)
      = [.fetch (api.requestConfig endpoint options)] := rfl

/-- When the answer is a non-2xx response whose JSON body has a non-empty `detail`,
the call throws an error with that text. -/
theorem request_error_detail {α : Type} (api : APIService) (endpoint : String)
    (options : RequestOptions) (answer : FetchCall → FetchOutcome α)
    {status : Nat} {detail : String} {value : α}
    (h : answer (api.requestConfig endpoint options)
      = .response status (.json (.document (.string detail) value)))
    (hnot : ¬ (200 ≤ status ∧ status ≤ 299)) (hd : detail ≠ "") :
    (api.request endpoint options answer).result = .error detail := by
  have h204 : status ≠ 204 := fun h' => hnot (by omega)
  have hok : isOk status = false := by simpa [isOk] using hnot
  simp [APIService.request, h, handleResponse, h204, hok, detailOrDefault, hd]

theorem loadCart_of_error (api : APIService)
    (answer : FetchCall → FetchOutcome (Option (List CartItem))) {message : String}
    (h : (api.request "/cart" RequestOptions.empty answer).result = .error message) :
    loadCart api answer
      = if mentionsUnauthorized message = true then
          (.loading, [.fetch (api.requestConfig "/cart" RequestOptions.empty),
            .alert "Please log in to view your cart.", .redirect "/pages/auth.html"])
        else (.error ("Unable to load cart. " ++ message),
          [.fetch (api.requestConfig "/cart" RequestOptions.empty)]) := by
  unfold loadCart
  simp only [h, bind, Except.bind, request_calls]
  split <;> rfl

theorem loadWishlist_of_error (api : APIService)
    (answer : FetchCall → FetchOutcome (List WishlistItem)) (wishlist : WishlistValue)
    (before : WishlistView) {message : String}
    (h : (api.request "/wishlist" RequestOptions.empty answer).result = .error message) :
    loadWishlist api answer wishlist before
      = (wishlist,
          { container := wishlistLoadFailed message, clearAllShown := before.clearAllShown },
          [.fetch (api.requestConfig "/wishlist" RequestOptions.empty)]) := by
  unfold loadWishlist
  simp only [h, request_calls]

theorem loadWishlist_effects (api : APIService)
    (answer : FetchCall → FetchOutcome (List WishlistItem)) (wishlist : WishlistValue)
    (before : WishlistView) :
    (loadWishlist api answer wishlist before).2.2
      = [.fetch (api.requestConfig "/wishlist" RequestOptions.empty)] := by
  unfold loadWishlist
  simp only [request_calls]
  cases (api.request "/wishlist" RequestOptions.empty answer).result with
  | error message => rfl
  | ok data =>
    simp only
    cases hr : renderWishlist (wishlistOfResult data)
      { container := .loading, clearAllShown := before.clearAllShown } with
    | mk view thrown => cases thrown <;> rfl

theorem loadCart_fetches (api : APIService)
    (answer : FetchCall → FetchOutcome (Option (List CartItem))) :
    fetchesOf (loadCart api answer).2 = [api.requestConfig "/cart" RequestOptions.empty] := by
  unfold loadCart
  simp only [request_calls]
  cases (api.request "/cart" RequestOptions.empty answer).result >>= cartOfResult with
  | ok cart => rfl
  | error message =>
    simp only
    split <;> rfl

/-- Claim C13, as stated, fails: a `401` answer whose body carries no `detail`
mentioning "unauthorized" makes the cart page show an inline error without any
redirect, and on the wishlist page even a `401` answer with the detail
`Unauthorized` only renders the log-in prompt, without redirect. -/
theorem unauthorized_status_without_redirect :
    redirectsOf (loadCart { token := none }
        (unauthorizedAnswer "Not authenticated" none)).2 = []
    ∧ (loadCart { token := none } (unauthorizedAnswer "Not authenticated" none)).1
        = .error "Unable to load cart. Not authenticated"
    ∧ redirectsOf (loadWishlist { token := none } (unauthorizedAnswer "Unauthorized" [])
        (.array []) { container := .loading, clearAllShown := false }).2.2 = []
    ∧ (loadWishlist { token := none } (unauthorizedAnswer "Unauthorized" [])
        (.array []) { container := .loading, clearAllShown := false }).2.1.container
        = .loginPrompt := by
  decide

/-- Claim C13, amended: `loadCart` and `loadWishlist` issue their API call exactly
once, whatever the answer. When the call of `loadCart` fails with a message that
contains "unauthorized" (in any letter case), in particular on a non-2xx answer such
as `401` whose `detail` text contains it, the cart page alerts and redirects to the
auth page exactly once; on any other failure, a `401` with another detail included,
it shows an inline error and does not redirect. `loadWishlist` never redirects: on an
"unauthorized" failure it renders the log-in prompt. The add-to-cart handler of the
catalog behaves like `loadCart`: one call, and one redirect exactly when the message
of the failure contains "unauthorized". -/
theorem unauthorized_message_handling (api : APIService) :
    (∀ answer : FetchCall → FetchOutcome (Option (List CartItem)),
      fetchesOf (loadCart api answer).2 = [api.requestConfig "/cart" RequestOptions.empty])
    ∧ (∀ (answer : FetchCall → FetchOutcome (Option (List CartItem))) (message : String),
        (api.request "/cart" RequestOptions.empty answer).result = .error message →
        redirectsOf (loadCart api answer).2
            = (if mentionsUnauthorized message = true then ["/pages/auth.html"] else [])
          ∧ (mentionsUnauthorized message = false →
              (loadCart api answer).1 = .error ("Unable to load cart. " ++ message)))
    ∧ (∀ (answer : FetchCall → FetchOutcome (Option (List CartItem))) (status : Nat)
        (detail : String) (value : Option (List CartItem)),
        answer (api.requestConfig "/cart" RequestOptions.empty)
          = .response status (.json (.document (.string detail) value)) →
        ¬ (200 ≤ status ∧ status ≤ 299) → detail ≠ "" →
        redirectsOf (loadCart api answer).2
          = (if includes (toLowerCase detail) "unauthorized" = true then ["/pages/auth.html"]
             else []))
    ∧ (∀ (answer : FetchCall → FetchOutcome (List WishlistItem)) (wishlist : WishlistValue)
        (before : WishlistView),
        fetchesOf (loadWishlist api answer wishlist before).2.2
            = [api.requestConfig "/wishlist" RequestOptions.empty]
          ∧ redirectsOf (loadWishlist api answer wishlist before).2.2 = [])
    ∧ (∀ (answer : FetchCall → FetchOutcome (List WishlistItem)) (wishlist : WishlistValue)
        (before : WishlistView) (message : String),
        (api.request "/wishlist" RequestOptions.empty answer).result = .error message →
        mentionsUnauthorized message = true →
        (loadWishlist api answer wishlist before).2.1.container = .loginPrompt)
    ∧ (∀ (allProducts : List Product) (id : String) (goToCart : Bool)
        (answer : FetchCall → FetchOutcome Unit) (product : Product) (message : String),
        findProductById allProducts id = some product →
        (api.request "/cart/add" (addToCartOptions product.id 1) answer).result
          = .error message →
        fetchesOf (catalogAddToCart api allProducts id goToCart answer)
            = [api.requestConfig "/cart/add" (addToCartOptions product.id 1)]
          ∧ redirectsOf (catalogAddToCart api allProducts id goToCart answer)
            = (if mentionsUnauthorized message = true then ["/pages/auth.html"] else [])) := by
  refine ⟨loadCart_fetches api, ?_, ?_, ?_, ?_, ?_⟩
  · intro answer message h
    rw [loadCart_of_error api answer h]
    by_cases hm : mentionsUnauthorized message = true
    · simp [hm, redirectsOf]
    · simp [hm, redirectsOf]
  · intro answer status detail value h hnot hd
    rw [loadCart_of_error api answer (request_error_detail api _ _ answer h hnot hd)]
    have hm : mentionsUnauthorized detail = includes (toLowerCase detail) "unauthorized" := by
      simp [mentionsUnauthorized, hd]
    rw [hm]
    by_cases hi : includes (toLowerCase detail) "unauthorized" = true
    · simp [hi, redirectsOf]
    · simp [hi, redirectsOf]
  · intro answer wishlist before
    rw [loadWishlist_effects]
    exact ⟨rfl, rfl⟩
  · intro answer wishlist before message h hm
    rw [loadWishlist_of_error api answer wishlist before h]
    simp [wishlistLoadFailed, hm]
  · intro allProducts id goToCart answer product message hfound herr
    unfold catalogAddToCart
    simp only [hfound, herr, request_calls, addToCartFailed]
    by_cases hm : mentionsUnauthorized message = true
    · simp [hm, redirectsOf, fetchesOf]
    · simp [hm, redirectsOf, fetchesOf]

/-- Claim C15: after `clearToken`, and after `logout`, from any state, local storage
holds neither the access token nor the cached user, the in-memory token is `null`,
and `getAuthHeaders` has no `Authorization` header; every other local-storage key
keeps its value. -/
theorem logout_clears_session_only (api : APIService) (browser : Browser) :
    (propGet (api.clearToken browser.localStorage).2 "access_token" = none
      ∧ propGet (api.clearToken browser.localStorage).2 "current_user" = none
      ∧ (api.clearToken browser.localStorage).1.token = none
      ∧ propGet (api.clearToken browser.localStorage).1.getAuthHeaders "Authorization" = none
      ∧ ∀ key, key ≠ "access_token" → key ≠ "current_user" →
          propGet (api.clearToken browser.localStorage).2 key
            = propGet browser.localStorage key)
    ∧ (propGet (api.logout browser).2.localStorage "access_token" = none
      ∧ propGet (api.logout browser).2.localStorage "current_user" = none
      ∧ (api.logout browser).1.token = none
      ∧ propGet (api.logout browser).1.getAuthHeaders "Authorization" = none
      ∧ ∀ key, key ≠ "access_token" → key ≠ "current_user" →
          propGet (api.logout browser).2.localStorage key
            = propGet browser.localStorage key) := by
  have h : propGet (api.clearToken browser.localStorage).2 "access_token" = none
      ∧ propGet (api.clearToken browser.localStorage).2 "current_user" = none
      ∧ (api.clearToken browser.localStorage).1.token = none
      ∧ propGet (api.clearToken browser.localStorage).1.getAuthHeaders "Authorization" = none
      ∧ ∀ key, key ≠ "access_token" → key ≠ "current_user" →
          propGet (api.clearToken browser.localStorage).2 key
            = propGet browser.localStorage key := by
    refine ⟨?_, ?_, rfl, rfl, ?_⟩
    · simp [APIService.clearToken, propGet_propRemove]
    · simp [APIService.clearToken, propGet_propRemove]
    · intro key h1 h2
      simp [APIService.clearToken, propGet_propRemove, h1, h2]
  exact ⟨h, h⟩

/-- Claim C16: for every token state, the headers that `request` hands to `fetch`
contain `Content-Type: application/json`, and contain `Authorization: Bearer <token>`
exactly when a token is set (neither `null` nor empty); after `setToken(t)` with a
non-empty `t` the header is `Bearer t`. The caller passes no `Content-Type` or
`Authorization` header of its own, as is the case for every call in `api.js`. -/
theorem request_headers (api : APIService) (endpoint : String) (options : RequestOptions)
    (hct : propGet options.headers "Content-Type" = none)
    (hauth : propGet options.headers "Authorization" = none) :
    (∀ (α : Type) (answer : FetchCall → FetchOutcome α),
      (api.request endpoint options answer).calls = [api.requestConfig endpoint options])
    ∧ propGet (api.requestConfig endpoint options).headers "Content-Type"
        = some "application/json"
    ∧ (∀ t, api.token = some t → t ≠ "" →
        propGet (api.requestConfig endpoint options).headers "Authorization"
          = some ("Bearer " ++ t))
    ∧ (api.token = none ∨ api.token = some "" →
        propGet (api.requestConfig endpoint options).headers "Authorization" = none)
    ∧ (∀ (localStorage : StringMap) (t : String), t ≠ "" →
        propGet ((api.setToken localStorage t).1.requestConfig endpoint options).headers
            "Authorization" = some ("Bearer " ++ t)
          ∧ propGet (api.setToken localStorage t).2 "access_token" = some t) := by
  have hA : ∀ a : APIService,
      propGet (a.requestConfig endpoint options).headers "Authorization"
        = if a.hasToken = true then a.token.map (fun t => "Bearer " ++ t) else none := by
    intro a
    simp only [APIService.requestConfig]
    rw [propGet_spread_of_absent _ _ _ hauth, getAuthHeaders_authorization]
  refine ⟨fun _ _ => rfl, ?_, ?_, ?_, ?_⟩
  · simp only [APIService.requestConfig]
    rw [propGet_spread_of_absent _ _ _ hct, getAuthHeaders_contentType]
  · intro t ht hne
    rw [hA, ht]
    simp [APIService.hasToken, ht, hne]
  · intro h
    rw [hA]
    rcases h with h | h <;> simp [APIService.hasToken, h]
  · intro localStorage t hne
    refine ⟨?_, ?_⟩
    · rw [hA]
      simp [APIService.hasToken, APIService.setToken, hne]
    · simp [APIService.setToken, propGet_propSet]

/-- Witness for claim C16: a call without options, before and after `setToken`. -/
theorem request_headers_witness :
    propGet RequestOptions.empty.headers "Content-Type" = none
    ∧ propGet RequestOptions.empty.headers "Authorization" = none
    ∧ (APIService.requestConfig { token := some "abc" } "/cart" RequestOptions.empty).headers
        = [("Content-Type", "application/json"), ("Authorization", "Bearer abc")]
    ∧ (APIService.requestConfig { token := none } "/cart" RequestOptions.empty).headers
        = [("Content-Type", "application/json")]
    ∧ propGet (APIService.requestConfig { token := none } "/cart" RequestOptions.empty).headers
        "Content-Type" = some "application/json" :=
  ⟨rfl, rfl, by decide, by decide,
    (request_headers { token := none } "/cart" RequestOptions.empty rfl rfl).2.1⟩

/-! ## The chat widget -/

theorem removeTyping_appended (shown : List ChatNode) :
    removeTyping (shown ++ [ChatNode.typing]) shown.length = shown := by
  unfold removeTyping
  induction shown with
  | nil => rfl
  | cons n rest ih => simp only [List.cons_append, List.length_cons, List.eraseIdx_cons_succ, ih]

/-- Claim C17: for every input that is not empty after trimming, if the chat API call
fails (network failure or error answer), the widget appends the trimmed user message
followed by exactly one bot message, the text `getFallbackResponse` gives for it
(both with line breaks rendered as `<br>`), leaves no typing indicator behind, empties
the input field, and shows no alert and makes no redirect: the only effect is the one
call of the chat endpoint. -/
theorem submitChat_falls_back_on_failure (api : APIService) (sessionId : String)
    (state : ChatState) (chat : FetchCall → FetchOutcome (Option String))
    (answers : CartCommandAnswers) (error : String)
    (htext : trim state.input ≠ "")
    (hfail : (api.request "/chatbot/message"
        (chatMessageOptions (trim state.input) sessionId) chat).result = .error error) :
    (submitChat api sessionId state chat answers).1.messages
        = state.messages
          ++ [.message "user" (String.mk (formatChars (trim state.input).data)),
              .message "bot"
                (String.mk (formatChars (getFallbackResponse (trim state.input)).data))]
    ∧ (submitChat api sessionId state chat answers).1.input = ""
    ∧ (submitChat api sessionId state chat answers).2
        = [.fetch (api.requestConfig "/chatbot/message"
            (chatMessageOptions (trim state.input) sessionId))]
    ∧ alertsOf (submitChat api sessionId state chat answers).2 = []
    ∧ redirectsOf (submitChat api sessionId state chat answers).2 = [] := by
  have hrun : submitChat api sessionId state chat answers
      = ({ messages := addMessage (addMessage state.messages "user" (trim state.input)) "bot"
            (getFallbackResponse (trim state.input)), input := "" },
          [.fetch (api.requestConfig "/chatbot/message"
            (chatMessageOptions (trim state.input) sessionId))]) := by
    unfold submitChat
    simp only [htext, if_false, hfail, removeTyping_appended, request_calls]
  rw [hrun]
  refine ⟨?_, rfl, rfl, rfl, rfl⟩
  simp [addMessage]

/-- Witness for claim C17: the network is down and the user asks about toys. -/
theorem submitChat_falls_back_on_failure_witness :
    trim "  any toys?  " ≠ ""
    ∧ (submitChat { token := none } "session_1" { messages := [], input := "  any toys?  " }
        networkDown { addToCart := networkDown, getProduct := networkDown }).1.messages
      = [.message "user" "any toys?",
         .message "bot"
          (String.mk (formatChars (getFallbackResponse (trim "  any toys?  ")).data))]
    ∧ getFallbackResponse (trim "  any toys?  ")
      = "🏪 We have a wide selection of toys! Browse by category:\n🏰 Sets | 🧸 Plushies | 🧱 Blocks | 🤖 Tech\n\nWhat type of toy are you looking for?" :=
  ⟨by decide,
    (submitChat_falls_back_on_failure { token := none } "session_1"
      { messages := [], input := "  any toys?  " } networkDown
      { addToCart := networkDown, getProduct := networkDown } "Failed to fetch"
      (by decide) rfl).1,
    by decide⟩

/-! ## Cart mutations and the `cart-updated` event -/

/-- The add-to-cart handler of the catalog dispatches `cart-updated` after a
successful call. -/
theorem catalogAddToCart_dispatches (api : APIService) (allProducts : List Product)
    (id : String) (goToCart : Bool) (answer : FetchCall → FetchOutcome Unit)
    (product : Product) (result : ApiResult Unit)
    (hfound : findProductById allProducts id = some product)
    (hok : (api.request "/cart/add" (addToCartOptions product.id 1) answer).result
      = .ok result) :
    Effect.dispatch "cart-updated" ∈ catalogAddToCart api allProducts id goToCart answer := by
  unfold catalogAddToCart
  simp only [hfound, hok]
  simp

/-- Claim C18 fails on the code: a successful add to cart on the recommendations
page calls the cart endpoint, records the interaction and alerts, and a successful
`ADD_TO_CART` command in the chat widget calls the cart and product endpoints and
shows the confirmation, but neither dispatches `cart-updated`. -/
theorem add_to_cart_without_cart_updated :
    (recommendationsAddToCart { token := some "abc" } shopRecommendations "4" false
        (jsonAnswer 200 ()) "2025-01-01T00:00:00.000Z" shopHistory).1
      = [.fetch (APIService.requestConfig { token := some "abc" } "/cart/add"
            (addToCartOptions (.num 4) 1)),
         .alert "Toy 4 added to cart!"]
    ∧ Effect.dispatch "cart-updated" ∉
        (recommendationsAddToCart { token := some "abc" } shopRecommendations "4" false
          (jsonAnswer 200 ()) "2025-01-01T00:00:00.000Z" shopHistory).1
    ∧ (submitChat { token := some "abc" } "session_1"
          { messages := [], input := "add the castle" }
          (jsonAnswer 200 (some "ADD_TO_CART:4"))
          { addToCart := jsonAnswer 200 (), getProduct := jsonAnswer 200 (toy 4 "Sets" 28 4 2) }).2
      = [.fetch (APIService.requestConfig { token := some "abc" } "/chatbot/message"
            (chatMessageOptions "add the castle" "session_1")),
         .fetch (APIService.requestConfig { token := some "abc" } "/cart/add"
            (addToCartOptions (.num 4) 1)),
         .fetch (APIService.requestConfig { token := some "abc" } "/products/4"
            RequestOptions.empty)]
    ∧ Effect.dispatch "cart-updated" ∉
        (submitChat { token := some "abc" } "session_1"
          { messages := [], input := "add the castle" }
          (jsonAnswer 200 (some "ADD_TO_CART:4"))
          { addToCart := jsonAnswer 200 (), getProduct := jsonAnswer 200 (toy 4 "Sets" 28 4 2) }).2 := by
  decide!

/-! ## The wishlist page -/

theorem loadWishlist_of_ok (api : APIService)
    (answer : FetchCall → FetchOutcome (List WishlistItem)) (wishlist : WishlistValue)
    (before : WishlistView) {data : ApiResult (List WishlistItem)}
    (h : (api.request "/wishlist" RequestOptions.empty answer).result = .ok data)
    (hempty : wishlistOfResult data = .array []) :
    (loadWishlist api answer wishlist before).1 = .array []
      ∧ (loadWishlist api answer wishlist before).2.1
          = { container := .emptyState, clearAllShown := false } := by
  unfold loadWishlist
  simp [h, hempty, renderWishlist]

/-- Claim C19: `renderWishlist` on a missing or empty wishlist renders the empty-state
block, no card, and hides the clear-all button; and when the user confirms "clear
all", the clear call succeeds and the backend then returns an empty wishlist (an
empty array or `null`), the page ends in that state, whatever it showed before. -/
theorem clear_wishlist_shows_empty_state (api : APIService)
    (answerClear : FetchCall → FetchOutcome Unit)
    (answerList : FetchCall → FetchOutcome (List WishlistItem))
    (wishlist : WishlistValue) (before : WishlistView)
    (cleared : ApiResult Unit) (listed : ApiResult (List WishlistItem))
    (hclear : (api.request "/wishlist/clear"
        { method := some "DELETE", body := none, headers := [] } answerClear).result
          = .ok cleared)
    (hlist : (api.request "/wishlist" RequestOptions.empty answerList).result = .ok listed)
    (hempty : listed = .data .null ∨ ∃ detail, listed = .data (.document detail [])) :
    (renderWishlist .missing before).1 = { container := .emptyState, clearAllShown := false }
    ∧ (renderWishlist (.array []) before).1
        = { container := .emptyState, clearAllShown := false }
    ∧ (clearAllClicked true api answerClear answerList wishlist before).2.1
        = { container := .emptyState, clearAllShown := false }
    ∧ (clearAllClicked true api answerClear answerList wishlist before).2.1.container.cards = []
    ∧ (clearAllClicked true api answerClear answerList wishlist before).1 = .array [] := by
  have hvalue : wishlistOfResult listed = .array [] := by
    rcases hempty with h | ⟨detail, h⟩ <;> rw [h] <;> rfl
  have hloaded := loadWishlist_of_ok api answerList wishlist before hlist hvalue
  have hrun : (clearAllClicked true api answerClear answerList wishlist before).2.1
      = { container := .emptyState, clearAllShown := false } := by
    unfold clearAllClicked
    simp only [if_true, hclear]
    exact hloaded.2
  refine ⟨rfl, rfl, hrun, ?_, ?_⟩
  · rw [hrun]
    rfl
  · unfold clearAllClicked
    simp only [if_true, hclear]
    exact hloaded.1

/-- Witness for claim C19: a wishlist page showing one card; the clear call answers
`204` and the wishlist is then empty. -/
theorem clear_wishlist_shows_empty_state_witness :
    (clearAllClicked true { token := some "abc" }
        (fun _ => .response 204 (.notJson "Unexpected end of JSON input")) (jsonAnswer 200 [])
        (.array [{ product := some (toy 1 "Sets" 20 5 10) }])
        { container := .grid [renderWishlistCard { product := some (toy 1 "Sets" 20 5 10) }],
          clearAllShown := true }).2.1
      = { container := .emptyState, clearAllShown := false } :=
  (clear_wishlist_shows_empty_state { token := some "abc" }
    (fun _ => .response 204 (.notJson "Unexpected end of JSON input")) (jsonAnswer 200 [])
    (.array [{ product := some (toy 1 "Sets" 20 5 10) }])
    { container := .grid [renderWishlistCard { product := some (toy 1 "Sets" 20 5 10) }],
      clearAllShown := true }
    .success (.data (.document .absent [])) rfl rfl (Or.inr ⟨.absent, rfl⟩)).2.2.1

/-! ## Stability of the sort under filtering -/

theorem orderedInsert_filter {α : Type} (r : α → α → Prop) [DecidableRel r]
    (htrans : ∀ a b c, r a b → r b c → r a c) (p : α → Bool) (a : α) :
    ∀ l : List α, l.Pairwise r →
      (l.orderedInsert r a).filter p
        = if p a = true then (l.filter p).orderedInsert r a else l.filter p := by
  intro l
  induction l with
  | nil =>
    intro _
    by_cases hp : p a = true <;> simp [hp]
  | cons b l ih =>
    intro hl
    have hl' := List.pairwise_cons.mp hl
    by_cases hab : r a b
    · rw [List.orderedInsert_of_le r l hab]
      by_cases hp : p a = true
      · rw [if_pos hp, List.filter_cons_of_pos hp]
        have hall : ∀ c ∈ (b :: l).filter p, r a c := by
          intro c hc
          rcases List.mem_cons.mp (List.mem_filter.mp hc).1 with rfl | hc'
          · exact hab
          · exact htrans a b c hab (hl'.1 c hc')
        cases hf : (b :: l).filter p with
        | nil => rfl
        | cons c cs =>
          rw [List.orderedInsert_of_le r cs (hall c (by rw [hf]; exact List.mem_cons_self _ _))]
      · rw [if_neg hp, List.filter_cons_of_neg hp]
    · have hins : (b :: l).orderedInsert r a = b :: l.orderedInsert r a := by
        simp [List.orderedInsert, hab]
      rw [hins]
      by_cases hpb : p b = true
      · rw [List.filter_cons_of_pos hpb, List.filter_cons_of_pos hpb, ih hl'.2]
        by_cases hp : p a = true
        · simp [hp, List.orderedInsert, hab]
        · simp [hp]
      · rw [List.filter_cons_of_neg hpb, List.filter_cons_of_neg hpb, ih hl'.2]

/-- Sorting with a comparator of the form `key b - key a` and then filtering gives
the same list as filtering and then sorting. -/
theorem jsSort_filter {α : Type} (cmp : α → α → ℚ) (key : α → ℚ)
    (hcmp : ∀ a b, cmp a b = key b - key a) (p : α → Bool) (l : List α) :
    (jsSort cmp l).filter p = jsSort cmp (l.filter p) := by
  have htrans : ∀ a b c, cmp a b ≤ 0 → cmp b c ≤ 0 → cmp a c ≤ 0 := by
    intro a b c hab hbc
    simp only [hcmp] at hab hbc ⊢
    linarith
  have hsorted : ∀ l : List α, (jsSort cmp l).Pairwise (fun a b => cmp a b ≤ 0) := by
    intro l
    refine (jsSort_pairwise_key cmp key hcmp l).imp ?_
    intro a b hab
    rw [hcmp]
    linarith
  induction l with
  | nil => rfl
  | cons b l ih =>
    have hstep : jsSort cmp (b :: l)
        = (jsSort cmp l).orderedInsert (fun a b => cmp a b ≤ 0) b := rfl
    rw [hstep, orderedInsert_filter _ htrans p b _ (hsorted l), ih]
    by_cases hp : p b = true
    · rw [if_pos hp, List.filter_cons_of_pos hp]
      rfl
    · rw [if_neg hp, List.filter_cons_of_neg hp]

theorem mem_take_filter {α : Type} (p : α → Bool) {a : α} (ha : p a = true) :
    ∀ (n : Nat) (l : List α), a ∈ l.take n → a ∈ (l.filter p).take n := by
  intro n l
  induction l generalizing n with
  | nil => intro h; simp at h
  | cons b l ih =>
    intro h
    cases n with
    | zero => simp at h
    | succ n =>
      rw [List.take_succ_cons] at h
      by_cases hb : p b = true
      · rw [List.filter_cons_of_pos hb, List.take_succ_cons]
        rcases List.mem_cons.mp h with rfl | h
        · exact List.mem_cons_self _ _
        · exact List.mem_cons_of_mem _ (ih n h)
      · rw [List.filter_cons_of_neg hb]
        rcases List.mem_cons.mp h with rfl | h
        · exact absurd ha hb
        · exact List.take_subset_take_left _ (Nat.le_succ n) (ih n h)

/-- Every trending pick is also a category pick of its own category. -/
theorem trendingPick_has_categoryPick {viewedIds : List JsId} {categoryCount : JsObject}
    {allProducts : List Product} {t : Recommendation}
    (ht : t ∈ trendingPicks viewedIds (sortedCategoriesOf categoryCount) allProducts) :
    ∃ y ∈ categoryPicks viewedIds categoryCount allProducts t.product.category,
      y.product = t.product := by
  have hcat := (mem_trendingPicks ht).2.2.1
  simp only [trendingPicks, List.mem_map] at ht
  obtain ⟨p, hp, rfl⟩ := ht
  have hq : (fun q : Product => decide (q.category = p.category)) p = true := by simp
  have h1 := mem_take_filter (fun q : Product => decide (q.category = p.category)) hq 8 _ hp
  rw [jsSort_filter byPopularity popularity (fun _ _ => rfl), List.filter_filter] at h1
  have hfilter : allProducts.filter (fun a => decide (a.category = p.category)
        && (decide (a.category ∈ sortedCategoriesOf categoryCount) && !isViewed viewedIds a))
      = allProducts.filter (fun a => decide (a.category = p.category)
        && !isViewed viewedIds a) := by
    apply List.filter_congr
    intro a _
    by_cases hac : a.category = p.category
    · have hmem : p.category ∈ sortedCategoriesOf categoryCount := hcat
      simp [hac, hmem]
    · simp [hac]
  rw [hfilter] at h1
  refine ⟨{ product := p, reason := "You like " ++ p.category,
            categoryScore := objGet categoryCount p.category }, ?_, rfl⟩
  simp only [categoryPicks, List.mem_map]
  exact ⟨p, h1, rfl⟩

theorem mem_append_split {α : Type} {l rest : List α} {y t : α} (hy : y ∈ l)
    (ht : t ∈ rest) : ∃ front back, l ++ rest = front ++ y :: back ∧ t ∈ back := by
  obtain ⟨front, back, hsplit⟩ := List.append_of_mem hy
  refine ⟨front, back ++ rest, ?_, List.mem_append_right _ ht⟩
  rw [hsplit, List.append_assoc, List.cons_append]

/-- With the recommendation type `all` the candidates are the category picks followed
by candidates without category score, which the sort leaves in place. -/
theorem rankedCandidates_all (viewHistory : List HistoryEntry) (allProducts : List Product) :
    rankedCandidates "all" viewHistory allProducts
      = jsSort byCategoryScore
          ((sortedCategoriesOf (categoryCountOf (viewedProductsOf viewHistory allProducts))).flatMap
            (categoryPicks (viewedIdsOf viewHistory)
              (categoryCountOf (viewedProductsOf viewHistory allProducts)) allProducts))
        ++ (budgetPicks (viewedIdsOf viewHistory)
              (sortedCategoriesOf (categoryCountOf (viewedProductsOf viewHistory allProducts)))
              (avgPriceOf (viewedProductsOf viewHistory allProducts)) allProducts
            ++ trendingPicks (viewedIdsOf viewHistory)
              (sortedCategoriesOf (categoryCountOf (viewedProductsOf viewHistory allProducts)))
              allProducts) := by
  unfold rankedCandidates candidates
  simp only [true_or, if_true, List.append_assoc]
  apply jsSort_byCategoryScore_append
  intro z hz
  rcases List.mem_append.mp hz with h | h
  · exact (mem_budgetPicks h).2.2.2.2.2
  · exact (mem_trendingPicks h).2.2.2.2

/-- Claim C20: for every non-empty view history and every catalog, with the
recommendation type `all` every trending candidate is also among the category picks
of its own category, and the returned list contains no item with reason
`Trending in your interests`: the category copy carries a category score and the
trending copy none, the category copy stands before the trending copy in the sorted
candidate list, and the trending copy is dropped as a duplicate. -/
theorem generateRecommendations_all_has_no_trending (viewHistory : List HistoryEntry)
    (allProducts : List Product) (hne : viewHistory ≠ []) :
    (∀ t ∈ trendingPicks (viewedIdsOf viewHistory)
        (sortedCategoriesOf (categoryCountOf (viewedProductsOf viewHistory allProducts)))
        allProducts,
      ∃ y ∈ candidates "all" viewHistory allProducts,
        y.product = t.product ∧ y.reason = "You like " ++ t.product.category
          ∧ t.categoryScore = none ∧ y.categoryScore ≠ none
          ∧ (IsNumericScore y.categoryScore →
              scoreCount t.categoryScore < scoreCount y.categoryScore)
          ∧ ∃ front back, rankedCandidates "all" viewHistory allProducts = front ++ y :: back
              ∧ t ∈ back)
    ∧ ∀ r ∈ generateRecommendations "all" (.ok viewHistory) (.products allProducts),
        r.reason ≠ "Trending in your interests" := by
  have hcopy : ∀ t ∈ trendingPicks (viewedIdsOf viewHistory)
      (sortedCategoriesOf (categoryCountOf (viewedProductsOf viewHistory allProducts)))
      allProducts,
      ∃ y ∈ (sortedCategoriesOf (categoryCountOf (viewedProductsOf viewHistory allProducts))).flatMap
          (categoryPicks (viewedIdsOf viewHistory)
            (categoryCountOf (viewedProductsOf viewHistory allProducts)) allProducts),
        y.product = t.product ∧ y.reason = "You like " ++ t.product.category := by
    intro t ht
    obtain ⟨y, hy, hprod⟩ := trendingPick_has_categoryPick ht
    have hcat := (mem_trendingPicks ht).2.2.1
    exact ⟨y, List.mem_flatMap.mpr ⟨_, hcat, hy⟩, hprod, (mem_categoryPicks hy).2.2.2.1⟩
  constructor
  · intro t ht
    obtain ⟨y, hy, hprod, hreason⟩ := hcopy t ht
    have hycand : y ∈ candidates "all" viewHistory allProducts := by
      simp only [candidates, List.mem_append]
      left; left
      simp only [true_or, if_true]
      exact hy
    obtain ⟨hscore, hsome, hpos, _⟩ := candidate_youLike_scored hycand hreason
    have htnone := (mem_trendingPicks ht).2.2.2.2
    refine ⟨y, hycand, hprod, hreason, htnone, hsome, ?_, ?_⟩
    · intro hnum
      rw [htnone]
      rcases hnum with h | ⟨n, h⟩
      · exact absurd h hsome
      · rw [h]
        simp only [scoreCount]
        by_contra hle
        have hn : n = 0 := by omega
        subst hn
        rw [hscore] at h
        exact absurd h (objGet_categoryCountOf_ne_zero _ _)
    · rw [rankedCandidates_all]
      exact mem_append_split ((mem_jsSort byCategoryScore _ y).mpr hy)
        (List.mem_append_right _ ht)
  · intro r hr htrend
    rw [generateRecommendations_ok, recommend_of_ne_nil "all" hne] at hr
    have hunique := List.mem_of_mem_take hr
    have hfind := uniqueRecsFrom_find [] _ r hunique
    have hrcand : r ∈ candidates "all" viewHistory allProducts :=
      (mem_jsSort _ _ _).mp ((uniqueRecsFrom_sublist _ _).subset hunique)
    have hrtrend : r ∈ trendingPicks (viewedIdsOf viewHistory)
        (sortedCategoriesOf (categoryCountOf (viewedProductsOf viewHistory allProducts)))
        allProducts := by
      rcases mem_candidates hrcand with ⟨c, _, h⟩ | h | h
      · exact absurd ((mem_categoryPicks h).2.2.2.1.symm.trans htrend) (youLike_ne_trending c)
      · exact absurd ((mem_budgetPicks h).2.2.2.2.1.symm.trans htrend) (by decide)
      · exact h
    obtain ⟨y, hy, hprod, hyreason⟩ := hcopy r hrtrend
    rw [rankedCandidates_all, List.find?_append] at hfind
    have hyid : y.id = r.id := by
      unfold Recommendation.id
      rw [hprod]
    have hysorted := (mem_jsSort byCategoryScore _ y).mpr hy
    cases hfirst : List.find? (fun x => decide (x.id = r.id)) (jsSort byCategoryScore
        ((sortedCategoriesOf (categoryCountOf (viewedProductsOf viewHistory allProducts))).flatMap
          (categoryPicks (viewedIdsOf viewHistory)
            (categoryCountOf (viewedProductsOf viewHistory allProducts)) allProducts))) with
    | none =>
      have := List.find?_eq_none.mp hfirst y hysorted
      simp [hyid] at this
    | some z =>
      rw [hfirst] at hfind
      have hz : z = r := by simpa using hfind
      subst hz
      have hzmem := (mem_jsSort _ _ _).mp (List.mem_of_find?_eq_some hfirst)
      obtain ⟨c, _, hzc⟩ := List.mem_flatMap.mp hzmem
      exact absurd ((mem_categoryPicks hzc).2.2.2.1.symm.trans htrend) (youLike_ne_trending c)

/-- Witness for claim C20: one clicked building set out of ten; all eight trending
candidates are also category picks, and no returned item is tagged as trending. -/
theorem generateRecommendations_all_has_no_trending_witness :
    setsHistory ≠ []
    ∧ (trendingPicks (viewedIdsOf setsHistory)
        (sortedCategoriesOf (categoryCountOf (viewedProductsOf setsHistory setsCatalog)))
        setsCatalog).length = 8
    ∧ ∀ r ∈ generateRecommendations "all" (.ok setsHistory) (.products setsCatalog),
        r.reason ≠ "Trending in your interests" :=
  ⟨by decide, by decide!,
    (generateRecommendations_all_has_no_trending setsHistory setsCatalog (by decide)).2⟩

/-! ## A history without any viewed product -/

theorem candidates_of_no_viewed (recType : String) (viewHistory : List HistoryEntry)
    (allProducts : List Product) (h : viewedProductsOf viewHistory allProducts = []) :
    candidates recType viewHistory allProducts = [] := by
  have hsorted : sortedCategoriesOf (categoryCountOf ([] : List Product)) = [] := by
    simp [sortedCategoriesOf, categoryCountOf, objectEntries, jsSort]
  have hb : ∀ avg, budgetPicks (viewedIdsOf viewHistory) [] avg allProducts = [] := by
    intro avg
    simp [budgetPicks, jsSort]
  have ht : trendingPicks (viewedIdsOf viewHistory) [] allProducts = [] := by
    simp [trendingPicks, jsSort]
  simp only [candidates, h, hsorted, hb, ht, List.flatMap_nil]
  simp

/-- Claim C21: for every catalog and every non-empty view history none of whose
`product_id` values equals, as a string, the string form of the id of a catalog
product (stale ids, or ids stored as numbers), `generateRecommendations` returns the
empty list for every recommendation type, not the `Popular` ranking. -/
theorem generateRecommendations_empty_without_viewed (recType : String)
    (viewHistory : List HistoryEntry) (allProducts : List Product)
    (hne : viewHistory ≠ [])
    (hnone : ∀ p ∈ allProducts, ∀ e ∈ viewHistory, e.product_id ≠ .str p.id.toJsString) :
    generateRecommendations recType (.ok viewHistory) (.products allProducts) = [] := by
  have hviewed : viewedProductsOf viewHistory allProducts = [] := by
    unfold viewedProductsOf
    rw [List.filter_eq_nil_iff]
    intro p hp
    simp only [isViewed, viewedIdsOf, decide_eq_true_eq, List.mem_map, not_exists, not_and]
    intro e he
    exact hnone p hp e he
  rw [generateRecommendations_ok, recommend_of_ne_nil recType hne]
  simp [rankedCandidates, candidates_of_no_viewed recType viewHistory allProducts hviewed,
    jsSort, uniqueRecsFrom]

/-- Witness for claim C21: the only entry of the history stores the id of the second
building set as a number; the catalog is not empty and the result is. -/
theorem generateRecommendations_empty_without_viewed_witness :
    detailsOnlyHistory ≠ []
    ∧ (∀ p ∈ shopCatalog, ∀ e ∈ detailsOnlyHistory, e.product_id ≠ .str p.id.toJsString)
    ∧ shopCatalog.length = 8
    ∧ generateRecommendations "all" (.ok detailsOnlyHistory) (.products shopCatalog) = [] :=
  ⟨by decide, by decide, by decide,
    generateRecommendations_empty_without_viewed "all" detailsOnlyHistory shopCatalog
      (by decide) (by decide)⟩

/-! ## The fallback replies of the chat widget -/

theorem getFallbackResponse_eq_replyBySpec (text : String) :
    getFallbackResponse text = replyBySpec text := by
  unfold getFallbackResponse replyBySpec keywordGroups
  simp only [firstReply, groupMatches, List.any_cons, List.any_nil, Bool.or_false,
    Bool.or_eq_true, or_assoc]
  rfl

theorem firstReply_of_none (text : String) (groups : List (List String × String))
    (h : ∀ g ∈ groups, groupMatches text g = false) : firstReply text groups = defaultReply := by
  induction groups with
  | nil => rfl
  | cons g gs ih =>
    simp only [firstReply, h g (List.mem_cons_self _ _)]
    exact ih (fun g' hg' => h g' (List.mem_cons_of_mem _ hg'))

theorem firstReply_of_first (text : String) (before after : List (List String × String))
    (g : List String × String) (hbefore : ∀ b ∈ before, groupMatches text b = false)
    (hg : groupMatches text g = true) :
    firstReply text (before ++ g :: after) = g.2 := by
  induction before with
  | nil => simp [firstReply, hg]
  | cons b bs ih =>
    simp only [List.cons_append, firstReply, hbefore b (List.mem_cons_self _ _)]
    exact ih (fun b' hb' => hbefore b' (List.mem_cons_of_mem _ hb'))

theorem firstReply_mem (text : String) (groups : List (List String × String)) :
    firstReply text groups = defaultReply
      ∨ ∃ g ∈ groups, groupMatches text g = true ∧ firstReply text groups = g.2 := by
  induction groups with
  | nil => exact Or.inl rfl
  | cons g gs ih =>
    by_cases hg : groupMatches text g = true
    · exact Or.inr ⟨g, List.mem_cons_self _ _, hg, by simp [firstReply, hg]⟩
    · simp only [firstReply, hg]
      rcases ih with h | ⟨g', hg', hm, hr⟩
      · exact Or.inl h
      · exact Or.inr ⟨g', List.mem_cons_of_mem _ hg', hm, hr⟩

/-- Claim C22: for every message, `getFallbackResponse` returns the reply of the first
keyword group, in the order greeting, products, recommendations, orders, shipping,
returns, price, payment, help, one of whose keywords occurs in the lower-cased
message, and the default reply exactly when no keyword of any group occurs; the
result is always one of the ten fixed replies, none of which is empty. -/
theorem getFallbackResponse_first_matching_group (text : String) :
    getFallbackResponse text = firstReply text keywordGroups
    ∧ (∀ (before after : List (List String × String)) (g : List String × String),
        keywordGroups = before ++ g :: after →
        (∀ b ∈ before, ∀ keyword ∈ b.1, includes (toLowerCase text) keyword = false) →
        (∃ keyword ∈ g.1, includes (toLowerCase text) keyword = true) →
        getFallbackResponse text = g.2)
    ∧ (getFallbackResponse text = defaultReply ↔
        ∀ g ∈ keywordGroups, ∀ keyword ∈ g.1, includes (toLowerCase text) keyword = false)
    ∧ getFallbackResponse text ∈
        [greetingReply, productsReply, recommendationsReply, ordersReply, shippingReply,
         returnsReply, priceReply, paymentReply, helpReply, defaultReply]
    ∧ ∀ r ∈ [greetingReply, productsReply, recommendationsReply, ordersReply, shippingReply,
         returnsReply, priceReply, paymentReply, helpReply, defaultReply], r ≠ "" := by
  have heq : getFallbackResponse text = firstReply text keywordGroups :=
    getFallbackResponse_eq_replyBySpec text
  have hmatch : ∀ g : List String × String,
      groupMatches text g = false ↔ ∀ keyword ∈ g.1, includes (toLowerCase text) keyword = false := by
    intro g
    simp [groupMatches, List.any_eq_false]
  have hmatch' : ∀ g : List String × String,
      groupMatches text g = true ↔ ∃ keyword ∈ g.1, includes (toLowerCase text) keyword = true := by
    intro g
    simp [groupMatches, List.any_eq_true]
  refine ⟨heq, ?_, ?_, ?_, by decide!⟩
  · intro before after g hsplit hbefore hg
    rw [heq, hsplit]
    exact firstReply_of_first text before after g
      (fun b hb => (hmatch b).mpr (hbefore b hb)) ((hmatch' g).mpr hg)
  · rw [heq]
    constructor
    · intro hdefault g hg
      rw [← hmatch]
      rcases firstReply_mem text keywordGroups with _ | ⟨g', hg', hm, hr⟩
      · by_contra hcon
        have hcon' : groupMatches text g = true := by simpa using hcon
        -- the first matching group gives a reply other than the default one
        have hsome : ∃ g' ∈ keywordGroups, groupMatches text g' = true
            ∧ firstReply text keywordGroups = g'.2 := by
          have key : ∀ groups : List (List String × String), g ∈ groups →
              ∃ g' ∈ groups, groupMatches text g' = true ∧ firstReply text groups = g'.2 := by
            intro groups
            induction groups with
            | nil => intro h; simp at h
            | cons a as ih =>
              intro h
              by_cases ha : groupMatches text a = true
              · exact ⟨a, List.mem_cons_self _ _, ha, by simp [firstReply, ha]⟩
              · rcases List.mem_cons.mp h with rfl | h
                · exact absurd hcon' ha
                · obtain ⟨g', hg', hm, hr⟩ := ih h
                  exact ⟨g', List.mem_cons_of_mem _ hg', hm, by simp [firstReply, ha, hr]⟩
          exact key keywordGroups hg
        obtain ⟨g', hg', _, hr⟩ := hsome
        rw [hr] at hdefault
        have hne : ∀ x ∈ keywordGroups, x.2 ≠ defaultReply := by decide!
        exact hne g' hg' hdefault
      · rw [hr] at hdefault
        have hne : ∀ x ∈ keywordGroups, x.2 ≠ defaultReply := by decide!
        exact absurd hdefault (hne g' hg')
    · intro hall
      exact firstReply_of_none text keywordGroups (fun g hg => (hmatch g).mpr (hall g hg))
  · rw [heq]
    rcases firstReply_mem text keywordGroups with h | ⟨g, hg, _, hr⟩
    · rw [h]
      simp
    · rw [hr]
      have hall : ∀ x ∈ keywordGroups, x.2 ∈
          [greetingReply, productsReply, recommendationsReply, ordersReply, shippingReply,
           returnsReply, priceReply, paymentReply, helpReply, defaultReply] := by decide!
      exact hall g hg

theorem includesChars_hi_of_ship (s : List Char) (h : includesChars s shipChars = true) :
    includesChars s hiChars = true := by
  induction s with
  | nil => simp [includesChars, shipChars] at h
  | cons c cs ih =>
    unfold includesChars at h ⊢
    rcases Bool.or_eq_true _ _ |>.mp h with h1 | h2
    · -- the text starts with `ship`, so its tail starts with `hi`
      have htail : includesChars cs hiChars = true := by
        match cs, h1 with
        | c1 :: c2 :: rest, h1 =>
          simp only [startsWithChars, shipChars, Bool.and_eq_true, beq_iff_eq] at h1
          unfold includesChars
          simp [startsWithChars, hiChars, h1.2.1, h1.2.2.1]
        | [c1], h1 => simp [startsWithChars, shipChars] at h1
        | [], h1 => simp [startsWithChars, shipChars] at h1
      simp [htail]
    · simp [ih h2]

theorem includes_hi_of_ship (s : String) (h : includes s "ship" = true) :
    includes s "hi" = true :=
  includesChars_hi_of_ship s.data h

/-- Claim C23: for every message whose lower-cased text contains `ship`,
`getFallbackResponse` returns the greeting reply and not the Shipping Info reply,
because `ship` contains the greeting keyword `hi`; the Shipping Info reply is
returned only for messages that contain `deliver` and no keyword of the four earlier
groups. -/
theorem getFallbackResponse_ship_is_greeting (text : String) :
    (includes (toLowerCase text) "ship" = true →
      includes (toLowerCase text) "hi" = true
        ∧ getFallbackResponse text = greetingReply
        ∧ getFallbackResponse text ≠ shippingReply)
    ∧ (getFallbackResponse text = shippingReply →
        includes (toLowerCase text) "deliver" = true
          ∧ includes (toLowerCase text) "ship" = false
          ∧ ∀ keyword ∈ ["hello", "hi", "hey", "product", "toy", "show", "recommend",
              "suggest", "best", "order", "track"],
              includes (toLowerCase text) keyword = false) := by
  constructor
  · intro hship
    have hhi := includes_hi_of_ship _ hship
    have hgreet : getFallbackResponse text = greetingReply := by
      unfold getFallbackResponse
      simp [hhi, greetingReply]
    refine ⟨hhi, hgreet, ?_⟩
    rw [hgreet]
    decide!
  · intro hreply
    unfold getFallbackResponse at hreply
    simp only [Bool.or_eq_true] at hreply
    split at hreply
    · exact absurd hreply (by decide!)
    · rename_i h1
      split at hreply
      · exact absurd hreply (by decide!)
      · rename_i h2
        split at hreply
        · exact absurd hreply (by decide!)
        · rename_i h3
          split at hreply
          · exact absurd hreply (by decide!)
          · rename_i h4
            simp only [not_or, Bool.not_eq_true] at h1 h2 h3 h4
            have hhi : includes (toLowerCase text) "hi" = false := h1.1.2
            have hnoship : includes (toLowerCase text) "ship" = false := by
              cases hs : includes (toLowerCase text) "ship" with
              | false => rfl
              | true => rw [includes_hi_of_ship _ hs] at hhi; exact absurd hhi (by decide)
            split at hreply
            · rename_i h5
              refine ⟨?_, hnoship, ?_⟩
              · rcases h5 with h | h
                · rw [hnoship] at h; exact absurd h (by decide)
                · exact h
              · intro keyword hk
                simp only [List.mem_cons, List.mem_singleton, List.not_mem_nil, or_false] at hk
                rcases hk with rfl | rfl | rfl | rfl | rfl | rfl | rfl | rfl | rfl | rfl | rfl
                · exact h1.1.1
                · exact h1.1.2
                · exact h1.2
                · exact h2.1.1
                · exact h2.1.2
                · exact h2.2
                · exact h3.1.1
                · exact h3.1.2
                · exact h3.2
                · exact h4.1
                · exact h4.2
            · exfalso
              split at hreply
              · exact absurd hreply (by decide!)
              · split at hreply
                · exact absurd hreply (by decide!)
                · split at hreply
                  · exact absurd hreply (by decide!)
                  · split at hreply
                    · exact absurd hreply (by decide!)
                    · exact absurd hreply (by decide!)

/-- Witness for claim C23: a question about shipping is answered with the greeting. -/
theorem getFallbackResponse_ship_is_greeting_witness :
    includes (toLowerCase "How much is Shipping?") "ship" = true
    ∧ getFallbackResponse "How much is Shipping?" = greetingReply
    ∧ getFallbackResponse "When do you deliver?" = shippingReply :=
  ⟨by decide,
    ((getFallbackResponse_ship_is_greeting "How much is Shipping?").1 (by decide)).2.1,
    by decide!⟩

/-! ## Product filters -/

theorem filter_if {α : Type} (c : Prop) [Decidable c] (q : α → Bool) (l : List α) :
    (if c then l.filter q else l) = l.filter (fun a => !decide c || q a) := by
  by_cases hc : c
  · simp [hc]
  · simp [hc]

theorem includes_empty (s : String) : includes s "" = true := by
  unfold includes
  cases s.data with
  | nil => rfl
  | cons c cs => simp [includesChars, startsWithChars]

theorem includes_in_empty (term : String) (h : includes "" term = true) : term = "" := by
  unfold includes at h
  simp only [includesChars, List.isEmpty_iff] at h
  exact String.ext h

theorem matchesTerm_eq (lower : String → String) (hlower : lower "" = "")
    (search title : String) (description : Option String) :
    matchesTerm lower (lower search) title description
      = (includes (lower title) (lower search)
          || (match description with
              | none => false
              | some d => includes (lower d) (lower search))) := by
  unfold matchesTerm
  cases description with
  | none => rfl
  | some d =>
    by_cases hd : d = ""
    · subst hd
      simp only [hlower]
      cases hterm : includes "" (lower search) with
      | false => simp
      | true =>
        rw [includes_in_empty _ hterm, includes_empty]
        simp
    · simp [hd]

theorem filterProducts_eq (lower : String → String) (hlower : lower "" = "")
    (filters : Filters) (allProducts : List Product) :
    filterProducts lower filters allProducts
      = allProducts.filter (fun p => satisfiesFilters lower filters p.category p.price
          p.title p.description p.rating p.stock) := by
  unfold filterProducts
  simp only [filter_if]
  simp only [List.filter_filter]
  apply List.filter_congr
  intro p _
  rw [matchesTerm_eq lower hlower]
  unfold satisfiesFilters
  have hcat : decide (filters.category.length > 0) = !decide (filters.category = []) := by
    cases filters.category <;> simp
  have hrate : decide (filters.rating > 0) = !decide (filters.rating ≤ 0) := by
    by_cases h : filters.rating ≤ 0
    · simp [h, not_lt.mpr h]
    · simp [h, not_le.mp h]
  have hsearch : decide (filters.search ≠ "") = !decide (filters.search = "") := by
    by_cases h : filters.search = "" <;> simp [h]
  rw [hcat, hrate, hsearch]
  simp only [Bool.not_not, ge_iff_le, gt_iff_lt]
  cases decide (filters.category = []) <;> cases decide (p.category ∈ filters.category)
    <;> cases decide (p.price ≤ filters.priceMax) <;> cases decide (filters.search = "")
    <;> cases includes (lower p.title) (lower filters.search)
    <;> cases (match p.description with
          | none => false
          | some d => includes (lower d) (lower filters.search))
    <;> cases decide (filters.rating ≤ 0) <;> cases decide (filters.rating ≤ p.rating)
    <;> cases filters.inStock <;> cases decide (0 < p.stock) <;> rfl

theorem filterRecommendations_eq (lower : String → String) (hlower : lower "" = "")
    (filters : Filters) (allRecommendations : List ListedItem) :
    filterRecommendations lower filters allRecommendations
      = allRecommendations.filter (fun p => satisfiesFilters lower filters p.category p.price
          p.title p.description (ratingOrZero p.rating) p.stock) := by
  unfold filterRecommendations
  simp only [filter_if]
  simp only [List.filter_filter]
  apply List.filter_congr
  intro p _
  rw [matchesTerm_eq lower hlower]
  unfold satisfiesFilters
  have hcat : decide (filters.category.length > 0) = !decide (filters.category = []) := by
    cases filters.category <;> simp
  have hrate : decide (filters.rating > 0) = !decide (filters.rating ≤ 0) := by
    by_cases h : filters.rating ≤ 0
    · simp [h, not_lt.mpr h]
    · simp [h, not_le.mp h]
  have hsearch : decide (filters.search ≠ "") = !decide (filters.search = "") := by
    by_cases h : filters.search = "" <;> simp [h]
  rw [hcat, hrate, hsearch]
  simp only [Bool.not_not, ge_iff_le, gt_iff_lt]
  cases decide (filters.category = []) <;> cases decide (p.category ∈ filters.category)
    <;> cases decide (p.price ≤ filters.priceMax) <;> cases decide (filters.search = "")
    <;> cases includes (lower p.title) (lower filters.search)
    <;> cases (match p.description with
          | none => false
          | some d => includes (lower d) (lower filters.search))
    <;> cases decide (filters.rating ≤ 0)
    <;> cases decide (filters.rating ≤ ratingOrZero p.rating)
    <;> cases filters.inStock <;> cases decide (0 < p.stock) <;> rfl

theorem renderGrid_items {α : Type} (products : List α) :
    (renderGrid products).items = products := by
  unfold renderGrid
  cases products with
  | nil => rfl
  | cons a l => rfl

theorem filter_idem {α : Type} (q : α → Bool) (l : List α) :
    (l.filter q).filter q = l.filter q := by
  rw [List.filter_filter]
  apply List.filter_congr
  intro a _
  exact Bool.and_self _

/-- Claim C24: for every product list and every filter state, `applyFilters`, on the
catalog page and on the recommendations page, renders exactly the products that
satisfy all of: the category is among the selected ones when any is selected; the
price is at most `priceMax`; the title or the description contains the search term,
both lower-cased, when a term is set; the rating is at least the minimum when that is
above 0; the stock is positive when in-stock-only is set. They are rendered in their
original order, the product list and the filters are left as they are, and applying
the same filters to the rendered list renders the same. `lower` is the method
`toLowerCase`, of which only `"".toLowerCase() === ""` is used. -/
theorem applyFilters_renders_matching (lower : String → String) (hlower : lower "" = "") :
    (∀ page : CatalogPage,
      (applyFilters lower page).grid.items
          = page.allProducts.filter (fun p => satisfiesFilters lower page.filters p.category
              p.price p.title p.description p.rating p.stock)
        ∧ (applyFilters lower page).grid.items.Sublist page.allProducts
        ∧ (applyFilters lower page).allProducts = page.allProducts
        ∧ (applyFilters lower page).filters = page.filters
        ∧ (applyFilters lower
            { page with allProducts := (applyFilters lower page).grid.items }).grid
            = (applyFilters lower page).grid)
    ∧ (∀ page : RecommendationsPage,
      (applyRecommendationFilters lower page).grid.items
          = page.allRecommendations.filter (fun p => satisfiesFilters lower page.filters
              p.category p.price p.title p.description (ratingOrZero p.rating) p.stock)
        ∧ (applyRecommendationFilters lower page).grid.items.Sublist page.allRecommendations
        ∧ (applyRecommendationFilters lower page).allRecommendations = page.allRecommendations
        ∧ (applyRecommendationFilters lower page).filters = page.filters
        ∧ (applyRecommendationFilters lower
            { page with
              allRecommendations := (applyRecommendationFilters lower page).grid.items }).grid
            = (applyRecommendationFilters lower page).grid) := by
  constructor
  · intro page
    have hitems : (applyFilters lower page).grid.items
        = page.allProducts.filter (fun p => satisfiesFilters lower page.filters p.category
            p.price p.title p.description p.rating p.stock) := by
      simp only [applyFilters, renderGrid_items, filterProducts_eq lower hlower]
    refine ⟨hitems, ?_, rfl, rfl, ?_⟩
    · rw [hitems]
      exact List.filter_sublist _
    · rw [hitems]
      simp only [applyFilters, filterProducts_eq lower hlower, filter_idem]
  · intro page
    have hitems : (applyRecommendationFilters lower page).grid.items
        = page.allRecommendations.filter (fun p => satisfiesFilters lower page.filters
            p.category p.price p.title p.description (ratingOrZero p.rating) p.stock) := by
      simp only [applyRecommendationFilters, renderGrid_items,
        filterRecommendations_eq lower hlower]
    refine ⟨hitems, ?_, rfl, rfl, ?_⟩
    · rw [hitems]
      exact List.filter_sublist _
    · rw [hitems]
      simp only [applyRecommendationFilters, filterRecommendations_eq lower hlower,
        filter_idem]

/-- Witness for claim C24: the shop catalog under the sample filters shows the first,
second and fourth building set. -/
theorem applyFilters_renders_matching_witness :
    toLowerCase "" = ""
    ∧ ((applyFilters toLowerCase
          { allProducts := shopCatalog, filters := sampleFilters, grid := .noResults }).grid.items).map
        (fun p => p.id) = [.num 1, .num 2, .num 4]
    ∧ (applyFilters toLowerCase
          { allProducts := shopCatalog, filters := sampleFilters, grid := .noResults }).grid.items.Sublist
        shopCatalog :=
  ⟨rfl, by decide!,
    ((applyFilters_renders_matching toLowerCase rfl).1
      { allProducts := shopCatalog, filters := sampleFilters, grid := .noResults }).2.1⟩

/-! ## Form validation -/

theorem matchItems_nil (s : List Char) : matchItems [] s = true ↔ s = [] := by
  cases s <;> simp [matchItems]

theorem matchItems_one (allowed : Char → Bool) (rest : List RegexItem) (s : List Char) :
    matchItems (.one allowed :: rest) s = true
      ↔ ∃ c cs, s = c :: cs ∧ allowed c = true ∧ matchItems rest cs = true := by
  cases s with
  | nil => simp [matchItems]
  | cons c cs =>
    simp only [matchItems, Bool.and_eq_true]
    constructor
    · rintro ⟨h1, h2⟩
      exact ⟨c, cs, rfl, h1, h2⟩
    · rintro ⟨c', cs', h, h1, h2⟩
      obtain ⟨rfl, rfl⟩ := List.cons.inj h
      exact ⟨h1, h2⟩

theorem matchItems_oneOrMore (allowed : Char → Bool) (rest : List RegexItem) (s : List Char) :
    matchItems (.oneOrMore allowed :: rest) s = true
      ↔ ∃ pre suf, s = pre ++ suf ∧ pre ≠ [] ∧ (∀ c ∈ pre, allowed c = true)
          ∧ matchItems rest suf = true := by
  induction s with
  | nil =>
    simp only [matchItems, Bool.false_eq_true, false_iff]
    rintro ⟨pre, suf, hs, hpre, _, _⟩
    cases pre with
    | nil => exact hpre rfl
    | cons c cs => simp at hs
  | cons c cs ih =>
    simp only [matchItems, Bool.and_eq_true, Bool.or_eq_true]
    constructor
    · rintro ⟨hc, h | h⟩
      · exact ⟨[c], cs, rfl, by simp, by simpa using hc, h⟩
      · obtain ⟨pre, suf, hs, _, hall, hm⟩ := ih.mp h
        refine ⟨c :: pre, suf, by rw [hs]; rfl, by simp, ?_, hm⟩
        intro d hd
        rcases List.mem_cons.mp hd with rfl | hd
        · exact hc
        · exact hall d hd
    · rintro ⟨pre, suf, hs, hpre, hall, hm⟩
      cases pre with
      | nil => exact absurd rfl hpre
      | cons d ds =>
        simp only [List.cons_append, List.cons.injEq] at hs
        obtain ⟨rfl, rfl⟩ := hs
        refine ⟨hall c (List.mem_cons_self _ _), ?_⟩
        cases ds with
        | nil => exact Or.inl hm
        | cons e es =>
          right
          exact ih.mpr ⟨e :: es, suf, rfl, by simp,
            fun x hx => hall x (List.mem_cons_of_mem _ hx), hm⟩

theorem notSpaceOrAt_iff (c : Char) :
    notSpaceOrAt c = true ↔ isTrimmable c = false ∧ c ≠ '@' := by
  simp [notSpaceOrAt]

/-- The regular expression of both forms accepts exactly the texts of the shape
`local@domain.tld`. -/
theorem emailRegexTest_iff (email : String) :
    emailRegexTest email = true ↔ HasEmailShape email := by
  unfold emailRegexTest HasEmailShape
  rw [matchItems_oneOrMore]
  constructor
  · rintro ⟨loc, s1, hs, hloc, hlocAll, h1⟩
    obtain ⟨c, s2, rfl, hc, h2⟩ := (matchItems_one _ _ _).mp h1
    obtain ⟨domain, s3, rfl, hdomain, hdomainAll, h3⟩ := (matchItems_oneOrMore _ _ _).mp h2
    obtain ⟨d, s4, rfl, hd, h4⟩ := (matchItems_one _ _ _).mp h3
    obtain ⟨tld, s5, rfl, htld, htldAll, h5⟩ := (matchItems_oneOrMore _ _ _).mp h4
    have hs5 := (matchItems_nil _).mp h5
    subst hs5
    have hc' : c = '@' := by simpa using hc
    have hd' : d = '.' := by simpa using hd
    subst hc' hd'
    refine ⟨loc, domain, tld, by simpa using hs, hloc, hdomain, htld, ?_, ?_, ?_⟩
    · exact fun x hx => (notSpaceOrAt_iff x).mp (hlocAll x hx)
    · exact fun x hx => (notSpaceOrAt_iff x).mp (hdomainAll x hx)
    · exact fun x hx => (notSpaceOrAt_iff x).mp (htldAll x hx)
  · rintro ⟨loc, domain, tld, hs, hloc, hdomain, htld, hlocAll, hdomainAll, htldAll⟩
    refine ⟨loc, '@' :: (domain ++ '.' :: tld), hs, hloc,
      fun x hx => (notSpaceOrAt_iff x).mpr (hlocAll x hx), ?_⟩
    refine (matchItems_one _ _ _).mpr ⟨'@', _, rfl, by simp, ?_⟩
    refine (matchItems_oneOrMore _ _ _).mpr ⟨domain, '.' :: tld, rfl, hdomain,
      fun x hx => (notSpaceOrAt_iff x).mpr (hdomainAll x hx), ?_⟩
    refine (matchItems_one _ _ _).mpr ⟨'.', _, rfl, by simp, ?_⟩
    exact (matchItems_oneOrMore _ _ _).mpr ⟨tld, [], by simp, htld,
      fun x hx => (notSpaceOrAt_iff x).mpr (htldAll x hx), (matchItems_nil _).mpr rfl⟩

/-- An address of the shape `local@domain.tld` holds exactly one `@` and no white
space. -/
theorem HasEmailShape.one_at {email : String} (h : HasEmailShape email) :
    email.data.count '@' = 1 ∧ ∀ c ∈ email.data, isTrimmable c = false := by
  obtain ⟨loc, domain, tld, hdata, _, _, _, hloc, hdomain, htld⟩ := h
  have hcount : ∀ l : List Char, (∀ c ∈ l, isTrimmable c = false ∧ c ≠ '@') →
      l.count '@' = 0 := by
    intro l hl
    rw [List.count_eq_zero]
    intro hmem
    exact (hl _ hmem).2 rfl
  constructor
  · rw [hdata]
    simp [List.count_append, List.count_cons, hcount loc hloc, hcount domain hdomain,
      hcount tld htld]
  · intro c hc
    rw [hdata] at hc
    simp only [List.mem_append, List.mem_cons] at hc
    rcases hc with h | h | h | h | h
    · exact (hloc c h).1
    · subst h; decide
    · exact (hdomain c h).1
    · subst h; decide
    · exact (htld c h).1

/-- Claim C25: for every state of the profile form, `validateForm` returns valid
exactly when the trimmed full name is not empty, the trimmed email is not empty and
has the shape `local@domain.tld` (no white space, no `@` inside the parts), and, if
the password section is open and a new password is entered, a current password is
given, the new password has at least 6 characters (UTF-16 code units, as `length`
counts them) and equals the confirmation; consequently every new password that
`handleFormSubmit` sends has at least 6 characters, equals its confirmation and comes
with a non-empty current password. -/
theorem validateForm_valid_iff (form : ProfileForm) :
    (validateForm form = .valid ↔
      trim form.fullName ≠ "" ∧ trim form.email ≠ "" ∧ HasEmailShape (trim form.email)
        ∧ (form.passwordOpen = true → form.newPassword ≠ "" →
            form.currentPassword ≠ "" ∧ 6 ≤ jsLength form.newPassword
              ∧ form.newPassword = form.confirmPassword))
    ∧ (∀ data newPassword, handleFormSubmit form = .ok data →
        data.new_password = some newPassword →
        6 ≤ jsLength newPassword ∧ newPassword = form.confirmPassword
          ∧ ∃ current, data.current_password = some current ∧ current ≠ "") := by
  have hiff : validateForm form = .valid ↔
      trim form.fullName ≠ "" ∧ trim form.email ≠ "" ∧ HasEmailShape (trim form.email)
        ∧ (form.passwordOpen = true → form.newPassword ≠ "" →
            form.currentPassword ≠ "" ∧ 6 ≤ jsLength form.newPassword
              ∧ form.newPassword = form.confirmPassword) := by
    rw [← emailRegexTest_iff]
    unfold validateForm
    by_cases h1 : trim form.fullName = ""
    · simp [h1]
    by_cases h2 : trim form.email = ""
    · simp [h1, h2]
    by_cases h3 : emailRegexTest (trim form.email) = true
    · by_cases h4 : form.passwordOpen = true ∧ form.newPassword ≠ ""
      · by_cases h5 : form.currentPassword = ""
        · simp [h1, h2, h3, h4, h5]
        · by_cases h6 : jsLength form.newPassword < 6
          · simp [h1, h2, h3, h4, h5, h6]
          · by_cases h7 : form.newPassword = form.confirmPassword
            · simp [h1, h2, h3, h4, h5, h6, h7]
            · simp [h1, h2, h3, h4, h5, h6, h7]
      · simp only [h1, h2, h3, h4, if_false, Bool.not_true, Bool.false_eq_true, ne_eq,
          not_false_eq_true, true_and, true_iff]
        intro hopen hnew
        exact absurd ⟨hopen, hnew⟩ h4
    · simp [h1, h2, h3]
  refine ⟨hiff, ?_⟩
  intro data newPassword hsent hnew
  unfold handleFormSubmit at hsent
  cases hv : validateForm form with
  | invalid message => simp [hv] at hsent
  | valid =>
    obtain ⟨_, _, _, hpw⟩ := hiff.mp hv
    simp only [hv] at hsent
    by_cases h4 : form.passwordOpen = true ∧ form.newPassword ≠ ""
    · rw [if_pos h4] at hsent
      simp only [Except.ok.injEq] at hsent
      subst hsent
      simp only [Option.some.injEq] at hnew
      subst hnew
      obtain ⟨hc, hl, he⟩ := hpw h4.1 h4.2
      exact ⟨hl, he, form.currentPassword, rfl, hc⟩
    · rw [if_neg h4] at hsent
      simp only [Except.ok.injEq] at hsent
      subst hsent
      simp at hnew

/-- Witness for claim C25: a password change with a six-letter password is sent. -/
theorem validateForm_valid_iff_witness :
    validateForm passwordChangeForm = .valid ∧ 6 ≤ jsLength "sesame" :=
  ⟨by decide!,
    ((validateForm_valid_iff passwordChangeForm).2 passwordChangeData "sesame"
      (by rfl) rfl).1⟩

/-- Claim C26: for every input of the registration form, a register request is sent
only when the trimmed name, email and user name and the password are all non-empty,
the password has at least 6 characters (UTF-16 code units) and the trimmed email has
the shape `local@domain.tld`, and then exactly one is sent; otherwise no request is
sent and the error line shows the message of the first check that fails. -/
theorem submitRegister_sends_only_valid (api : APIService) (form : RegisterForm)
    (answer : FetchCall → FetchOutcome Unit) :
    ((trim form.name ≠ "" ∧ trim form.email ≠ "" ∧ trim form.username ≠ ""
        ∧ form.password ≠ "" ∧ 6 ≤ jsLength form.password
        ∧ HasEmailShape (trim form.email)) →
      fetchesOf (submitRegister api form answer).2
        = [api.requestConfig "/auth/register"
            (registerOptions (trim form.name) (trim form.email) (trim form.username)
              form.password)])
    ∧ (fetchesOf (submitRegister api form answer).2 ≠ [] →
        trim form.name ≠ "" ∧ trim form.email ≠ "" ∧ trim form.username ≠ ""
          ∧ form.password ≠ "" ∧ 6 ≤ jsLength form.password
          ∧ HasEmailShape (trim form.email)
          ∧ (trim form.email).data.count '@' = 1
          ∧ ∀ c ∈ (trim form.email).data, isTrimmable c = false)
    ∧ ((trim form.name = "" ∨ trim form.email = "" ∨ trim form.username = ""
          ∨ form.password = "") →
        submitRegister api form answer
          = ({ registerError := "Please fill in all fields", loginShown := none }, []))
    ∧ (¬ (trim form.name = "" ∨ trim form.email = "" ∨ trim form.username = ""
          ∨ form.password = "") → jsLength form.password < 6 →
        submitRegister api form answer
          = ({ registerError := "Password must be at least 6 characters", loginShown := none },
              []))
    ∧ (¬ (trim form.name = "" ∨ trim form.email = "" ∨ trim form.username = ""
          ∨ form.password = "") → 6 ≤ jsLength form.password →
        ¬ HasEmailShape (trim form.email) →
        submitRegister api form answer
          = ({ registerError := "Please enter a valid email address", loginShown := none },
              [])) := by
  have hA : (trim form.name = "" ∨ trim form.email = "" ∨ trim form.username = ""
        ∨ form.password = "") →
      submitRegister api form answer
        = ({ registerError := "Please fill in all fields", loginShown := none }, []) := by
    intro h
    unfold submitRegister
    simp only [h, if_true]
  have hB : ¬ (trim form.name = "" ∨ trim form.email = "" ∨ trim form.username = ""
        ∨ form.password = "") → jsLength form.password < 6 →
      submitRegister api form answer
        = ({ registerError := "Password must be at least 6 characters", loginShown := none },
            []) := by
    intro h hl
    unfold submitRegister
    simp only [h, if_false, hl, if_true]
  have hC : ¬ (trim form.name = "" ∨ trim form.email = "" ∨ trim form.username = ""
        ∨ form.password = "") → 6 ≤ jsLength form.password →
      ¬ HasEmailShape (trim form.email) →
      submitRegister api form answer
        = ({ registerError := "Please enter a valid email address", loginShown := none },
            []) := by
    intro h hl he
    rw [← emailRegexTest_iff] at he
    unfold submitRegister
    simp only [h, if_false, not_lt.mpr hl, he, Bool.not_false, if_true]
  have hD : ¬ (trim form.name = "" ∨ trim form.email = "" ∨ trim form.username = ""
        ∨ form.password = "") → 6 ≤ jsLength form.password →
      HasEmailShape (trim form.email) →
      fetchesOf (submitRegister api form answer).2
        = [api.requestConfig "/auth/register"
            (registerOptions (trim form.name) (trim form.email) (trim form.username)
              form.password)] := by
    intro h hl he
    rw [← emailRegexTest_iff] at he
    unfold submitRegister
    simp only [h, if_false, not_lt.mpr hl, he, Bool.not_true, Bool.false_eq_true,
      request_calls]
    cases (api.request "/auth/register"
      (registerOptions (trim form.name) (trim form.email) (trim form.username)
        form.password) answer).result with
    | ok r => rfl
    | error message => rfl
  refine ⟨?_, ?_, hA, hB, hC⟩
  · rintro ⟨h1, h2, h3, h4, h5, h6⟩
    exact hD (by simp [h1, h2, h3, h4]) h5 h6
  · intro hsent
    by_cases h : trim form.name = "" ∨ trim form.email = "" ∨ trim form.username = ""
        ∨ form.password = ""
    · rw [hA h] at hsent
      exact absurd rfl hsent
    · by_cases hl : jsLength form.password < 6
      · rw [hB h hl] at hsent
        exact absurd rfl hsent
      · by_cases he : HasEmailShape (trim form.email)
        · simp only [not_or] at h
          exact ⟨h.1, h.2.1, h.2.2.1, h.2.2.2, not_lt.mp hl, he, he.one_at.1, he.one_at.2⟩
        · rw [hC h (not_lt.mp hl) he] at hsent
          exact absurd rfl hsent

/-! ## The admin console -/

/-- The access check fails exactly when the token is missing or empty, no user is
cached, or the cached user's role is not `admin`. -/
theorem accessDenied_iff (token : Option String) (user : Option CachedUser) :
    accessDenied token user = true ↔
      token = none ∨ token = some "" ∨ user = none
        ∨ ∃ u, user = some u ∧ u.role ≠ some "admin" := by
  cases token with
  | none => simp [accessDenied]
  | some t =>
    cases user with
    | none => simp [accessDenied]
    | some u => simp [accessDenied]

/-- The requests of a load of the console do not depend on the access check. -/
theorem adminConsole_fetches (localStorage : StringMap) (user : Option CachedUser)
    (answers : AdminAnswers) :
    fetchesOf (adminConsole localStorage user answers)
      = [(APIService.create localStorage).requestConfig "/products" RequestOptions.empty,
         (APIService.create localStorage).requestConfig "/admin/orders" RequestOptions.empty,
         (APIService.create localStorage).requestConfig "/admin/logs" RequestOptions.empty] := by
  have hrender : ∀ (endpoint errorPrefix arrayName : String)
      (answer : FetchCall → FetchOutcome Nat),
      (renderTable (APIService.create localStorage) endpoint errorPrefix arrayName answer).2
        = [.fetch ((APIService.create localStorage).requestConfig endpoint
            RequestOptions.empty)] := by
    intro endpoint errorPrefix arrayName answer
    unfold renderTable
    simp only [request_calls]
    split <;> rfl
  unfold adminConsole
  simp only [hrender]
  split <;> rfl

/-- When the access check fails, the console alerts, assigns `auth.html` to the
location and goes on: `init` issues the product, order and activity-log requests. -/
theorem adminConsole_denied (localStorage : StringMap) (user : Option CachedUser)
    (answers : AdminAnswers)
    (hdenied : accessDenied (propGet localStorage "access_token") user = true) :
    adminConsole localStorage user answers
      = [.alert "Access Denied. Admins only.", .redirect "auth.html",
         .fetch ((APIService.create localStorage).requestConfig "/products"
            RequestOptions.empty),
         .fetch ((APIService.create localStorage).requestConfig "/admin/orders"
            RequestOptions.empty),
         .fetch ((APIService.create localStorage).requestConfig "/admin/logs"
            RequestOptions.empty)] := by
  have hrender : ∀ (endpoint errorPrefix arrayName : String)
      (answer : FetchCall → FetchOutcome Nat),
      (renderTable (APIService.create localStorage) endpoint errorPrefix arrayName answer).2
        = [.fetch ((APIService.create localStorage).requestConfig endpoint
            RequestOptions.empty)] := by
    intro endpoint errorPrefix arrayName answer
    unfold renderTable
    simp only [request_calls]
    split <;> rfl
  unfold adminConsole
  simp only [hdenied, hrender, if_true]
  rfl

/-- Claim C27: in a browser without access token and without cached user the admin
console alerts `Access Denied. Admins only.` and assigns `auth.html` to the location,
but the script goes on and `init` still issues the product, order and activity-log
requests. -/
theorem adminConsole_denied_still_requests :
    accessDenied (propGet [] "access_token") none = true
    ∧ alertsOf (adminConsole [] none adminAnswers) = ["Access Denied. Admins only."]
    ∧ redirectsOf (adminConsole [] none adminAnswers) = ["auth.html"]
    ∧ (fetchesOf (adminConsole [] none adminAnswers)).map FetchCall.url
      = [API_BASE_URL ++ "/products", API_BASE_URL ++ "/admin/orders",
         API_BASE_URL ++ "/admin/logs"]
    ∧ (adminConsole [] none adminAnswers).take 3
      = [.alert "Access Denied. Admins only.", .redirect "auth.html",
         .fetch ((APIService.create []).requestConfig "/products" RequestOptions.empty)] := by
  rw [adminConsole_denied [] none adminAnswers (by decide)]
  exact ⟨by decide, rfl, rfl, rfl, rfl⟩

/-! ## Quantity controls -/

/-- The requests of `updateQ` start with the update of the line. -/
theorem updateQ_fetches (api : APIService) (id : Nat) (newQ : Int) (answers : UpdateAnswers)
    (page : CartPage) :
    ∃ rest, fetchesOf (updateQ api id newQ answers page).2
      = api.requestConfig ("/cart/" ++ toString id) (updateCartOptions newQ) :: rest := by
  unfold updateQ
  simp only [request_calls]
  split
  · exact ⟨_, rfl⟩
  · exact ⟨_, rfl⟩

/-- The `−` button: below 2 nothing is sent and the page is unchanged, otherwise the
update carries `q - 1`, which is at least 1. -/
theorem decreaseQ_guarded (api : APIService) (id : Nat) (q : Int) (answers : UpdateAnswers)
    (page : CartPage) :
    (q ≤ 1 → (decreaseQ api id q answers page).1 = page
        ∧ fetchesOf (decreaseQ api id q answers page).2 = [])
    ∧ (2 ≤ q → 1 ≤ q - 1 ∧ ∃ rest, fetchesOf (decreaseQ api id q answers page).2
        = api.requestConfig ("/cart/" ++ toString id) (updateCartOptions (q - 1)) :: rest) := by
  constructor
  · intro h
    unfold decreaseQ
    rw [if_pos h]
    exact ⟨rfl, rfl⟩
  · intro h
    refine ⟨by omega, ?_⟩
    unfold decreaseQ
    rw [if_neg (by omega)]
    exact updateQ_fetches api id (q - 1) answers page

/-- The `+` button: at or above the maximum nothing is sent and the page is unchanged,
otherwise the update carries `q + 1`, which is at most the maximum passed. -/
theorem increaseQ_guarded (api : APIService) (id : Nat) (q maxStock : Int)
    (answers : UpdateAnswers) (page : CartPage) :
    (maxStock ≤ q → (increaseQ api id q maxStock answers page).1 = page
        ∧ fetchesOf (increaseQ api id q maxStock answers page).2 = [])
    ∧ (q < maxStock → q + 1 ≤ maxStock
        ∧ ∃ rest, fetchesOf (increaseQ api id q maxStock answers page).2
          = api.requestConfig ("/cart/" ++ toString id) (updateCartOptions (q + 1)) :: rest) := by
  constructor
  · intro h
    unfold increaseQ
    rw [if_pos (by omega)]
    exact ⟨rfl, rfl⟩
  · intro h
    refine ⟨by omega, ?_⟩
    unfold increaseQ
    rw [if_neg (by omega)]
    exact updateQ_fetches api id (q + 1) answers page

/-- For a line whose product has a stock of at least 1 the rendered `+` button passes
that stock as the maximum. -/
theorem maxStockOf_of_pos (item : CartItem) (product : Product)
    (hproduct : item.product = some product) (hstock : 1 ≤ product.stock) :
    maxStockOf item = product.stock := by
  unfold maxStockOf
  rw [hproduct]
  simp only
  rw [if_neg (by omega)]

/-- Claim C28: for a cart line of quantity 1 whose product has stock 0, the rendered
`+` button passes `product.stock || 99`, that is 99, as the maximum, so `increaseQ`
sends an update with quantity 2, above the stock of the product. -/
theorem plusClicked_sold_out_sends_update :
    soldOutLine.product.map Product.stock = some 0
    ∧ soldOutLine.quantity = 1
    ∧ maxStockOf soldOutLine = 99
    ∧ (fetchesOf (plusClicked (APIService.create sampleStorage) soldOutLine updateSucceeds
          soldOutPage).2).head?
        = some ((APIService.create sampleStorage).requestConfig "/cart/7"
            (updateCartOptions 2))
    ∧ (updateCartOptions 2).body = some "\x7b\"quantity\":2\x7d" := by
  refine ⟨by decide, by decide, by decide, ?_, by decide⟩
  decide!

/-! ## The quantity input of the product page -/

/-- The value written by `changeQty` for a loaded product: the sum, raised to 1, then
lowered to the stock. -/
theorem changeQty_eq (product : Product) (value delta : Int) :
    changeQty (some product) value delta = min (max (value + delta) 1) product.stock := by
  unfold changeQty
  simp only
  split <;> split <;> omega

/-- Counterexample to claim C29: for a product with stock 0 the `+` button turns the
quantity 1 into 0, which is below 1. -/
theorem changeQty_sold_out_below_one :
    soldOutToy.stock = 0 ∧ changeQty (some soldOutToy) 1 1 = 0
    ∧ ¬ (1 ≤ changeQty (some soldOutToy) 1 1
          ∧ changeQty (some soldOutToy) 1 1 ≤ soldOutToy.stock) := by
  decide

/-- Claim C29 (amended): for every integer current quantity, every integer delta and
every loaded product with a known stock, the value `changeQty` writes to the quantity
input is at most the stock, and it is at least 1 whenever the stock is at least 1;
for stock 0 it is 0. -/
theorem changeQty_within_stock (product : Product) (value delta : Int) :
    changeQty (some product) value delta ≤ product.stock
    ∧ (1 ≤ product.stock → 1 ≤ changeQty (some product) value delta)
    ∧ (product.stock = 0 → changeQty (some product) value delta = 0) := by
  rw [changeQty_eq]
  refine ⟨by omega, ?_, ?_⟩
  · intro h
    omega
  · intro h
    omega

/-- Witness for claim C29: a product with stock 3, quantity 3, one more. -/
theorem changeQty_within_stock_witness :
    1 ≤ (toy 1 "Sets" 20 5 10).stock
    ∧ 1 ≤ changeQty (some (toy 1 "Sets" 20 5 10)) 3 1
    ∧ changeQty (some (toy 1 "Sets" 20 5 10)) 3 1 ≤ (toy 1 "Sets" 20 5 10).stock :=
  ⟨by decide,
    (changeQty_within_stock (toy 1 "Sets" 20 5 10) 3 1).2.1 (by decide),
    (changeQty_within_stock (toy 1 "Sets" 20 5 10) 3 1).1⟩

end ToyVerse
